import Mathlib

/-!
acquire-driver-common: storage backends and the simulated camera.

A shallow embedding of `src/storage/framecheck.c`, `src/storage/raw.c`,
`src/storage/trash.c` and `src/simcams/simulated.camera.c` (configuration,
the streamer thread and the frame hand-over), followed by theorems about
them.

Conventions
* `size_t`, `uint64_t` are `Nat` with an explicit `% 2^64` where the C
  arithmetic can wrap; `int64_t` is `Int` reduced by `wrap_i64`.
* Pointers into a buffer of `VideoFrame` records are 64-bit addresses:
  `cur += delta` and the pointer differences are taken modulo `2^64`, and
  memory is seen through the headers that the cast
  `(const struct VideoFrame*)cur` reads, a function from the address `cur`
  to the header found there.
* `while` loops whose progress depends on data carry a fuel argument and
  return `none` when the fuel runs out.
* The streamer thread and the caller of the camera interleave at the
  granularity of the lock: a region that runs with the lock held is one
  step, and a call that waits on a condition variable returns `none` (or
  `parked`) in the state where it waits and resumes in the state where it
  is woken.
* A store past the end of a buffer is kept: the list that stands for the
  buffer grows, so a buffer longer than its allocation shows an overflow.
-/

/-- The modulus of `uint64_t` and of `size_t`. -/
def U64 : Nat := 18446744073709551616

/-- The modulus of `uint32_t`. -/
def U32 : Nat := 4294967296

/-- The device states of the storage and camera contracts. -/
inductive DeviceState where
  | AwaitingConfiguration
  | Armed
  | Running
deriving DecidableEq

/-- The status code returned by the camera operations. -/
inductive DeviceStatusCode where
  | Device_Ok
  | Device_Err
deriving DecidableEq

/-- The two fields of a `struct VideoFrame` header that the storage backends
read: the frame id (as the 64-bit pattern compared with `iframe`) and the
record length, header included. -/
structure VideoFrame where
  frame_id : Nat
  bytes_of_frame : Nat
deriving DecidableEq

/-- The scale of a pixel, `struct PixelScale`. -/
structure PixelScale where
  x : ℚ
  y : ℚ
deriving DecidableEq

/-- The settings of a storage device, `struct StorageProperties`. -/
structure StorageProperties where
  filename : String
  first_frame_id : Nat
  pixel_scale_um : PixelScale
deriving DecidableEq

/-! ## framecheck.c -/

/-- The state of the sequence-validating sink, `struct FrameCheck`. -/
structure FrameCheck where
  settings : StorageProperties
  iframe : Nat
deriving DecidableEq

namespace FrameCheck

/-- The function `framecheck_init`: zeroed state, then default settings. -/
def framecheck_init : FrameCheck :=
  { settings := { filename := "framecheck", first_frame_id := 0, pixel_scale_um := { x := 1, y := 1 } },
    iframe := 0 }

/-- The function `set`: copies the settings; `copy_ok` is the outcome of
`storage_properties_copy`. -/
def set (self : FrameCheck) (settings : StorageProperties) (copy_ok : Bool) :
    DeviceState × FrameCheck :=
  if copy_ok then (DeviceState.Armed, { self with settings := settings })
  else (DeviceState.AwaitingConfiguration, self)

/-- The function `get`. -/
def get (self : FrameCheck) : StorageProperties := self.settings

/-- The function `start`: seeds the expected id from `first_frame_id`. -/
def start (self : FrameCheck) : DeviceState × FrameCheck :=
  (DeviceState.Running, { self with iframe := self.settings.first_frame_id })

/-- The function `stop`. -/
def stop (self : FrameCheck) : DeviceState × FrameCheck :=
  (DeviceState.Armed, self)

/-- The `while (cur < end)` loop of `append`, with its two exits. The
pointers `beg`, `end_` and `cur` are 64-bit addresses and `frames a` is the
header that a read at address `a` gives. The step `cur += delta` and the
differences `cur - beg` and `end - beg` stored in `*nbytes` are taken modulo
`2^64`. The result is the returned state, the counter `iframe` and the value
stored in `*nbytes`. -/
def append_loop (frames : Nat → VideoFrame) (beg end_ : Nat) :
    Nat → Nat → Nat → Option (DeviceState × Nat × Nat)
  | 0, _, _ => none
  | fuel + 1, iframe, cur =>
    if cur < end_ then
      let im := frames cur
      let delta := im.bytes_of_frame
      if iframe = im.frame_id then
        append_loop frames beg end_ fuel ((iframe + 1) % U64) ((cur + delta) % U64)
      else
        some (DeviceState.Armed, iframe, (cur + U64 - beg % U64) % U64)
    else
      some (DeviceState.Running, iframe, (end_ + U64 - beg % U64) % U64)

/-- The function `append`: `beg` is the address in the pointer `frames`,
`nbytes` the value of `*nbytes` at entry, the third component of the result
its value at exit; `end = beg + *nbytes` is a 64-bit address. -/
def append (fuel : Nat) (self : FrameCheck) (frames : Nat → VideoFrame) (beg nbytes : Nat) :
    Option (DeviceState × FrameCheck × Nat) :=
  match append_loop frames beg ((beg + nbytes) % U64) fuel self.iframe beg with
  | none => none
  | some (st, iframe, n) => some (st, { self with iframe := iframe }, n)

end FrameCheck

/-! ## Runs of records -/

/-- The byte offset of record `j` of a run: the sum of the declared lengths
of the records before it. -/
def record_offset (recs : List VideoFrame) (j : Nat) : Nat :=
  ((recs.take j).map VideoFrame.bytes_of_frame).sum

/-- The total declared length of a run of records. -/
def run_length (recs : List VideoFrame) : Nat :=
  (recs.map VideoFrame.bytes_of_frame).sum

/-- The memory `frames` holds the records of `recs` back to back from
address `base`. -/
def holds_run (frames : Nat → VideoFrame) (base : Nat) (recs : List VideoFrame) : Prop :=
  ∀ j (hj : j < recs.length), frames (base + record_offset recs j) = recs[j]

/-- The headers seen from the start of a buffer laid out from a list of
records: the header of record `j` at its offset, a zero header elsewhere. -/
def layout : List VideoFrame → Nat → VideoFrame
  | [], _ => { frame_id := 0, bytes_of_frame := 0 }
  | r :: rs, off =>
    if off = 0 then r
    else if off < r.bytes_of_frame then { frame_id := 0, bytes_of_frame := 0 }
    else layout rs (off - r.bytes_of_frame)

/-- A memory with the records of `recs` laid out from address `beg` and a
zero header at every other address. -/
def layout_at (beg : Nat) (recs : List VideoFrame) : Nat → VideoFrame :=
  fun a => if a < beg then { frame_id := 0, bytes_of_frame := 0 } else layout recs (a - beg)

/-! ## trash.c -/

/-- The state of the discarding sink, `struct Trash`. -/
structure Trash where
  settings : StorageProperties
  iframe : Nat
deriving DecidableEq

/-- The function `trash_init`: the state is zeroed by `memset`. -/
def trash_init : Trash :=
  { settings := { filename := "", first_frame_id := 0, pixel_scale_um := { x := 0, y := 0 } },
    iframe := 0 }

/-- The function `trash_set`. -/
def trash_set (self : Trash) (settings : StorageProperties) (copy_ok : Bool) :
    DeviceState × Trash :=
  if copy_ok then (DeviceState.Armed, { self with settings := settings })
  else (DeviceState.AwaitingConfiguration, self)

/-- The function `trash_get`. -/
def trash_get (self : Trash) : StorageProperties := self.settings

/-- The function `trash_start`. -/
def trash_start (self : Trash) : DeviceState × Trash :=
  (DeviceState.Running, { self with iframe := self.settings.first_frame_id })

/-- The function `trash_stop`. -/
def trash_stop (self : Trash) : DeviceState × Trash :=
  (DeviceState.Armed, self)

/-- The `while (cur < end)` loop of `trash_append`: `end_` and `cur` are
64-bit addresses, `frames a` is the header that a read at address `a` gives,
and the step `cur += delta` is taken modulo `2^64`. The result is the counter
`iframe` when the loop exits. -/
def trash_append_loop (frames : Nat → VideoFrame) (end_ : Nat) :
    Nat → Nat → Nat → Option Nat
  | 0, _, _ => none
  | fuel + 1, iframe, cur =>
    if cur < end_ then
      let im := frames cur
      let delta := im.bytes_of_frame
      trash_append_loop frames end_ fuel ((iframe + 1) % U64) ((cur + delta) % U64)
    else
      some iframe

/-- The function `trash_append`: `beg` is the address in the pointer
`frames`; `*nbytes` is never written, so the reported count is the one
passed in. -/
def trash_append (fuel : Nat) (self : Trash) (frames : Nat → VideoFrame) (beg nbytes : Nat) :
    Option (DeviceState × Trash × Nat) :=
  match trash_append_loop frames ((beg + nbytes) % U64) fuel self.iframe beg with
  | none => none
  | some iframe => some (DeviceState.Running, { self with iframe := iframe }, nbytes)

/-! ## raw.c -/

/-- The platform's `struct file`, reduced to whether it is open and the bytes
of the file it names. -/
structure file where
  is_open : Bool
  bytes : List Nat
deriving DecidableEq

/-- Modelled from the spec: the platform function `file_create` is not part
of the sources; "start creates/truncates the target file", so the file is
opened empty. -/
def file_create (_f : file) : file :=
  { is_open := true, bytes := [] }

/-- Modelled from the spec: the platform function `file_close` is not part of
the sources; "stop → Armed (flush/close)". -/
def file_close (f : file) : file :=
  { f with is_open := false }

/-- Writing `data` into a byte sequence at `offset`: bytes before the offset
are kept (a gap past the end reads as zero), bytes after the written range
are kept. -/
def write_at (old : List Nat) (offset : Nat) (data : List Nat) : List Nat :=
  (old.take offset ++ List.replicate (offset - old.length) 0) ++ data ++
    old.drop (offset + data.length)

/-- Modelled from the spec: the platform function `file_write` is not part of
the sources; "append writes the byte run at a tracked offset". Whether the
write succeeds is decided by the platform (`io_ok`); a failed write is taken
to leave the file as it was. -/
def file_write (f : file) (offset : Nat) (data : List Nat) (io_ok : Bool) : Bool × file :=
  if io_ok then (true, { f with bytes := write_at f.bytes offset data })
  else (false, f)

/-- The state of the raw file writer, `struct Raw`. -/
structure Raw where
  properties : StorageProperties
  file : file
  offset : Nat
deriving DecidableEq

/-- The function `raw_init`: zeroed state, then default properties. -/
def raw_init : Raw :=
  { properties := { filename := "out.raw", first_frame_id := 0, pixel_scale_um := { x := 1, y := 1 } },
    file := { is_open := false, bytes := [] },
    offset := 0 }

/-- The function `raw_set`; `writable` is the outcome of `file_is_writable`,
`copy_ok` that of `storage_properties_copy`. -/
def raw_set (self : Raw) (properties : StorageProperties) (writable copy_ok : Bool) :
    DeviceState × Raw :=
  if writable && copy_ok then (DeviceState.Armed, { self with properties := properties })
  else (DeviceState.AwaitingConfiguration, self)

/-- The function `raw_get`. -/
def raw_get (self : Raw) : StorageProperties := self.properties

/-- The function `raw_start`; `create_ok` is the outcome of `file_create`.
Only `self->file` is assigned. -/
def raw_start (self : Raw) (create_ok : Bool) : DeviceState × Raw :=
  if create_ok then (DeviceState.Running, { self with file := file_create self.file })
  else (DeviceState.AwaitingConfiguration, self)

/-- The function `raw_stop`. -/
def raw_stop (self : Raw) : DeviceState × Raw :=
  (DeviceState.Armed, { self with file := file_close self.file })

/-- The function `raw_append`: `frames` is the byte run, `*nbytes` its length
at entry; the third component of the result is `*nbytes` at exit. -/
def raw_append (self : Raw) (frames : List Nat) (io_ok : Bool) : DeviceState × Raw × Nat :=
  let nbytes := frames.length
  let w := file_write self.file self.offset frames io_ok
  if w.1 then
    (DeviceState.Running, { self with file := w.2, offset := (self.offset + nbytes) % U64 }, nbytes)
  else
    let r := raw_stop { self with file := w.2 }
    (r.1, r.2, 0)

/-! ## simulated.camera.c -/

/-- The tag of a pixel sample type, `enum SampleType`, as its integer value. -/
abbrev SampleType := Nat

/-- The tag `SampleType_u8`. -/
def SampleType_u8 : SampleType := 0
/-- The tag `SampleType_u16`. -/
def SampleType_u16 : SampleType := 1
/-- The tag `SampleType_i8`. -/
def SampleType_i8 : SampleType := 2
/-- The tag `SampleType_i16`. -/
def SampleType_i16 : SampleType := 3
/-- The tag `SampleType_f32`. -/
def SampleType_f32 : SampleType := 4
/-- The tag `SampleType_u10`. -/
def SampleType_u10 : SampleType := 5
/-- The tag `SampleType_u12`. -/
def SampleType_u12 : SampleType := 6
/-- The tag `SampleType_u14`. -/
def SampleType_u14 : SampleType := 7
/-- The number of sample types, `SampleTypeCount`. -/
def SampleTypeCount : Nat := 8

/-- The constant `MAX_IMAGE_WIDTH`, `1ULL << 13`. -/
def MAX_IMAGE_WIDTH : Nat := 8192
/-- The constant `MAX_IMAGE_HEIGHT`, `1ULL << 13`. -/
def MAX_IMAGE_HEIGHT : Nat := 8192

/-- The dimensions of an image, `struct image_dims_s` (each `uint32_t`). -/
structure image_dims_s where
  channels : Nat
  width : Nat
  height : Nat
  planes : Nat
deriving DecidableEq

/-- The strides of an image, `struct image_strides_s` (each `int64_t`). -/
structure image_strides_s where
  channels : Int
  width : Int
  height : Int
  planes : Int
deriving DecidableEq

/-- The shape of an image, `struct ImageShape`. -/
structure ImageShape where
  dims : image_dims_s
  strides : image_strides_s
  type : SampleType
deriving DecidableEq

/-- The readout direction, `enum Direction`. -/
inductive Direction where
  | Direction_Forward
  | Direction_Backward
deriving DecidableEq

/-- The kind of a signal, `enum SignalIOKind`. -/
inductive SignalIOKind where
  | Signal_Input
  | Signal_Output
deriving DecidableEq

/-- The edge a trigger reacts to, `enum TriggerEdge`. -/
inductive TriggerEdge where
  | TriggerEdge_Rising
  | TriggerEdge_Falling
  | TriggerEdge_NotApplicable
deriving DecidableEq

/-- One trigger setting, `struct Trigger`; `enable` is true when non-zero. -/
structure Trigger where
  enable : Nat
  line : Nat
  kind : SignalIOKind
  edge : TriggerEdge
deriving DecidableEq

/-- The input triggers of a camera, `struct camera_properties_input_triggers_s`,
with the one member the simulated camera sets. -/
structure camera_properties_input_triggers_s where
  frame_start : Trigger
deriving DecidableEq

/-- The binned shape of the region of interest, `struct camera_properties_shape_s`. -/
structure camera_properties_shape_s where
  x : Nat
  y : Nat
deriving DecidableEq

/-- The offset of the region of interest, `struct camera_properties_offset_s`. -/
structure camera_properties_offset_s where
  x : Nat
  y : Nat
deriving DecidableEq

/-- The settings of a camera, `struct CameraProperties`. The `float` fields
are only stored and copied, and are kept as rationals. -/
structure CameraProperties where
  exposure_time_us : ℚ
  line_interval_us : ℚ
  readout_direction : Direction
  binning : Nat
  pixel_type : SampleType
  shape : camera_properties_shape_s
  offset : camera_properties_offset_s
  input_triggers : camera_properties_input_triggers_s
deriving DecidableEq

/-- The bounds of one property, `struct Property`. The `float` bounds are
rationals: for every binning that `simcam_set` accepts they are integers
below `2^24`, which `float` holds exactly. -/
structure Property where
  writable : Nat
  low : ℚ
  high : ℚ
deriving DecidableEq

/-- The shape bounds of the metadata. -/
structure camera_properties_metadata_shape_s where
  x : Property
  y : Property
deriving DecidableEq

/-- The offset bounds of the metadata. -/
structure camera_properties_metadata_offset_s where
  x : Property
  y : Property
deriving DecidableEq

/-- The digital lines of the metadata. -/
structure camera_properties_metadata_digital_lines_s where
  line_count : Nat
  names : List String
deriving DecidableEq

/-- The capabilities of one trigger. -/
structure camera_properties_metadata_trigger_capabilities_s where
  input : Nat
  output : Nat
deriving DecidableEq

/-- The trigger capabilities of the metadata. -/
structure camera_properties_metadata_triggers_s where
  frame_start : camera_properties_metadata_trigger_capabilities_s
deriving DecidableEq

/-- The metadata of a camera, `struct CameraPropertyMetadata`. -/
structure CameraPropertyMetadata where
  line_interval_us : Property
  exposure_time_us : Property
  binning : Property
  shape : camera_properties_metadata_shape_s
  offset : camera_properties_metadata_offset_s
  supported_pixel_types : Nat
  digital_lines : camera_properties_metadata_digital_lines_s
  triggers : camera_properties_metadata_triggers_s
deriving DecidableEq

/-- The kind of a simulated camera, `enum BasicDeviceKind` (camera members). -/
inductive BasicDeviceKind where
  | BasicDevice_Camera_Random
  | BasicDevice_Camera_Sin
  | BasicDevice_Camera_Empty
deriving DecidableEq

/-- The member `streamer` of `struct SimulatedCamera`. -/
structure simcam_streamer_s where
  is_running : Bool
deriving DecidableEq

/-- The member `im` of `struct SimulatedCamera`; `data` is `none` for a null
pointer and otherwise the bytes of the allocation. -/
structure simcam_im_s where
  data : Option (List Nat)
  shape : ImageShape
  frame_id : Int
  last_emitted_frame_id : Int
deriving DecidableEq

/-- The member `software_trigger` of `struct SimulatedCamera`. -/
structure simcam_software_trigger_s where
  triggered : Bool
deriving DecidableEq

/-- The state of a simulated camera, `struct SimulatedCamera`. -/
structure SimulatedCamera where
  properties : CameraProperties
  kind : BasicDeviceKind
  streamer : simcam_streamer_s
  im : simcam_im_s
  software_trigger : simcam_software_trigger_s
  hardware_timestamp : Nat
  state : DeviceState
deriving DecidableEq

/-- Reduction of an integer to the range of `int64_t` (two's complement). -/
def wrap_i64 (x : Int) : Int := (x + 9223372036854775808) % 18446744073709551616 - 9223372036854775808

/-- The number of set bits among the low `n` bits of `value`. -/
def popcount_bits : Nat → Nat → Nat
  | 0, _ => 0
  | n + 1, value => value % 2 + popcount_bits n (value / 2)

/-- Modelled from the spec: `popcount_u8` is declared in simulated.camera.c and
defined elsewhere; `simcam_set` uses it to test that "binning is a power of
two", so it is the number of set bits of an 8-bit value. -/
def popcount_u8 (value : Nat) : Nat := popcount_bits 8 (value % 256)

/-- The function `bytes_of_type`: table lookup, `0` for a tag out of range. -/
def bytes_of_type (type : SampleType) : Nat :=
  if type < SampleTypeCount then [1, 2, 1, 2, 4, 2, 2, 2].getD type 0 else 0

/-- The function `bytes_of_image`: `strides.planes * bytes_of_type`, computed
in `size_t`. -/
def bytes_of_image (shape : ImageShape) : Nat :=
  ((shape.strides.planes * (bytes_of_type shape.type : Int)) % (U64 : Int)).toNat

/-- The function `aligned_bytes_of_image`: `((n + 31) >> 5) << 5` in `size_t`. -/
def aligned_bytes_of_image (shape : ImageShape) : Nat :=
  let n := bytes_of_image shape
  ((((n + 31) % U64) / 32) * 32) % U64

/-- The function `compute_strides`: `st[0] = 1` and `st[i] = st[i-1] * dims[i-1]`
for `i = 1, 2, 3`, the members taken in declaration order; each product is
an `int64_t`. -/
def compute_strides (shape : ImageShape) : ImageShape :=
  let st0 : Int := 1
  let st1 : Int := wrap_i64 (st0 * (shape.dims.channels : Int))
  let st2 : Int := wrap_i64 (st1 * (shape.dims.width : Int))
  let st3 : Int := wrap_i64 (st2 * (shape.dims.height : Int))
  { shape with strides := { channels := st0, width := st1, height := st2, planes := st3 } }

/-- The conversion `(uint32_t)` of a non-negative `float` value: truncation. -/
def cast_u32 (q : ℚ) : Nat := (Int.toNat (Int.floor q)) % U32

/-- The macro `max(a, b)`: `((a) > (b)) ? (a) : (b)`. -/
def max_macro (a b : ℚ) : ℚ := if a > b then a else b

/-- The macro `clamp(v, L, H)`: `((v) < (L)) ? (L) : (((v) > (H)) ? (H) : (v))`. -/
def clamp (v L H : Nat) : Nat := if v < L then L else if v > H then H else v

/-- The function `simcam_get_meta`. -/
def simcam_get_meta (self : SimulatedCamera) : DeviceStatusCode × CameraPropertyMetadata :=
  let binning : ℚ := (self.properties.binning : ℚ)
  let cw : ℚ := (self.properties.shape.x : ℚ)
  let ch : ℚ := (self.properties.shape.y : ℚ)
  let w : ℚ := (MAX_IMAGE_WIDTH : ℚ) / binning
  let h : ℚ := (MAX_IMAGE_HEIGHT : ℚ) / binning
  let ox : ℚ := max_macro 0 (w - cw - 1)
  let oy : ℚ := max_macro 0 (h - ch - 1)
  (DeviceStatusCode.Device_Ok,
   { line_interval_us := { writable := 0, low := 0, high := 0 },
     exposure_time_us := { writable := 1, low := 0, high := 1000000 },
     binning := { writable := 1, low := 1, high := 8 },
     shape := { x := { writable := 1, low := 1, high := w },
                y := { writable := 1, low := 1, high := h } },
     offset := { x := { writable := 1, low := 0, high := ox },
                 y := { writable := 1, low := 0, high := oy } },
     supported_pixel_types :=
       2 ^ SampleType_u8 + 2 ^ SampleType_u16 + 2 ^ SampleType_i8 + 2 ^ SampleType_i16 +
         2 ^ SampleType_f32,
     digital_lines := { line_count := 1, names := ["software"] },
     triggers := { frame_start := { input := 1, output := 0 } } })

/-- The function `simcam_execute_trigger`: sets the flag and wakes the
waiters of the trigger condition. -/
def simcam_execute_trigger (self : SimulatedCamera) : DeviceStatusCode × SimulatedCamera :=
  (DeviceStatusCode.Device_Ok, { self with software_trigger := { triggered := true } })

/-- The call `malloc(nbytes)`: `heap_ok` says whether the allocation succeeds;
the fresh bytes are indeterminate and taken as zero. -/
def malloc (nbytes : Nat) (heap_ok : Bool) : Option (List Nat) :=
  if heap_ok then some (List.replicate nbytes 0) else none

/-- The function `simcam_set`. The result is the status, the camera and the
caller's `settings`, which the function may write to. -/
def simcam_set (self : SimulatedCamera) (settings : CameraProperties) (heap_ok : Bool) :
    DeviceStatusCode × SimulatedCamera × CameraProperties :=
  let settings := if settings.binning = 0 then { settings with binning := 1 } else settings
  if popcount_u8 settings.binning = 1 then
    let self :=
      if self.properties.input_triggers.frame_start.enable ≠ 0 ∧
          settings.input_triggers.frame_start.enable = 0 then
        (simcam_execute_trigger self).2
      else self
    let self := { self with properties := settings }
    let self := { self with properties := { self.properties with pixel_type := settings.pixel_type } }
    let self := { self with properties := { self.properties with
      input_triggers := { frame_start := { enable := settings.input_triggers.frame_start.enable,
                                           line := 0,
                                           kind := SignalIOKind.Signal_Input,
                                           edge := TriggerEdge.TriggerEdge_Rising } } } }
    let meta := (simcam_get_meta self).2
    let shape := self.im.shape
    let shape := { shape with dims :=
      { channels := 1,
        width := clamp settings.shape.x (cast_u32 meta.shape.x.low) (cast_u32 meta.shape.x.high),
        height := clamp settings.shape.y (cast_u32 meta.shape.y.low) (cast_u32 meta.shape.y.high),
        planes := 1 } }
    let shape := { shape with type := settings.pixel_type }
    let shape := compute_strides shape
    let self := { self with im := { self.im with shape := shape } }
    let self := { self with properties := { self.properties with
      shape := { x := shape.dims.width, y := shape.dims.height } } }
    let nbytes := aligned_bytes_of_image shape
    let self := { self with im := { self.im with data := malloc nbytes heap_ok } }
    if self.im.data.isSome then (DeviceStatusCode.Device_Ok, self, settings)
    else (DeviceStatusCode.Device_Err, self, settings)
  else
    (DeviceStatusCode.Device_Err, self, settings)

/-- The function `simcam_get`. -/
def simcam_get (self : SimulatedCamera) : DeviceStatusCode × CameraProperties :=
  (DeviceStatusCode.Device_Ok, self.properties)

/-- The function `simcam_get_shape`. -/
def simcam_get_shape (self : SimulatedCamera) : DeviceStatusCode × ImageShape :=
  (DeviceStatusCode.Device_Ok, self.im.shape)

/-- The function `simcam_make_camera`. -/
def simcam_make_camera (kind : BasicDeviceKind) : SimulatedCamera :=
  let properties : CameraProperties :=
    { exposure_time_us := 10000,
      line_interval_us := 0,
      readout_direction := Direction.Direction_Forward,
      binning := 1,
      pixel_type := SampleType_u8,
      shape := { x := 1920, y := 1080 },
      offset := { x := 0, y := 0 },
      input_triggers := { frame_start := { enable := 0, line := 0,
                                           kind := SignalIOKind.Signal_Input,
                                           edge := TriggerEdge.TriggerEdge_Rising } } }
  { properties := properties,
    kind := kind,
    streamer := { is_running := false },
    im := { data := none,
            shape := { dims := { channels := 1, width := properties.shape.x,
                                 height := properties.shape.y, planes := 1 },
                       strides := { channels := 1, width := 1,
                                    height := (properties.shape.x : Int),
                                    planes := ((properties.shape.x * properties.shape.y : Nat) : Int) },
                       type := properties.pixel_type },
            frame_id := 0,
            last_emitted_frame_id := 0 },
    software_trigger := { triggered := false },
    hardware_timestamp := 0,
    state := DeviceState.AwaitingConfiguration }

/-! ## Concrete inputs -/

/-- A FrameCheck backend configured with `first_frame_id = 5`. -/
def framecheck_five : FrameCheck :=
  { settings := { filename := "framecheck", first_frame_id := 5, pixel_scale_um := { x := 1, y := 1 } },
    iframe := 0 }

/-- Two records with ids 5 and 6, of 80 and 96 bytes. -/
def run_five_six : List VideoFrame :=
  [{ frame_id := 5, bytes_of_frame := 80 }, { frame_id := 6, bytes_of_frame := 96 }]

/-- Two records of 80 and 96 bytes, the second with id 9 where 6 is expected. -/
def run_five_nine : List VideoFrame :=
  [{ frame_id := 5, bytes_of_frame := 80 }, { frame_id := 9, bytes_of_frame := 96 }]

/-- A buffer in which every header declares a length of zero. -/
def zero_length_frames : Nat → VideoFrame :=
  fun _ => { frame_id := 0, bytes_of_frame := 0 }

/-- A number that is a power of two. -/
def is_power_of_two (n : Nat) : Prop := ∃ k, n = 2 ^ k

/-- A shape whose three leading dimensions are `2^21` each. -/
def shape_two_pow_21 : ImageShape :=
  { dims := { channels := 2097152, width := 2097152, height := 2097152, planes := 1 },
    strides := { channels := 0, width := 0, height := 0, planes := 0 },
    type := SampleType_u8 }

/-- A shape of 3 channels, 640 by 480, one plane. -/
def shape_rgb_vga : ImageShape :=
  { dims := { channels := 3, width := 640, height := 480, planes := 1 },
    strides := { channels := 0, width := 0, height := 0, planes := 0 },
    type := SampleType_u8 }

/-- A request: the default properties with the given binning and shape. -/
def request (binning x y : Nat) : CameraProperties :=
  { (simcam_make_camera BasicDeviceKind.BasicDevice_Camera_Empty).properties with
    binning := binning, shape := { x := x, y := y } }

/-! ## simulated.camera.c: streaming -/

/-- The `size` low bytes of `v`, least significant first: the object
representation of an integer of `size` bytes. -/
def le_bytes : Nat → Nat → List Nat
  | 0, _ => []
  | size + 1, v => v % 256 :: le_bytes size (v / 256)

/-- The function `compute_full_resolution_shape_and_offset`: the shape and
the two offsets it writes. The products are `uint32_t`; the shape starts
zeroed, as `full` does in the caller. -/
def compute_full_resolution_shape_and_offset (self : SimulatedCamera) :
    ImageShape × Nat × Nat :=
  let b := self.properties.binning % 256
  let w := (b * self.properties.shape.x) % U32
  let h := (b * self.properties.shape.y) % U32
  let offset0 := (b * self.properties.offset.x) % U32
  let offset1 := (b * self.properties.offset.y) % U32
  let shape : ImageShape :=
    { dims := { channels := 1, width := w, height := h, planes := 1 },
      strides := { channels := 0, width := 0, height := 0, planes := 0 },
      type := self.im.shape.type }
  (compute_strides shape, offset0, offset1)

/-- The loop of `im_fill_rand`, `for (p = buf; p < end; p += 4)`, as `k`
stores of a 32-bit word; `rand i` is the value of call `i` of
`pcg32_random`. A store past the end of the list lands in the memory that
follows the allocation: the list grows, as in `write_at`. -/
def im_fill_rand_loop (rand : Nat → Nat) : Nat → Nat → List Nat → List Nat
  | 0, _, buf => buf
  | k + 1, p, buf =>
    im_fill_rand_loop rand k (p + 4) (write_at buf p (le_bytes 4 (rand (p / 4))))

/-- The function `im_fill_rand`: fills `aligned_bytes_of_image shape` bytes. -/
def im_fill_rand (shape : ImageShape) (buf : List Nat) (rand : Nat → Nat) : List Nat :=
  let nbytes := aligned_bytes_of_image shape
  im_fill_rand_loop rand ((nbytes + 3) / 4) 0 buf

/-- The template `im_fill_pattern<T>` of imfill.pattern.cpp for an element
type of `size` bytes. The value of the `float` expression for pixel `(x, y)`,
converted to `T`, is outside the model and given by `px x y`; it is stored
at element offset `strides.width * x + strides.height * y`. -/
def im_fill_pattern_T (size : Nat) (px : Nat → Nat → Nat) (shape : ImageShape)
    (buf : List Nat) : List Nat :=
  (List.range shape.dims.height).foldl (fun buf y =>
    (List.range shape.dims.width).foldl (fun buf x =>
      let o := ((shape.strides.width % (U64 : Int)).toNat * x +
        (shape.strides.height % (U64 : Int)).toNat * y) % U64
      write_at buf (o * size) (le_bytes size (px x y))) buf) buf

/-- The function `im_fill_pattern`: dispatch on the sample type; any other
type is logged and the buffer is left as it is. -/
def im_fill_pattern (shape : ImageShape) (px : Nat → Nat → Nat) (buf : List Nat) : List Nat :=
  if shape.type = SampleType_u8 then im_fill_pattern_T 1 px shape buf
  else if shape.type = SampleType_i8 then im_fill_pattern_T 1 px shape buf
  else if shape.type = SampleType_u16 then im_fill_pattern_T 2 px shape buf
  else if shape.type = SampleType_i16 then im_fill_pattern_T 2 px shape buf
  else if shape.type = SampleType_f32 then im_fill_pattern_T 4 px shape buf
  else buf

/-- What one iteration of the streamer thread takes from outside the
sources: the values of `pcg32_random`, the converted pattern values of this
iteration, the function `bin2` (its file is not part of the sources) and the
value of `clock_tic`. -/
structure streamer_env where
  rand : Nat → Nat
  px : Nat → Nat → Nat
  bin2 : List Nat → Nat → Nat → List Nat
  clock : Nat

/-- The binning loop of the streamer thread, `while (b) { bin2(data, w, h);
b >>= 1; w >>= 1; h >>= 1; }`, with fuel for the halvings of `b`. -/
def bin_loop (bin2 : List Nat → Nat → Nat → List Nat) :
    Nat → Nat → Nat → Nat → List Nat → List Nat
  | 0, _, _, _, data => data
  | fuel + 1, b, w, h, data =>
    if b ≠ 0 then bin_loop bin2 fuel (b / 2) (w / 2) (h / 2) (bin2 data w h) else data

/-- Steps (a) to (c) of an iteration of `simulated_camera_streamer_thread`,
under the lock: full-resolution shape, synthesis by the kind of the camera,
binning in place. A null `data` is left null (the stores are undefined
there). -/
def streamer_fill (env : streamer_env) (self : SimulatedCamera) : SimulatedCamera :=
  let full := (compute_full_resolution_shape_and_offset self).1
  let data := self.im.data.map (fun buf =>
    match self.kind with
    | BasicDeviceKind.BasicDevice_Camera_Random => im_fill_rand full buf env.rand
    | BasicDeviceKind.BasicDevice_Camera_Sin => im_fill_pattern full env.px buf
    | BasicDeviceKind.BasicDevice_Camera_Empty => buf)
  let w := full.dims.width
  let h := full.dims.height
  let b := self.properties.binning / 2
  let data := data.map (fun buf => bin_loop env.bin2 (b + 1) b w h buf)
  { self with im := { self.im with data := data } }

/-- Steps (e) and (f) of an iteration: the timestamp is taken (`clock` is the
value of `clock_tic`) and `frame_id` incremented. -/
def streamer_stamp (clock : Nat) (self : SimulatedCamera) : SimulatedCamera :=
  let self := { self with hardware_timestamp := clock }
  { self with im := { self.im with frame_id := wrap_i64 (self.im.frame_id + 1) } }

/-- The wait loop `while (!triggered)` of step (d) and what follows it: with
the flag clear the thread waits on `trigger_ready` (`none`); with the flag
set the flag is consumed and steps (e) and (f) run. A thread woken from the
wait resumes here. -/
def streamer_resume (clock : Nat) (self : SimulatedCamera) : Option SimulatedCamera :=
  if self.software_trigger.triggered = false then none
  else some (streamer_stamp clock { self with software_trigger := { triggered := false } })

/-- Steps (d) to (f) of an iteration, from the test of the trigger enable
on: the wait for the trigger is entered only with the frame-start trigger
enabled. -/
def streamer_emit (clock : Nat) (self : SimulatedCamera) : Option SimulatedCamera :=
  if self.properties.input_triggers.frame_start.enable ≠ 0 then streamer_resume clock self
  else some (streamer_stamp clock self)

/-- How an iteration of the streamer thread ends: it ran to the release of
the lock, or it is parked on `trigger_ready` in the state it left. -/
inductive streamer_outcome where
  | completed (self : SimulatedCamera)
  | parked (self : SimulatedCamera)
deriving DecidableEq

/-- One iteration of the body of `simulated_camera_streamer_thread`, from the
acquisition of the lock. -/
def streamer_iteration (env : streamer_env) (self : SimulatedCamera) : streamer_outcome :=
  let filled := streamer_fill env self
  match streamer_emit env.clock filled with
  | some done => streamer_outcome.completed done
  | none => streamer_outcome.parked filled

/-- The function `simcam_start`; `thread_ok` is the outcome of `thread_create`. -/
def simcam_start (self : SimulatedCamera) (thread_ok : Bool) :
    DeviceStatusCode × SimulatedCamera :=
  let self := { self with streamer := { is_running := true } }
  let self := { self with im := { self.im with last_emitted_frame_id := -1 } }
  let self := { self with im := { self.im with frame_id := -1 } }
  if thread_ok then (DeviceStatusCode.Device_Ok, self) else (DeviceStatusCode.Device_Err, self)

/-- The call `thread_join` of `simcam_stop`: the state in which the streamer
thread has returned from `simulated_camera_streamer_thread`. A thread parked
on `trigger_ready` (`producer_parked`) resumes at its wait and finishes its
iteration first, with `clock` the value of `clock_tic`; then, as a thread
between two iterations does, it tests `while (self->streamer.is_running)`
and returns when the flag is clear. The result is `none` when the join does
not return: the thread stays parked (the trigger flag is clear), or it finds
the running flag set and goes on with its loop. -/
def streamer_join (self : SimulatedCamera) (producer_parked : Bool) (clock : Nat) :
    Option SimulatedCamera :=
  match (if producer_parked then streamer_resume clock self else some self) with
  | none => none
  | some done => if done.streamer.is_running = true then none else some done

/-- The function `simcam_stop`: the running flag is cleared, the trigger
fired, the waiters of `frame_ready` woken and the streamer thread joined.
The result is `none` when the join does not return. -/
def simcam_stop (self : SimulatedCamera) (producer_parked : Bool) (clock : Nat) :
    Option (DeviceStatusCode × SimulatedCamera) :=
  let self := { self with streamer := { is_running := false } }
  let self := (simcam_execute_trigger self).2
  match streamer_join self producer_parked clock with
  | some self => some (DeviceStatusCode.Device_Ok, self)
  | none => none

/-- The caller's record of a frame, `struct ImageInfo`. -/
structure ImageInfo where
  shape : ImageShape
  hardware_timestamp : Nat
  hardware_frame_id : Int
deriving DecidableEq

/-- The call `memcpy(dst, src, n)` on byte lists that hold at least `n`
bytes each. -/
def memcpy (dst src : List Nat) (n : Nat) : List Nat :=
  src.take n ++ dst.drop n

/-- The part of `simcam_get_frame` that runs with the lock held, from the
test of the wait loop on. While the camera runs and no new frame is ready the
caller waits on `frame_ready` (`none`); the call resumes here, in the state
it finds when it is woken. -/
def simcam_get_frame_locked (self : SimulatedCamera) (im : List Nat) (info : ImageInfo) :
    Option (DeviceStatusCode × SimulatedCamera × List Nat × ImageInfo) :=
  if self.streamer.is_running = true ∧ self.im.last_emitted_frame_id ≥ self.im.frame_id then
    none
  else
    let self := { self with im := { self.im with last_emitted_frame_id := self.im.frame_id } }
    if self.streamer.is_running = false then
      some (DeviceStatusCode.Device_Ok, self, im, info)
    else
      let im := memcpy im (self.im.data.getD []) (bytes_of_image self.im.shape)
      let info := { info with shape := self.im.shape }
      let info := { info with hardware_frame_id := self.im.frame_id }
      let info := { info with hardware_timestamp := self.hardware_timestamp }
      some (DeviceStatusCode.Device_Ok, self, im, info)

/-- The function `simcam_get_frame`: `im` is the caller's buffer, `nbytes`
the capacity in `*nbytes`, `info` the caller's `ImageInfo`. The result is
`none` while the call waits for a frame. -/
def simcam_get_frame (self : SimulatedCamera) (im : List Nat) (nbytes : Nat) (info : ImageInfo) :
    Option (DeviceStatusCode × SimulatedCamera × List Nat × ImageInfo) :=
  if nbytes ≥ bytes_of_image self.im.shape then
    if self.streamer.is_running = true then
      simcam_get_frame_locked self im info
    else some (DeviceStatusCode.Device_Err, self, im, info)
  else some (DeviceStatusCode.Device_Err, self, im, info)

/-! ## Interleavings of the streamer thread and the caller -/

/-- One step of an interleaving: an iteration of the streamer thread (a
parked thread resumes at its wait), a call of `simcam_get_frame` with a
buffer of the given capacity, or a call of `simcam_execute_trigger`. -/
inductive sim_step_kind where
  | produce (env : streamer_env)
  | pull (capacity : Nat)
  | trigger

/-- A camera together with the position of its streamer thread, the number
of iterations the thread has completed and the `hardware_frame_id` of every
frame delivered to the caller, oldest first. -/
structure sim_state where
  cam : SimulatedCamera
  producer_parked : Bool
  completed : Nat
  delivered : List Int

/-- An `ImageInfo` before any frame was received. -/
def ImageInfo_zero : ImageInfo :=
  { shape := { dims := { channels := 0, width := 0, height := 0, planes := 0 },
               strides := { channels := 0, width := 0, height := 0, planes := 0 },
               type := 0 },
    hardware_timestamp := 0,
    hardware_frame_id := 0 }

/-- The effect of one step. A streamer step needs the running flag at the
top of the loop; a call of `simcam_get_frame` that would wait is not taken;
a frame counts as delivered when the call returns `Device_Ok` with the camera
running. -/
def sim_step (s : sim_state) : sim_step_kind → sim_state
  | sim_step_kind.produce env =>
    if s.producer_parked then
      match streamer_resume env.clock s.cam with
      | some done => { s with cam := done, producer_parked := false, completed := s.completed + 1 }
      | none => s
    else if s.cam.streamer.is_running then
      match streamer_iteration env s.cam with
      | streamer_outcome.completed done => { s with cam := done, completed := s.completed + 1 }
      | streamer_outcome.parked filled => { s with cam := filled, producer_parked := true }
    else s
  | sim_step_kind.pull capacity =>
    match simcam_get_frame s.cam (List.replicate capacity 0) capacity ImageInfo_zero with
    | none => s
    | some (status, cam, _, info) =>
      if status = DeviceStatusCode.Device_Ok ∧ s.cam.streamer.is_running = true then
        { s with cam := cam, delivered := s.delivered ++ [info.hardware_frame_id] }
      else { s with cam := cam }
  | sim_step_kind.trigger =>
    { s with cam := (simcam_execute_trigger s.cam).2 }

/-- The state after a list of steps, taken in order. -/
def sim_run (s : sim_state) (steps : List sim_step_kind) : sim_state :=
  steps.foldl sim_step s

/-- The state right after `simcam_start`: the thread is at the top of its
loop, nothing is delivered. -/
def sim_started (self : SimulatedCamera) : sim_state :=
  { cam := (simcam_start self true).2, producer_parked := false, completed := 0, delivered := [] }

/-- An environment whose random and pattern values are zero and whose `bin2`
leaves the buffer as it is. -/
def quiet_env (clock : Nat) : streamer_env :=
  { rand := fun _ => 0, px := fun _ _ => 0, bin2 := fun buf _ _ => buf, clock := clock }

/-- A request: the default properties with the given binning and shape and
the software frame-start trigger enabled. -/
def request_triggered (binning x y : Nat) : CameraProperties :=
  { request binning x y with
    input_triggers := { frame_start := { enable := 1, line := 0,
                                         kind := SignalIOKind.Signal_Input,
                                         edge := TriggerEdge.TriggerEdge_Rising } } }

/-- The rounds of a caller that keeps pace with an untriggered camera: one
iteration of the streamer thread, then one call of `simcam_get_frame`. -/
def paced_steps (envs : List streamer_env) (capacity : Nat) : List sim_step_kind :=
  envs.flatMap (fun env => [sim_step_kind.produce env, sim_step_kind.pull capacity])

/-- The rounds of a caller that triggers every frame: one call of
`simcam_execute_trigger`, one iteration of the streamer thread, one call of
`simcam_get_frame`. -/
def triggered_steps (envs : List streamer_env) (capacity : Nat) : List sim_step_kind :=
  envs.flatMap (fun env =>
    [sim_step_kind.trigger, sim_step_kind.produce env, sim_step_kind.pull capacity])

/-- The ids `0, 1, ..., n-1`. -/
def first_ids (n : Nat) : List Int := (List.range n).map Int.ofNat

/-- The ordering invariant of a started camera: the camera runs, `frame_id`
is one less than the number of completed iterations, `last_emitted_frame_id`
lies between `-1` and `frame_id`, and the delivered ids increase strictly
and are at most `last_emitted_frame_id`. -/
def sim_inv (s : sim_state) : Prop :=
  s.cam.streamer.is_running = true ∧
  s.cam.im.frame_id = (s.completed : Int) - 1 ∧
  -1 ≤ s.cam.im.last_emitted_frame_id ∧
  s.cam.im.last_emitted_frame_id ≤ s.cam.im.frame_id ∧
  s.delivered.Pairwise (fun a b => a < b) ∧
  ∀ id ∈ s.delivered, id ≤ s.cam.im.last_emitted_frame_id

/-- The state at the start of round `n` of a caller that takes every frame:
the thread is at the top of its loop, `n` iterations are completed and the
frames `0, ..., n-1` are delivered; the settings and the shape are those of
`c0`. -/
def round_start (c0 : SimulatedCamera) (n : Nat) (s : sim_state) : Prop :=
  s.producer_parked = false ∧
  s.completed = n ∧
  s.delivered = first_ids n ∧
  s.cam.streamer.is_running = true ∧
  s.cam.im.frame_id = (n : Int) - 1 ∧
  s.cam.im.last_emitted_frame_id = (n : Int) - 1 ∧
  s.cam.properties = c0.properties ∧
  s.cam.im.shape = c0.im.shape

/-- A running camera of shape 2 by 2 (u8) whose frame 3 is ready and whose
frame 2 was the last one emitted. -/
def ready_camera : SimulatedCamera :=
  { properties := request 1 2 2,
    kind := BasicDeviceKind.BasicDevice_Camera_Empty,
    streamer := { is_running := true },
    im := { data := some (List.replicate 32 7),
            shape := { dims := { channels := 1, width := 2, height := 2, planes := 1 },
                       strides := { channels := 1, width := 1, height := 2, planes := 4 },
                       type := SampleType_u8 },
            frame_id := 3,
            last_emitted_frame_id := 2 },
    software_trigger := { triggered := false },
    hardware_timestamp := 1000,
    state := DeviceState.Running }

/-- The camera `ready_camera` once frame 3 was emitted too: a caller waits. -/
def waiting_camera : SimulatedCamera :=
  { ready_camera with im := { ready_camera.im with last_emitted_frame_id := 3 } }

/-- The camera `waiting_camera` after the running flag was cleared. -/
def stopped_camera : SimulatedCamera :=
  { waiting_camera with streamer := { is_running := false } }

/-! ## Further definitions for the camera claims -/

/-- The search of the integration tests for the software trigger line
(`select_software_trigger_line`): the last index below `line_count` whose
name is "software", `-1` when there is none. -/
def select_software_trigger_line (meta : CameraPropertyMetadata) : Int :=
  (List.range meta.digital_lines.line_count).foldl
    (fun i_line i =>
      if meta.digital_lines.names.getD i "" = "software" then (i : Int) else i_line)
    (-1)

/-- The value that `im_fill_pattern<T>` stores for pixel `(x, y)`. The `float`
expression is outside the model and is taken as a function `sample` of what
it reads: the time `t`, the offsets `ox` and `oy`, the width and height of
the shape and the pixel. -/
def pattern_px {F : Type} (sample : F → F → F → Nat → Nat → Nat → Nat → Nat)
    (t ox oy : F) (shape : ImageShape) : Nat → Nat → Nat :=
  fun x y => sample t ox oy shape.dims.width shape.dims.height x y

/-- The element offset `strides.width * x + strides.height * y` of pixel
`(x, y)`, computed in `size_t`. -/
def pixel_offset (shape : ImageShape) (x y : Nat) : Nat :=
  ((shape.strides.width % (U64 : Int)).toNat * x +
    (shape.strides.height % (U64 : Int)).toNat * y) % U64

/-- The stores of `im_fill_pattern<T>` in the order of its two loops: byte
offset and bytes of each. -/
def pattern_writes (size : Nat) (px : Nat → Nat → Nat) (shape : ImageShape) :
    List (Nat × List Nat) :=
  (List.range shape.dims.height).flatMap (fun y =>
    (List.range shape.dims.width).map (fun x =>
      (pixel_offset shape x y * size, le_bytes size (px x y))))

/-- A list of stores applied to a buffer, first to last. -/
def apply_writes (buf : List Nat) (ws : List (Nat × List Nat)) : List Nat :=
  ws.foldl (fun b w => write_at b w.1 w.2) buf

/-- The byte positions that a list of stores writes. -/
def written (ws : List (Nat × List Nat)) (i : Nat) : Prop :=
  ∃ w ∈ ws, w.1 ≤ i ∧ i < w.1 + w.2.length

/-- The arguments `(w, h)` of the calls of `bin2` made by the binning loop of
the streamer thread, in order; the loop is that of `bin_loop`. -/
def bin_loop_calls : Nat → Nat → Nat → Nat → List (Nat × Nat)
  | 0, _, _, _ => []
  | fuel + 1, b, w, h =>
    if b ≠ 0 then (w, h) :: bin_loop_calls fuel (b / 2) (w / 2) (h / 2) else []

/-- The dimensions `(w, h)` the binning loop ends with. -/
def bin_loop_dims : Nat → Nat → Nat → Nat → Nat × Nat
  | 0, _, w, h => (w, h)
  | fuel + 1, b, w, h =>
    if b ≠ 0 then bin_loop_dims fuel (b / 2) (w / 2) (h / 2) else (w, h)

/-- The buffer after synthesis, before binning: the first half of
`streamer_fill`. -/
def streamer_synthesize (env : streamer_env) (self : SimulatedCamera) : Option (List Nat) :=
  let full := (compute_full_resolution_shape_and_offset self).1
  self.im.data.map (fun buf =>
    match self.kind with
    | BasicDeviceKind.BasicDevice_Camera_Random => im_fill_rand full buf env.rand
    | BasicDeviceKind.BasicDevice_Camera_Sin => im_fill_pattern full env.px buf
    | BasicDeviceKind.BasicDevice_Camera_Empty => buf)

/-- The calls of `bin2` in one iteration of the streamer thread. -/
def streamer_bin_calls (self : SimulatedCamera) : List (Nat × Nat) :=
  let full := (compute_full_resolution_shape_and_offset self).1
  bin_loop_calls (self.properties.binning / 2 + 1) (self.properties.binning / 2)
    full.dims.width full.dims.height

/-- A running camera with the trigger enabled and never fired, whose frame 3
was emitted: the streamer thread is parked and a caller waits. -/
def parked_camera : SimulatedCamera :=
  { waiting_camera with properties := request_triggered 1 2 2 }

/-- A shape of 4 by 2 samples of type u12, with the strides of `compute_strides`. -/
def shape_u12 : ImageShape :=
  { dims := { channels := 1, width := 4, height := 2, planes := 1 },
    strides := { channels := 1, width := 1, height := 4, planes := 8 },
    type := SampleType_u12 }

/-- A shape of 4 by 2 samples of type u16, with the strides of `compute_strides`. -/
def shape_u16 : ImageShape :=
  { dims := { channels := 1, width := 4, height := 2, planes := 1 },
    strides := { channels := 1, width := 1, height := 4, planes := 8 },
    type := SampleType_u16 }

/-- A camera whose stored settings have binning 4 and binned shape 16 by 8. -/
def binned_camera : SimulatedCamera :=
  { ready_camera with properties := request 4 16 8 }

/-- A request with binning 1 and shape 64 by 64 whose frame-start trigger has
the given enable and names the given digital line, with an output kind and a
falling edge. -/
def request_line (enable line : Nat) : CameraProperties :=
  { request 1 64 64 with
    input_triggers := { frame_start := { enable := enable, line := line,
                                         kind := SignalIOKind.Signal_Output,
                                         edge := TriggerEdge.TriggerEdge_Falling } } }

/-! ## The operation tables and sequences of configure calls -/

/-- The operation table `struct Storage`, the member `writer` of each backend:
the device state and, for each function pointer member, the name of the
function of the same file that it holds, `none` for a null pointer. The
members are those that the initialisers of raw.c and trash.c name. -/
structure Storage where
  state : DeviceState
  set : Option String
  get : Option String
  get_meta : Option String
  start : Option String
  append : Option String
  stop : Option String
  destroy : Option String
  reserve_image_shape : Option String
deriving DecidableEq

/-- The table that `framecheck_init` stores in `self->writer`: a designated
initialiser, so a member it does not name is zero. -/
def FrameCheck.framecheck_init_writer : Storage :=
  { state := DeviceState.AwaitingConfiguration,
    set := some "set",
    get := some "get",
    get_meta := none,
    start := some "start",
    append := some "append",
    stop := some "stop",
    destroy := some "destroy",
    reserve_image_shape := none }

/-- The table that `raw_init` stores in `self->writer`. -/
def raw_init_writer : Storage :=
  { state := DeviceState.AwaitingConfiguration,
    set := some "raw_set",
    get := some "raw_get",
    get_meta := some "raw_get_meta",
    start := some "raw_start",
    append := some "raw_append",
    stop := some "raw_stop",
    destroy := some "raw_destroy",
    reserve_image_shape := some "raw_reserve_image_shape" }

/-- The table that `trash_init` stores in `self->writer`. -/
def trash_init_writer : Storage :=
  { state := DeviceState.AwaitingConfiguration,
    set := some "trash_set",
    get := some "trash_get",
    get_meta := some "trash_get_meta",
    start := some "trash_start",
    append := some "trash_append",
    stop := some "trash_stop",
    destroy := some "trash_destroy",
    reserve_image_shape := some "trash_reserve_image_shape" }

/-- The members of an operation table in the order of the contract: set,
get, get_meta, start, append, stop, destroy, reserve_image_shape. -/
def Storage.members (w : Storage) : List (Option String) :=
  [w.set, w.get, w.get_meta, w.start, w.append, w.stop, w.destroy, w.reserve_image_shape]

/-- A sequence of calls of `simcam_set` on one camera: each item is the
request and the outcome of the allocation in that call. The camera is kept
after every call, whether it returned `Device_Ok` or `Device_Err`. -/
def simcam_set_sequence (self : SimulatedCamera) (calls : List (CameraProperties × Bool)) :
    SimulatedCamera :=
  calls.foldl (fun cam call => (simcam_set cam call.1 call.2).2.1) self

/-- The shape of the image buffer agrees with the stored properties: one
channel, one plane, strides `(1, 1, width, width * height)`, and the width,
height and sample type of the properties. -/
def shape_consistent (self : SimulatedCamera) : Prop :=
  self.im.shape.dims.channels = 1 ∧ self.im.shape.dims.planes = 1 ∧
  self.im.shape.strides =
    { channels := 1, width := 1, height := (self.im.shape.dims.width : Int),
      planes := ((self.im.shape.dims.width * self.im.shape.dims.height : Nat) : Int) } ∧
  self.im.shape.dims.width = self.properties.shape.x ∧
  self.im.shape.dims.height = self.properties.shape.y ∧
  self.im.shape.type = self.properties.pixel_type

/-- Three configure calls: binning 0, then binning 3 (refused), then binning
128 with a failing allocation. -/
def three_calls : List (CameraProperties × Bool) :=
  [(request 0 10 10, true), (request 3 20 20, true), (request 128 100 100, false)]

/-- Two records with ids 7 and 9, of 96 and 80 bytes. -/
def run_seven_nine : List VideoFrame :=
  [{ frame_id := 7, bytes_of_frame := 96 }, { frame_id := 9, bytes_of_frame := 80 }]

/-- A shape of 3 by 2 samples of type u16 whose strides are not yet computed. -/
def dims_three_two : ImageShape :=
  { dims := { channels := 1, width := 3, height := 2, planes := 1 },
    strides := { channels := 0, width := 0, height := 0, planes := 0 },
    type := SampleType_u16 }

/-! ## Lemmas: runs of records and the loops over them -/

theorem record_offset_zero (recs : List VideoFrame) : record_offset recs 0 = 0 := by
  simp [record_offset]

theorem record_offset_cons_succ (r : VideoFrame) (rs : List VideoFrame) (j : Nat) :
    record_offset (r :: rs) (j + 1) = r.bytes_of_frame + record_offset rs j := by
  simp [record_offset]

theorem run_length_cons (r : VideoFrame) (rs : List VideoFrame) :
    run_length (r :: rs) = r.bytes_of_frame + run_length rs := by
  simp [run_length]

theorem record_offset_length (recs : List VideoFrame) :
    record_offset recs recs.length = run_length recs := by
  simp [record_offset, run_length]

theorem holds_run_head (frames : Nat → VideoFrame) (base : Nat) (r : VideoFrame)
    (rs : List VideoFrame) (h : holds_run frames base (r :: rs)) : frames base = r := by
  have h0 := h 0 (by simp)
  simpa [record_offset_zero] using h0

theorem holds_run_tail (frames : Nat → VideoFrame) (base : Nat) (r : VideoFrame)
    (rs : List VideoFrame) (h : holds_run frames base (r :: rs)) :
    holds_run frames (base + r.bytes_of_frame) rs := by
  intro j hj
  have hs := h (j + 1) (by simpa using hj)
  rw [record_offset_cons_succ] at hs
  simpa [Nat.add_assoc] using hs

/-- The difference of two 64-bit addresses, taken modulo `2^64`, is their
distance when the first is not below the second. -/
theorem ptr_diff (a beg : Nat) (h1 : beg ≤ a) (h2 : a < U64) :
    (a + U64 - beg % U64) % U64 = a - beg := by
  unfold U64 at *
  omega

/-- The loop of `append` accepts a run of well-formed records whose ids
follow the counter, and stops at the end of the run. -/
theorem FrameCheck.append_loop_accepts (frames : Nat → VideoFrame) (beg end_ : Nat) :
    ∀ (recs : List VideoFrame) (cur i fuel : Nat),
      holds_run frames cur recs →
      (∀ j (hj : j < recs.length), 1 ≤ recs[j].bytes_of_frame) →
      (∀ j (hj : j < recs.length), recs[j].frame_id = (i + j) % U64) →
      i < U64 → beg ≤ cur → cur + run_length recs = end_ → end_ < U64 → recs.length < fuel →
      FrameCheck.append_loop frames beg end_ fuel i cur =
        some (DeviceState.Running, (i + recs.length) % U64, end_ - beg) := by
  intro recs
  induction recs with
  | nil =>
    intro cur i fuel _ _ _ hi hbeg hsum hend hfuel
    obtain ⟨fuel, rfl⟩ : ∃ k, fuel = k + 1 := ⟨fuel - 1, by simp at hfuel; omega⟩
    have hcur : ¬ cur < end_ := by simp [run_length] at hsum; omega
    have hsum2 : cur = end_ := by simpa [run_length] using hsum
    simp [FrameCheck.append_loop, hcur, Nat.mod_eq_of_lt hi, ptr_diff end_ beg (by omega) hend]
  | cons r rs ih =>
    intro cur i fuel hmem hlen hids hi hbeg hsum hend hfuel
    obtain ⟨fuel, rfl⟩ : ∃ k, fuel = k + 1 := ⟨fuel - 1, by simp at hfuel; omega⟩
    have hr1 : 1 ≤ r.bytes_of_frame := by simpa using hlen 0 (by simp)
    have hid : r.frame_id = i := by
      have := hids 0 (by simp)
      simpa [Nat.mod_eq_of_lt hi] using this
    rw [run_length_cons] at hsum
    have hcur : cur < end_ := by omega
    have hstep : (cur + r.bytes_of_frame) % U64 = cur + r.bytes_of_frame :=
      Nat.mod_eq_of_lt (by omega)
    have hhead := holds_run_head frames cur r rs hmem
    have hrec := ih (cur + r.bytes_of_frame) ((i + 1) % U64) fuel
      (holds_run_tail frames cur r rs hmem)
      (fun j hj => by simpa using hlen (j + 1) (by simpa using hj))
      (fun j hj => by
        have := hids (j + 1) (by simpa using hj)
        simp only [List.getElem_cons_succ] at this
        rw [this]
        unfold U64
        omega)
      (Nat.mod_lt _ (by unfold U64; omega))
      (by omega)
      (by omega)
      hend
      (by simp at hfuel; omega)
    simp only [FrameCheck.append_loop, hcur, if_true, hhead, hid, hstep]
    rw [hrec]
    simp only [List.length_cons]
    congr 3
    unfold U64
    omega

/-- The loop of `append` stops at the first record whose id differs from the
counter, reporting the offset of that record. -/
theorem FrameCheck.append_loop_rejects (frames : Nat → VideoFrame) (beg end_ : Nat) :
    ∀ (j : Nat) (recs : List VideoFrame) (cur i fuel : Nat) (hj : j < recs.length),
      holds_run frames cur recs →
      (∀ k (hk : k < recs.length), 1 ≤ recs[k].bytes_of_frame) →
      (∀ k (hk : k < recs.length), k < j → recs[k].frame_id = (i + k) % U64) →
      recs[j].frame_id ≠ (i + j) % U64 →
      i < U64 → beg ≤ cur → cur + run_length recs = end_ → end_ < U64 → j < fuel →
      FrameCheck.append_loop frames beg end_ fuel i cur =
        some (DeviceState.Armed, (i + j) % U64, cur + record_offset recs j - beg) := by
  intro j
  induction j with
  | zero =>
    intro recs cur i fuel hj hmem hlen _ hbad hi hbeg hsum hend hfuel
    obtain ⟨fuel, rfl⟩ : ∃ k, fuel = k + 1 := ⟨fuel - 1, by omega⟩
    match recs, hj with
    | r :: rs, _ =>
      have hr1 : 1 ≤ r.bytes_of_frame := by simpa using hlen 0 (by simp)
      rw [run_length_cons] at hsum
      have hcur : cur < end_ := by omega
      have hhead := holds_run_head frames cur r rs hmem
      have hne : ¬ i = r.frame_id := by
        intro h
        apply hbad
        simp [← h, Nat.mod_eq_of_lt hi]
      simp [FrameCheck.append_loop, hcur, hhead, hne, record_offset_zero, Nat.mod_eq_of_lt hi,
        ptr_diff cur beg hbeg (by omega)]
  | succ j ih =>
    intro recs cur i fuel hj hmem hlen hids hbad hi hbeg hsum hend hfuel
    obtain ⟨fuel, rfl⟩ : ∃ k, fuel = k + 1 := ⟨fuel - 1, by omega⟩
    match recs, hj with
    | r :: rs, hj =>
      have hr1 : 1 ≤ r.bytes_of_frame := by simpa using hlen 0 (by simp)
      have hid : r.frame_id = i := by
        have := hids 0 (by simp) (by omega)
        simpa [Nat.mod_eq_of_lt hi] using this
      rw [run_length_cons] at hsum
      have hcur : cur < end_ := by omega
      have hstep : (cur + r.bytes_of_frame) % U64 = cur + r.bytes_of_frame :=
        Nat.mod_eq_of_lt (by omega)
      have hhead := holds_run_head frames cur r rs hmem
      have hj2 : j < rs.length := by simpa using hj
      have hrec := ih rs (cur + r.bytes_of_frame) ((i + 1) % U64) fuel hj2
        (holds_run_tail frames cur r rs hmem)
        (fun k hk => by simpa using hlen (k + 1) (by simpa using hk))
        (fun k hk hkj => by
          have := hids (k + 1) (by simpa using hk) (by omega)
          simp only [List.getElem_cons_succ] at this
          rw [this]
          unfold U64
          omega)
        (by
          intro h
          apply hbad
          simp only [List.getElem_cons_succ]
          rw [h]
          unfold U64
          omega)
        (Nat.mod_lt _ (by unfold U64; omega))
        (by omega)
        (by omega)
        hend
        (by omega)
      simp only [FrameCheck.append_loop, hcur, if_true, hhead, hid, hstep]
      rw [hrec, record_offset_cons_succ]
      congr 3
      · unfold U64
        omega
      · omega

/-- The loop of `trash_append` reaches the end of a run whose records each
declare at least one byte and stay inside the address space; the last
record may pass `end_`. -/
theorem trash_append_loop_terminates (frames : Nat → VideoFrame) (end_ : Nat) :
    ∀ (recs : List VideoFrame) (cur i fuel : Nat),
      holds_run frames cur recs →
      (∀ j (hj : j < recs.length), 1 ≤ recs[j].bytes_of_frame) →
      end_ ≤ cur + run_length recs → cur + run_length recs < U64 → recs.length < fuel →
      ∃ i', trash_append_loop frames end_ fuel i cur = some i' := by
  intro recs
  induction recs with
  | nil =>
    intro cur i fuel _ _ hsum _ hfuel
    obtain ⟨fuel, rfl⟩ : ∃ k, fuel = k + 1 := ⟨fuel - 1, by simp at hfuel; omega⟩
    have hcur : ¬ cur < end_ := by simp [run_length] at hsum; omega
    exact ⟨i, by simp [trash_append_loop, hcur]⟩
  | cons r rs ih =>
    intro cur i fuel hmem hlen hsum hfit hfuel
    obtain ⟨fuel, rfl⟩ : ∃ k, fuel = k + 1 := ⟨fuel - 1, by simp at hfuel; omega⟩
    by_cases hcur : cur < end_
    · rw [run_length_cons] at hsum hfit
      have hstep : (cur + r.bytes_of_frame) % U64 = cur + r.bytes_of_frame :=
        Nat.mod_eq_of_lt (by omega)
      have hhead := holds_run_head frames cur r rs hmem
      obtain ⟨i', hi'⟩ := ih (cur + r.bytes_of_frame) ((i + 1) % U64) fuel
        (holds_run_tail frames cur r rs hmem)
        (fun j hj => by simpa using hlen (j + 1) (by simpa using hj))
        (by omega)
        (by omega)
        (by simp at hfuel; omega)
      exact ⟨i', by simp only [trash_append_loop, hcur, if_true, hhead, hstep]; exact hi'⟩
    · exact ⟨i, by simp [trash_append_loop, hcur]⟩

/-- On a header that declares a length of zero the loop of `trash_append`
makes no progress, whatever the fuel. -/
theorem trash_append_loop_stuck (cur end_ : Nat) (h : cur < end_) (hc : cur < U64) :
    ∀ (fuel i : Nat), trash_append_loop zero_length_frames end_ fuel i cur = none := by
  intro fuel
  induction fuel with
  | zero => intro i; rfl
  | succ fuel ih =>
    intro i
    simp only [trash_append_loop, h, if_true, zero_length_frames, Nat.add_zero,
      Nat.mod_eq_of_lt hc]
    exact ih _

/-- Writing at the end of a byte sequence appends. -/
theorem write_at_end (old data : List Nat) : write_at old old.length data = old ++ data := by
  simp [write_at]

/-- A natural number below `2^63` is not changed by the reduction to `int64_t`. -/
theorem wrap_i64_natCast (n : Nat) (h : n < 2 ^ 63) : wrap_i64 (n : Int) = (n : Int) := by
  unfold wrap_i64
  omega

/-! ## Theorems: the claims -/

/-- C1: FrameCheck in-order acceptance. For every first_frame_id `f` (a 64-bit
value) and every run of `K` well-formed records (each `bytes_of_frame ≥ 1`, the
declared lengths summing to the run length `n`) laid out at any address `beg`
with `beg + n` inside the address space, whose frame ids are
`f, f+1, ..., f+K-1` in the 64-bit arithmetic of the counter, `start` returns
Running and `append` on the run, given more than `K` units of fuel, returns
Running, reports `bytesConsumed = n` and leaves the expected-id counter at
`f+K` (reduced modulo `2^64`, which is `f+K` itself when that fits). -/
theorem framecheck_in_order_acceptance (self : FrameCheck) (frames : Nat → VideoFrame)
    (recs : List VideoFrame) (beg n fuel : Nat)
    (hf : self.settings.first_frame_id < U64)
    (hfit : beg + n < U64)
    (hmem : holds_run frames beg recs)
    (hlen : ∀ j (hj : j < recs.length), 1 ≤ recs[j].bytes_of_frame)
    (hsum : run_length recs = n)
    (hids : ∀ j (hj : j < recs.length),
      recs[j].frame_id = (self.settings.first_frame_id + j) % U64)
    (hfuel : recs.length < fuel) :
    (FrameCheck.start self).1 = DeviceState.Running ∧
    ∃ s, FrameCheck.append fuel (FrameCheck.start self).2 frames beg n =
        some (DeviceState.Running, s, n) ∧
      s.settings = self.settings ∧
      s.iframe = (self.settings.first_frame_id + recs.length) % U64 ∧
      (self.settings.first_frame_id + recs.length < U64 →
        s.iframe = self.settings.first_frame_id + recs.length) := by
  refine ⟨rfl, ?_⟩
  have hloop := FrameCheck.append_loop_accepts frames beg (beg + n) recs beg
    self.settings.first_frame_id fuel hmem hlen hids hf (le_refl _) (by omega) hfit hfuel
  refine ⟨{ settings := self.settings,
            iframe := (self.settings.first_frame_id + recs.length) % U64 }, ?_, rfl, rfl, ?_⟩
  · simp [FrameCheck.append, FrameCheck.start, Nat.mod_eq_of_lt hfit, hloop]
  · intro h
    exact Nat.mod_eq_of_lt h

/-- C1, witness: two records with ids 5 and 6 and lengths 80 and 96 at
address 4096, appended after a start with first_frame_id 5. -/
theorem framecheck_in_order_acceptance_witness :
    (FrameCheck.start framecheck_five).1 = DeviceState.Running ∧
    ∃ s, FrameCheck.append 3 (FrameCheck.start framecheck_five).2 (layout_at 4096 run_five_six)
        4096 176 = some (DeviceState.Running, s, 176) ∧
      s.settings = framecheck_five.settings ∧
      s.iframe = (framecheck_five.settings.first_frame_id + run_five_six.length) % U64 ∧
      (framecheck_five.settings.first_frame_id + run_five_six.length < U64 →
        s.iframe = framecheck_five.settings.first_frame_id + run_five_six.length) :=
  framecheck_in_order_acceptance framecheck_five (layout_at 4096 run_five_six) run_five_six
    4096 176 3 (by decide) (by decide) (by unfold holds_run; decide) (by decide) (by decide)
    (by decide) (by decide)

/-- C2: FrameCheck fails closed at the first bad record. For every run of
well-formed records (each `bytes_of_frame ≥ 1`, lengths summing to `n`) laid
out at any address `beg` with `beg + n` inside the address space and
appended after `start` with first_frame_id `f`, if record `j` is the first
whose frame id differs from `f+j` (in the 64-bit arithmetic of the counter),
then `append`, given more than `j` units of fuel, returns Armed and reports
`bytesConsumed` equal to the byte offset of record `j`, the sum of the
lengths of records `0..j-1`. -/
theorem framecheck_fails_closed (self : FrameCheck) (frames : Nat → VideoFrame)
    (recs : List VideoFrame) (beg n fuel j : Nat) (hj : j < recs.length)
    (hf : self.settings.first_frame_id < U64)
    (hfit : beg + n < U64)
    (hmem : holds_run frames beg recs)
    (hlen : ∀ k (hk : k < recs.length), 1 ≤ recs[k].bytes_of_frame)
    (hsum : run_length recs = n)
    (hgood : ∀ k (hk : k < recs.length), k < j →
      recs[k].frame_id = (self.settings.first_frame_id + k) % U64)
    (hbad : recs[j].frame_id ≠ (self.settings.first_frame_id + j) % U64)
    (hfuel : j < fuel) :
    ∃ s, FrameCheck.append fuel (FrameCheck.start self).2 frames beg n =
        some (DeviceState.Armed, s, ((recs.take j).map VideoFrame.bytes_of_frame).sum) ∧
      s.settings = self.settings ∧
      s.iframe = (self.settings.first_frame_id + j) % U64 := by
  have hloop := FrameCheck.append_loop_rejects frames beg (beg + n) j recs beg
    self.settings.first_frame_id fuel hj hmem hlen hgood hbad hf (le_refl _) (by omega) hfit hfuel
  refine ⟨{ settings := self.settings, iframe := (self.settings.first_frame_id + j) % U64 },
    ?_, rfl, rfl⟩
  simp [FrameCheck.append, FrameCheck.start, Nat.mod_eq_of_lt hfit, hloop, record_offset]

/-- C2, witness: the second of two records carries id 9 where 6 is expected;
the 80 bytes of the first record are reported. -/
theorem framecheck_fails_closed_witness :
    ∃ s, FrameCheck.append 2 (FrameCheck.start framecheck_five).2 (layout_at 4096 run_five_nine)
        4096 176 =
        some (DeviceState.Armed, s, ((run_five_nine.take 1).map VideoFrame.bytes_of_frame).sum) ∧
      s.settings = framecheck_five.settings ∧
      s.iframe = (framecheck_five.settings.first_frame_id + 1) % U64 :=
  framecheck_fails_closed framecheck_five (layout_at 4096 run_five_nine) run_five_nine 4096 176
    2 1 (by decide) (by decide) (by decide) (by unfold holds_run; decide) (by decide) (by decide)
    (by decide) (by decide) (by decide)

/-- C3: Raw append concatenates across calls. On a freshly created Raw backend
(configured or not) that has been started, for every two byte runs `B1` and
`B2` (lengths being `size_t` values), appending `B1` and then `B2`, both writes
succeeding, leaves the file equal to `B1` followed by `B2`; each append
returns Running with `bytesConsumed` equal to its run's length, and the
tracked offset ends at `|B1|+|B2|` (as a `size_t`). -/
theorem raw_append_concatenates (props : StorageProperties) (writable copy_ok : Bool)
    (B1 B2 : List Nat) (h1 : B1.length < U64) :
    (raw_start (raw_set raw_init props writable copy_ok).2 true).1 = DeviceState.Running ∧
    (raw_append (raw_start (raw_set raw_init props writable copy_ok).2 true).2 B1 true).1 =
      DeviceState.Running ∧
    (raw_append (raw_start (raw_set raw_init props writable copy_ok).2 true).2 B1 true).2.2 =
      B1.length ∧
    (raw_append (raw_append (raw_start (raw_set raw_init props writable copy_ok).2 true).2
      B1 true).2.1 B2 true).1 = DeviceState.Running ∧
    (raw_append (raw_append (raw_start (raw_set raw_init props writable copy_ok).2 true).2
      B1 true).2.1 B2 true).2.2 = B2.length ∧
    (raw_append (raw_append (raw_start (raw_set raw_init props writable copy_ok).2 true).2
      B1 true).2.1 B2 true).2.1.file.bytes = B1 ++ B2 ∧
    (raw_append (raw_append (raw_start (raw_set raw_init props writable copy_ok).2 true).2
      B1 true).2.1 B2 true).2.1.offset = (B1.length + B2.length) % U64 ∧
    (B1.length + B2.length < U64 →
      (raw_append (raw_append (raw_start (raw_set raw_init props writable copy_ok).2 true).2
        B1 true).2.1 B2 true).2.1.offset = B1.length + B2.length) := by
  have hoff : (raw_set raw_init props writable copy_ok).2.offset = 0 := by
    unfold raw_set raw_init
    split <;> rfl
  have hmod : B1.length % U64 = B1.length := Nat.mod_eq_of_lt h1
  have hw1 : write_at [] 0 B1 = B1 := by simp [write_at]
  have hw2 : write_at B1 B1.length B2 = B1 ++ B2 := write_at_end B1 B2
  simp only [raw_start, raw_append, file_write, file_create, if_true, hoff, Nat.zero_add,
    hmod, hw1, hw2, true_and]
  intro h
  exact Nat.mod_eq_of_lt h

/-- C3, witness: the runs `[1, 2, 3]` and `[4, 5]`. -/
theorem raw_append_concatenates_witness :
    (raw_append (raw_append (raw_start (raw_set raw_init raw_init.properties true true).2 true).2
      [1, 2, 3] true).2.1 [4, 5] true).2.1.file.bytes = [1, 2, 3] ++ [4, 5] :=
  (raw_append_concatenates raw_init.properties true true [1, 2, 3] [4, 5] (by decide)).2.2.2.2.2.1

/-- C4, the code at the failing input: after start, append of 3 bytes, stop
and start again, the file is empty but the tracked offset is still 3, so the
next append of `[4, 5]` is written at offset 3 and the file is not `[4, 5]`. -/
theorem raw_restart_keeps_stale_offset :
    (raw_start (raw_stop (raw_append (raw_start raw_init true).2 [1, 2, 3] true).2.1).2 true).2.file.bytes
      = [] ∧
    (raw_start (raw_stop (raw_append (raw_start raw_init true).2 [1, 2, 3] true).2.1).2 true).2.offset
      = 3 ∧
    (raw_append
      (raw_start (raw_stop (raw_append (raw_start raw_init true).2 [1, 2, 3] true).2.1).2 true).2
      [4, 5] true).2.1.file.bytes = [0, 0, 0, 4, 5] := by
  decide

/-- C5: Raw write failure. For every byte run and every backend state, when
the underlying file write fails, `raw_append` reports `bytesConsumed = 0`,
returns Armed, and leaves the tracked offset unchanged. -/
theorem raw_append_write_failure (self : Raw) (frames : List Nat) (io_ok : Bool)
    (hfail : (file_write self.file self.offset frames io_ok).1 = false) :
    (raw_append self frames io_ok).1 = DeviceState.Armed ∧
    (raw_append self frames io_ok).2.2 = 0 ∧
    (raw_append self frames io_ok).2.1.offset = self.offset := by
  simp [raw_append, hfail, raw_stop]

/-- C5, witness: a failing write of `[1, 2, 3]` on a started backend. -/
theorem raw_append_write_failure_witness :
    (raw_append (raw_start raw_init true).2 [1, 2, 3] false).1 = DeviceState.Armed ∧
    (raw_append (raw_start raw_init true).2 [1, 2, 3] false).2.2 = 0 ∧
    (raw_append (raw_start raw_init true).2 [1, 2, 3] false).2.1.offset =
      (raw_start raw_init true).2.offset :=
  raw_append_write_failure (raw_start raw_init true).2 [1, 2, 3] false (by decide)

/-- C6, counterexample: on a run of 64 bytes at address 4096 whose first
header declares `bytes_of_frame = 0`, `trash_append` returns for no amount
of fuel. -/
theorem trash_append_zero_length_never_returns :
    ¬ ∃ fuel, (trash_append fuel trash_init zero_length_frames 4096 64).isSome = true := by
  rintro ⟨fuel, h⟩
  have hloop := trash_append_loop_stuck 4096 ((4096 + 64) % U64) (by decide) (by decide) fuel
    trash_init.iframe
  simp [trash_append, hloop] at h

/-- C6, amended: Trash never fails on records of positive length that stay
inside the address space. For every backend state and every run of `n` bytes
at an address `beg`, covered by records that each declare
`bytes_of_frame ≥ 1` and whose declared lengths, added up from `beg`, stay
below `2^64` (the declared lengths are trusted and may overshoot the run),
`trash_append`, given more fuel than there are records, terminates, returns
Running and leaves the reported byte count equal to the input length. -/
theorem trash_append_never_fails (self : Trash) (frames : Nat → VideoFrame)
    (recs : List VideoFrame) (beg n fuel : Nat)
    (hmem : holds_run frames beg recs)
    (hlen : ∀ j (hj : j < recs.length), 1 ≤ recs[j].bytes_of_frame)
    (hcover : n ≤ run_length recs)
    (hfit : beg + run_length recs < U64)
    (hfuel : recs.length < fuel) :
    ∃ s, trash_append fuel self frames beg n = some (DeviceState.Running, s, n) ∧
      s.settings = self.settings := by
  have hn : (beg + n) % U64 = beg + n := Nat.mod_eq_of_lt (by omega)
  obtain ⟨i, hi⟩ := trash_append_loop_terminates frames (beg + n) recs beg self.iframe fuel
    hmem hlen (by omega) hfit hfuel
  exact ⟨{ settings := self.settings, iframe := i }, by simp [trash_append, hn, hi], rfl⟩

/-- C6, witness: two records of 80 and 96 bytes at address 4096 on a fresh
backend, the run cut at 170 bytes so that the second record overshoots it. -/
theorem trash_append_never_fails_witness :
    ∃ s, trash_append 3 trash_init (layout_at 4096 run_five_six) 4096 170 =
        some (DeviceState.Running, s, 170) ∧
      s.settings = trash_init.settings :=
  trash_append_never_fails trash_init (layout_at 4096 run_five_six) run_five_six 4096 170 3
    (by unfold holds_run; decide) (by decide) (by decide) (by decide) (by decide)

theorem cast_u32_natCast (n : Nat) (h : n < U32) : cast_u32 (n : ℚ) = n := by
  simp [cast_u32, Nat.mod_eq_of_lt h]

theorem simcam_set_reject (self : SimulatedCamera) (settings : CameraProperties) (heap_ok : Bool)
    (hb0 : settings.binning ≠ 0) (hpop : popcount_u8 settings.binning ≠ 1) :
    simcam_set self settings heap_ok = (DeviceStatusCode.Device_Err, self, settings) := by
  simp [simcam_set, hb0, hpop]

theorem simcam_set_accept_shape (self : SimulatedCamera) (settings : CameraProperties)
    (heap_ok : Bool) (hb0 : settings.binning ≠ 0) (hpop : popcount_u8 settings.binning = 1) :
    (simcam_set self settings heap_ok).2.1.im.shape.dims =
      { channels := 1,
        width := clamp settings.shape.x (cast_u32 1)
          (cast_u32 ((MAX_IMAGE_WIDTH : ℚ) / (settings.binning : ℚ))),
        height := clamp settings.shape.y (cast_u32 1)
          (cast_u32 ((MAX_IMAGE_HEIGHT : ℚ) / (settings.binning : ℚ))),
        planes := 1 } ∧
    (simcam_set self settings heap_ok).2.1.properties.shape =
      { x := (simcam_set self settings heap_ok).2.1.im.shape.dims.width,
        y := (simcam_set self settings heap_ok).2.1.im.shape.dims.height } ∧
    (simcam_set self settings heap_ok).2.1.properties.binning = settings.binning := by
  simp only [simcam_set, hb0, hpop, if_true, if_false]
  split_ifs <;> simp [simcam_get_meta, compute_strides]

theorem popcount_u8_eq_one (b : Nat) (hb : b < 256) (h : popcount_u8 b = 1) :
    b = 1 ∨ b = 2 ∨ b = 4 ∨ b = 8 ∨ b = 16 ∨ b = 32 ∨ b = 64 ∨ b = 128 := by
  revert h
  interval_cases b <;> decide

theorem popcount_u8_power_of_two (b : Nat) (hb : b < 256) (h : popcount_u8 b = 1) :
    is_power_of_two b := by
  rcases popcount_u8_eq_one b hb h with h | h | h | h | h | h | h | h
  · exact ⟨0, by rw [h]; rfl⟩
  · exact ⟨1, by rw [h]; rfl⟩
  · exact ⟨2, by rw [h]; rfl⟩
  · exact ⟨3, by rw [h]; rfl⟩
  · exact ⟨4, by rw [h]; rfl⟩
  · exact ⟨5, by rw [h]; rfl⟩
  · exact ⟨6, by rw [h]; rfl⟩
  · exact ⟨7, by rw [h]; rfl⟩

theorem not_power_of_two_zero : ¬ is_power_of_two 0 := by
  rintro ⟨k, hk⟩
  have := Nat.two_pow_pos k
  omega

theorem not_power_of_two_three : ¬ is_power_of_two 3 := by
  rintro ⟨k, hk⟩
  match k with
  | 0 => simp at hk
  | 1 => simp at hk
  | k + 2 =>
    have : 2 ^ (k + 2) = 4 * 2 ^ k := by ring
    omega

/-- C7, counterexample: for dims `(2^21, 2^21, 2^21, 1)` the product of the
first three dims is `2^63`, which the `int64_t` stride cannot hold; the stride
computed for the planes axis differs from it. -/
theorem compute_strides_overflows :
    (compute_strides shape_two_pow_21).strides.planes ≠
      ((shape_two_pow_21.dims.channels * shape_two_pow_21.dims.width *
        shape_two_pow_21.dims.height : Nat) : Int) := by
  decide

/-- C7, amended: stride calculation. For every dims (channels, width, height,
planes) whose leading products `c`, `c*w` and `c*w*h` fit the signed 64-bit
stride type, `compute_strides` yields `stride[0] = 1` and
`stride[i] =` the product of `dims[0..i)` in the axis order channels, width,
height, planes, i.e. strides `(1, c, c*w, c*w*h)`; dims and sample type are
left as they were and there is no failure mode. -/
theorem compute_strides_products (shape : ImageShape)
    (hc : shape.dims.channels < 2 ^ 63)
    (hw : shape.dims.channels * shape.dims.width < 2 ^ 63)
    (hh : shape.dims.channels * shape.dims.width * shape.dims.height < 2 ^ 63) :
    (compute_strides shape).strides =
      { channels := 1,
        width := (shape.dims.channels : Int),
        height := ((shape.dims.channels * shape.dims.width : Nat) : Int),
        planes := ((shape.dims.channels * shape.dims.width * shape.dims.height : Nat) : Int) } ∧
    (compute_strides shape).dims = shape.dims ∧
    (compute_strides shape).type = shape.type := by
  have e1 : wrap_i64 (1 * (shape.dims.channels : Int)) = (shape.dims.channels : Int) := by
    rw [one_mul]
    exact wrap_i64_natCast _ hc
  have e2 : wrap_i64 ((shape.dims.channels : Int) * (shape.dims.width : Int)) =
      ((shape.dims.channels * shape.dims.width : Nat) : Int) := by
    rw [← Nat.cast_mul]
    exact wrap_i64_natCast _ hw
  have e3 : wrap_i64 (((shape.dims.channels * shape.dims.width : Nat) : Int) *
      (shape.dims.height : Int)) =
      ((shape.dims.channels * shape.dims.width * shape.dims.height : Nat) : Int) := by
    rw [← Nat.cast_mul]
    exact wrap_i64_natCast _ hh
  refine ⟨?_, rfl, rfl⟩
  simp only [compute_strides, e1, e2, e3]

/-- C7, witness: a 3-channel 640 by 480 image has strides (1, 3, 1920, 921600). -/
theorem compute_strides_products_witness :
    (compute_strides shape_rgb_vga).strides =
      { channels := 1,
        width := (shape_rgb_vga.dims.channels : Int),
        height := ((shape_rgb_vga.dims.channels * shape_rgb_vga.dims.width : Nat) : Int),
        planes := ((shape_rgb_vga.dims.channels * shape_rgb_vga.dims.width *
          shape_rgb_vga.dims.height : Nat) : Int) } ∧
    (compute_strides shape_rgb_vga).dims = shape_rgb_vga.dims ∧
    (compute_strides shape_rgb_vga).type = shape_rgb_vga.type :=
  compute_strides_products shape_rgb_vga (by decide) (by decide) (by decide)

/-- C8, counterexample: a request with binning 0, which is not a power of two,
is accepted: `simcam_set` replaces the 0 by 1 and returns `Device_Ok`. -/
theorem simcam_set_accepts_binning_zero :
    ¬ is_power_of_two (request 0 640 480).binning ∧
    (simcam_set (simcam_make_camera BasicDeviceKind.BasicDevice_Camera_Empty)
      (request 0 640 480) true).1 = DeviceStatusCode.Device_Ok := by
  refine ⟨not_power_of_two_zero, ?_⟩
  have hpop : popcount_u8 1 = 1 := by decide
  simp [simcam_set, request, hpop, malloc]

/-- C8, amended: camera configure rejects bad binning. For every camera state
and every requested CameraProperties whose binning (an 8-bit value) is not
zero and not a power of two, `simcam_set` returns `Device_Err`. -/
theorem simcam_set_rejects_bad_binning (self : SimulatedCamera) (settings : CameraProperties)
    (heap_ok : Bool) (hb8 : settings.binning < 256) (hb0 : settings.binning ≠ 0)
    (hnp : ¬ is_power_of_two settings.binning) :
    (simcam_set self settings heap_ok).1 = DeviceStatusCode.Device_Err := by
  have hpop : popcount_u8 settings.binning ≠ 1 :=
    fun h => hnp (popcount_u8_power_of_two settings.binning hb8 h)
  rw [simcam_set_reject self settings heap_ok hb0 hpop]

/-- C8, witness: a request with binning 3 on a fresh camera. -/
theorem simcam_set_rejects_bad_binning_witness :
    (simcam_set (simcam_make_camera BasicDeviceKind.BasicDevice_Camera_Sin)
      (request 3 640 480) true).1 = DeviceStatusCode.Device_Err :=
  simcam_set_rejects_bad_binning (simcam_make_camera BasicDeviceKind.BasicDevice_Camera_Sin)
    (request 3 640 480) true (by decide) (by decide) not_power_of_two_three

/-- C9: failed configure is atomic. For every camera state and every request
that `simcam_set` rejects because of its binning (binning not zero and
`popcount_u8` of it not 1), the call returns `Device_Err` and the camera is
exactly what it was: stored properties, image shape, backing buffer and
software-trigger flag are unchanged, so `simcam_get` and `simcam_get_shape`
return the prior configuration. -/
theorem simcam_set_failure_is_atomic (self : SimulatedCamera) (settings : CameraProperties)
    (heap_ok : Bool) (hb0 : settings.binning ≠ 0) (hpop : popcount_u8 settings.binning ≠ 1) :
    (simcam_set self settings heap_ok).1 = DeviceStatusCode.Device_Err ∧
    (simcam_set self settings heap_ok).2.1 = self ∧
    (simcam_set self settings heap_ok).2.1.properties = self.properties ∧
    (simcam_set self settings heap_ok).2.1.im.shape = self.im.shape ∧
    (simcam_set self settings heap_ok).2.1.im.data = self.im.data ∧
    (simcam_set self settings heap_ok).2.1.software_trigger.triggered =
      self.software_trigger.triggered ∧
    simcam_get (simcam_set self settings heap_ok).2.1 = simcam_get self ∧
    simcam_get_shape (simcam_set self settings heap_ok).2.1 = simcam_get_shape self := by
  rw [simcam_set_reject self settings heap_ok hb0 hpop]
  exact ⟨rfl, rfl, rfl, rfl, rfl, rfl, rfl, rfl⟩

/-- C9, witness: a request with binning 3 leaves a fresh camera as it was. -/
theorem simcam_set_failure_is_atomic_witness :
    (simcam_set (simcam_make_camera BasicDeviceKind.BasicDevice_Camera_Sin)
      (request 3 640 480) true).2.1 = simcam_make_camera BasicDeviceKind.BasicDevice_Camera_Sin :=
  (simcam_set_failure_is_atomic (simcam_make_camera BasicDeviceKind.BasicDevice_Camera_Sin)
    (request 3 640 480) true (by decide) (by decide)).2.1

theorem clamp_bounds (v L H : Nat) (h : L ≤ H) : L ≤ clamp v L H ∧ clamp v L H ≤ H := by
  unfold clamp
  split_ifs <;> omega

theorem clamp_inside (v L H : Nat) (h1 : L ≤ v) (h2 : v ≤ H) : clamp v L H = v := by
  unfold clamp
  split_ifs <;> omega

theorem max_shape_exact (b : Nat) (hb : b = 1 ∨ b = 2 ∨ b = 4 ∨ b = 8) :
    (MAX_IMAGE_WIDTH : ℚ) / (b : ℚ) = ((8192 / b : Nat) : ℚ) ∧
    (MAX_IMAGE_HEIGHT : ℚ) / (b : ℚ) = ((8192 / b : Nat) : ℚ) ∧
    1 ≤ 8192 / b ∧ 8192 / b < U32 := by
  rcases hb with h | h | h | h <;> subst h <;>
    norm_num [MAX_IMAGE_WIDTH, MAX_IMAGE_HEIGHT, U32]

theorem popcount_u8_claimed_binning (b : Nat) (hb : b = 1 ∨ b = 2 ∨ b = 4 ∨ b = 8) :
    b ≠ 0 ∧ popcount_u8 b = 1 := by
  rcases hb with h | h | h | h <;> subst h <;> decide

/-- C10: shape clamping. For every binning `b` in {1, 2, 4, 8} and every
requested shape `(w, h)`, after a successful `simcam_set` the shape returned by
`simcam_get_shape` and the shape stored in the properties both have width in
`[metadata.shape.x.low, metadata.shape.x.high]` and height in
`[metadata.shape.y.low, metadata.shape.y.high]`, where metadata is what
`simcam_get_meta` returns after the call (`low = 1`, `high = 8192/b`); a
requested width or height already inside the bounds is kept unchanged. -/
theorem simcam_set_clamps_shape (self : SimulatedCamera) (settings : CameraProperties)
    (heap_ok : Bool)
    (hb : settings.binning = 1 ∨ settings.binning = 2 ∨ settings.binning = 4 ∨
      settings.binning = 8)
    (hok : (simcam_set self settings heap_ok).1 = DeviceStatusCode.Device_Ok) :
    ∃ cam req meta shape,
      simcam_set self settings heap_ok = (DeviceStatusCode.Device_Ok, cam, req) ∧
      simcam_get_meta cam = (DeviceStatusCode.Device_Ok, meta) ∧
      simcam_get_shape cam = (DeviceStatusCode.Device_Ok, shape) ∧
      simcam_get cam = (DeviceStatusCode.Device_Ok, cam.properties) ∧
      meta.shape.x.low = 1 ∧ meta.shape.x.high = (8192 : ℚ) / (settings.binning : ℚ) ∧
      meta.shape.y.low = 1 ∧ meta.shape.y.high = (8192 : ℚ) / (settings.binning : ℚ) ∧
      meta.shape.x.low ≤ (shape.dims.width : ℚ) ∧ (shape.dims.width : ℚ) ≤ meta.shape.x.high ∧
      meta.shape.y.low ≤ (shape.dims.height : ℚ) ∧ (shape.dims.height : ℚ) ≤ meta.shape.y.high ∧
      meta.shape.x.low ≤ (cam.properties.shape.x : ℚ) ∧
      (cam.properties.shape.x : ℚ) ≤ meta.shape.x.high ∧
      meta.shape.y.low ≤ (cam.properties.shape.y : ℚ) ∧
      (cam.properties.shape.y : ℚ) ≤ meta.shape.y.high ∧
      (meta.shape.x.low ≤ (settings.shape.x : ℚ) → (settings.shape.x : ℚ) ≤ meta.shape.x.high →
        shape.dims.width = settings.shape.x ∧ cam.properties.shape.x = settings.shape.x) ∧
      (meta.shape.y.low ≤ (settings.shape.y : ℚ) → (settings.shape.y : ℚ) ≤ meta.shape.y.high →
        shape.dims.height = settings.shape.y ∧ cam.properties.shape.y = settings.shape.y) := by
  obtain ⟨hb0, hpop⟩ := popcount_u8_claimed_binning settings.binning hb
  obtain ⟨hdims, hprops, hbin⟩ := simcam_set_accept_shape self settings heap_ok hb0 hpop
  obtain ⟨hW, hH, h1, h32⟩ := max_shape_exact settings.binning hb
  have hone : cast_u32 1 = 1 := by
    have := cast_u32_natCast 1 (by decide)
    simpa using this
  rw [hW, hH, hone, cast_u32_natCast _ h32] at hdims
  have hq : ((8192 : ℚ) / (settings.binning : ℚ)) = ((8192 / settings.binning : Nat) : ℚ) := by
    have := hW
    simpa [MAX_IMAGE_WIDTH] using this
  have hwd : (simcam_set self settings heap_ok).2.1.im.shape.dims.width =
      clamp settings.shape.x 1 (8192 / settings.binning) := by rw [hdims]
  have hht : (simcam_set self settings heap_ok).2.1.im.shape.dims.height =
      clamp settings.shape.y 1 (8192 / settings.binning) := by rw [hdims]
  have hpx : (simcam_set self settings heap_ok).2.1.properties.shape.x =
      clamp settings.shape.x 1 (8192 / settings.binning) := by rw [hprops, hwd]
  have hpy : (simcam_set self settings heap_ok).2.1.properties.shape.y =
      clamp settings.shape.y 1 (8192 / settings.binning) := by rw [hprops, hht]
  obtain ⟨hx1, hx2⟩ := clamp_bounds settings.shape.x 1 (8192 / settings.binning) h1
  obtain ⟨hy1, hy2⟩ := clamp_bounds settings.shape.y 1 (8192 / settings.binning) h1
  have hmx : (simcam_get_meta (simcam_set self settings heap_ok).2.1).2.shape.x.high =
      ((8192 / settings.binning : Nat) : ℚ) := by
    simp only [simcam_get_meta, hbin]
    exact hW
  have hmy : (simcam_get_meta (simcam_set self settings heap_ok).2.1).2.shape.y.high =
      ((8192 / settings.binning : Nat) : ℚ) := by
    simp only [simcam_get_meta, hbin]
    exact hH
  refine ⟨(simcam_set self settings heap_ok).2.1, (simcam_set self settings heap_ok).2.2,
    (simcam_get_meta (simcam_set self settings heap_ok).2.1).2,
    (simcam_get_shape (simcam_set self settings heap_ok).2.1).2, ?_, rfl, rfl, rfl, rfl, ?_, rfl, ?_,
    ?_, ?_, ?_, ?_, ?_, ?_, ?_, ?_, ?_, ?_⟩
  · rw [← hok]
  · rw [hmx, hq]
  · rw [hmy, hq]
  · show (1 : ℚ) ≤ _
    rw [show (simcam_get_shape (simcam_set self settings heap_ok).2.1).2.dims.width = _ from hwd]
    exact_mod_cast hx1
  · rw [hmx, show (simcam_get_shape (simcam_set self settings heap_ok).2.1).2.dims.width = _ from hwd]
    exact_mod_cast hx2
  · show (1 : ℚ) ≤ _
    rw [show (simcam_get_shape (simcam_set self settings heap_ok).2.1).2.dims.height = _ from hht]
    exact_mod_cast hy1
  · rw [hmy, show (simcam_get_shape (simcam_set self settings heap_ok).2.1).2.dims.height = _ from hht]
    exact_mod_cast hy2
  · show (1 : ℚ) ≤ _
    rw [hpx]
    exact_mod_cast hx1
  · rw [hmx, hpx]
    exact_mod_cast hx2
  · show (1 : ℚ) ≤ _
    rw [hpy]
    exact_mod_cast hy1
  · rw [hmy, hpy]
    exact_mod_cast hy2
  · intro hlo hhi
    rw [hmx] at hhi
    have hlo1 : (1 : ℚ) ≤ (settings.shape.x : ℚ) := hlo
    have a1 : 1 ≤ settings.shape.x := by exact_mod_cast hlo1
    have a2 : settings.shape.x ≤ 8192 / settings.binning := by exact_mod_cast hhi
    have hc := clamp_inside settings.shape.x 1 (8192 / settings.binning) a1 a2
    exact ⟨by rw [show (simcam_get_shape (simcam_set self settings heap_ok).2.1).2.dims.width = _
      from hwd, hc], by rw [hpx, hc]⟩
  · intro hlo hhi
    rw [hmy] at hhi
    have hlo1 : (1 : ℚ) ≤ (settings.shape.y : ℚ) := hlo
    have a1 : 1 ≤ settings.shape.y := by exact_mod_cast hlo1
    have a2 : settings.shape.y ≤ 8192 / settings.binning := by exact_mod_cast hhi
    have hc := clamp_inside settings.shape.y 1 (8192 / settings.binning) a1 a2
    exact ⟨by rw [show (simcam_get_shape (simcam_set self settings heap_ok).2.1).2.dims.height = _
      from hht, hc], by rw [hpy, hc]⟩

/-- C10, witness: binning 2 and a requested shape of 10000 by 5 on a fresh
camera: the configured width is within the bounds reported afterwards. -/
theorem simcam_set_clamps_shape_witness :
    ∃ cam req,
      simcam_set (simcam_make_camera BasicDeviceKind.BasicDevice_Camera_Sin)
        (request 2 10000 5) true = (DeviceStatusCode.Device_Ok, cam, req) ∧
      (simcam_get_meta cam).2.shape.x.low ≤ ((simcam_get_shape cam).2.dims.width : ℚ) ∧
      ((simcam_get_shape cam).2.dims.width : ℚ) ≤ (simcam_get_meta cam).2.shape.x.high ∧
      (simcam_get_shape cam).2.dims.height = 5 := by
  obtain ⟨cam, req, meta, shape, h1, h2, h3, _, _, _, hyl, hyh, h9, h10, _, _, _, _, _, _, _, hy⟩ :=
    simcam_set_clamps_shape (simcam_make_camera BasicDeviceKind.BasicDevice_Camera_Sin)
      (request 2 10000 5) true (by decide)
      (by simp [simcam_set, request, malloc, show popcount_u8 2 = 1 from by decide])
  refine ⟨cam, req, h1, by rw [h2, h3]; exact h9, by rw [h2, h3]; exact h10, ?_⟩
  rw [h3]
  refine (hy ?_ ?_).1
  · rw [hyl]
    norm_num [request]
  · rw [hyh]
    norm_num [request]

/-! ## Lemmas: the streamer thread and the frame counters -/

theorem streamer_fill_frame (env : streamer_env) (self : SimulatedCamera) :
    (streamer_fill env self).properties = self.properties ∧
    (streamer_fill env self).streamer = self.streamer ∧
    (streamer_fill env self).software_trigger = self.software_trigger ∧
    (streamer_fill env self).im.shape = self.im.shape ∧
    (streamer_fill env self).im.frame_id = self.im.frame_id ∧
    (streamer_fill env self).im.last_emitted_frame_id = self.im.last_emitted_frame_id :=
  ⟨rfl, rfl, rfl, rfl, rfl, rfl⟩

theorem streamer_resume_some (clock : Nat) (self done : SimulatedCamera)
    (h : streamer_resume clock self = some done) :
    done.properties = self.properties ∧
    done.streamer = self.streamer ∧
    done.im.shape = self.im.shape ∧
    done.im.data = self.im.data ∧
    done.im.frame_id = wrap_i64 (self.im.frame_id + 1) ∧
    done.im.last_emitted_frame_id = self.im.last_emitted_frame_id ∧
    done.hardware_timestamp = clock ∧
    self.software_trigger.triggered = true ∧
    done.software_trigger.triggered = false := by
  by_cases ht : self.software_trigger.triggered = false
  · simp [streamer_resume, ht] at h
  · have ht2 : self.software_trigger.triggered = true := by simpa using ht
    simp only [streamer_resume, ht2, Bool.true_eq_false, if_false, Option.some.injEq] at h
    subst h
    exact ⟨rfl, rfl, rfl, rfl, rfl, rfl, rfl, ht2, rfl⟩

theorem streamer_emit_eq_none (clock : Nat) (self : SimulatedCamera) :
    streamer_emit clock self = none ↔
      (self.properties.input_triggers.frame_start.enable ≠ 0 ∧
        self.software_trigger.triggered = false) := by
  by_cases hen : self.properties.input_triggers.frame_start.enable = 0
  · simp [streamer_emit, hen]
  · by_cases ht : self.software_trigger.triggered = false
    · simp [streamer_emit, streamer_resume, hen, ht]
    · simp [streamer_emit, streamer_resume, hen, ht]

theorem streamer_emit_some (clock : Nat) (self done : SimulatedCamera)
    (h : streamer_emit clock self = some done) :
    done.properties = self.properties ∧
    done.streamer = self.streamer ∧
    done.im.shape = self.im.shape ∧
    done.im.data = self.im.data ∧
    done.im.frame_id = wrap_i64 (self.im.frame_id + 1) ∧
    done.im.last_emitted_frame_id = self.im.last_emitted_frame_id ∧
    done.hardware_timestamp = clock ∧
    (self.properties.input_triggers.frame_start.enable ≠ 0 →
      self.software_trigger.triggered = true ∧ done.software_trigger.triggered = false) ∧
    (self.properties.input_triggers.frame_start.enable = 0 →
      done.software_trigger = self.software_trigger) := by
  by_cases hen : self.properties.input_triggers.frame_start.enable = 0
  · simp only [streamer_emit, hen, ne_eq, not_true_eq_false, if_false, Option.some.injEq] at h
    subst h
    exact ⟨rfl, rfl, rfl, rfl, rfl, rfl, rfl, fun hc => absurd hen hc, fun _ => rfl⟩
  · have h2 : streamer_resume clock self = some done := by
      simpa [streamer_emit, hen] using h
    obtain ⟨r1, r2, r3, r4, r5, r6, r7, r8, r9⟩ := streamer_resume_some clock self done h2
    exact ⟨r1, r2, r3, r4, r5, r6, r7, fun _ => ⟨r8, r9⟩, fun hc => absurd hc hen⟩

theorem wrap_i64_succ (x : Int) (h0 : -1 ≤ x) (h1 : x + 1 < 9223372036854775808) :
    wrap_i64 (x + 1) = x + 1 := by
  unfold wrap_i64
  omega

theorem simcam_get_frame_locked_ready (self : SimulatedCamera) (im : List Nat) (info : ImageInfo)
    (hrun : self.streamer.is_running = true)
    (hnew : self.im.last_emitted_frame_id < self.im.frame_id) :
    simcam_get_frame_locked self im info =
      some (DeviceStatusCode.Device_Ok,
        { self with im := { self.im with last_emitted_frame_id := self.im.frame_id } },
        memcpy im (self.im.data.getD []) (bytes_of_image self.im.shape),
        { shape := self.im.shape, hardware_timestamp := self.hardware_timestamp,
          hardware_frame_id := self.im.frame_id }) := by
  have h : ¬ (self.im.last_emitted_frame_id ≥ self.im.frame_id) := by omega
  simp [simcam_get_frame_locked, hrun, h]

theorem simcam_get_frame_locked_waits (self : SimulatedCamera) (im : List Nat) (info : ImageInfo)
    (hrun : self.streamer.is_running = true)
    (hold : self.im.frame_id ≤ self.im.last_emitted_frame_id) :
    simcam_get_frame_locked self im info = none := by
  simp [simcam_get_frame_locked, hrun, hold]

theorem simcam_get_frame_locked_stopped (self : SimulatedCamera) (im : List Nat)
    (info : ImageInfo) (hstop : self.streamer.is_running = false) :
    simcam_get_frame_locked self im info =
      some (DeviceStatusCode.Device_Ok,
        { self with im := { self.im with last_emitted_frame_id := self.im.frame_id } },
        im, info) := by
  simp [simcam_get_frame_locked, hstop]

theorem first_ids_succ (n : Nat) : first_ids (n + 1) = first_ids n ++ [(n : Int)] := by
  simp [first_ids, List.range_succ]

/-- An iteration of the streamer thread that finds the trigger disabled, or
enabled with the flag set, runs to completion. -/
theorem streamer_iteration_completes (env : streamer_env) (self : SimulatedCamera)
    (h : self.properties.input_triggers.frame_start.enable = 0 ∨
      self.software_trigger.triggered = true) :
    ∃ done, streamer_iteration env self = streamer_outcome.completed done ∧
      streamer_emit env.clock (streamer_fill env self) = some done := by
  have hne : streamer_emit env.clock (streamer_fill env self) ≠ none := by
    rw [Ne, streamer_emit_eq_none]
    rintro ⟨h1, h2⟩
    rcases h with h | h
    · exact h1 h
    · rw [(streamer_fill_frame env self).2.2.1] at h2
      rw [h] at h2
      exact Bool.noConfusion h2
  obtain ⟨done, hd⟩ := Option.ne_none_iff_exists'.mp hne
  exact ⟨done, by simp [streamer_iteration, hd], hd⟩

theorem sim_step_produce_parked (s : sim_state) (env : streamer_env)
    (hp : s.producer_parked = true) :
    sim_step s (sim_step_kind.produce env) =
      match streamer_resume env.clock s.cam with
      | some done => { s with cam := done, producer_parked := false, completed := s.completed + 1 }
      | none => s := by
  simp only [sim_step, hp, if_true]

theorem sim_step_produce_top (s : sim_state) (env : streamer_env)
    (hp : s.producer_parked = false) (hr : s.cam.streamer.is_running = true) :
    sim_step s (sim_step_kind.produce env) =
      match streamer_emit env.clock (streamer_fill env s.cam) with
      | some done => { s with cam := done, completed := s.completed + 1 }
      | none => { s with cam := streamer_fill env s.cam, producer_parked := true } := by
  simp only [sim_step, hp, hr, streamer_iteration, if_true, Bool.false_eq_true, if_false]
  cases streamer_emit env.clock (streamer_fill env s.cam) <;> rfl

theorem sim_step_produce_idle (s : sim_state) (env : streamer_env)
    (hp : s.producer_parked = false) (hr : s.cam.streamer.is_running = false) :
    sim_step s (sim_step_kind.produce env) = s := by
  simp [sim_step, hp, hr]

theorem sim_step_pull_eq (s : sim_state) (capacity : Nat) :
    sim_step s (sim_step_kind.pull capacity) =
      match simcam_get_frame s.cam (List.replicate capacity 0) capacity ImageInfo_zero with
      | none => s
      | some (status, cam, _, info) =>
        if status = DeviceStatusCode.Device_Ok ∧ s.cam.streamer.is_running = true then
          { s with cam := cam, delivered := s.delivered ++ [info.hardware_frame_id] }
        else { s with cam := cam } := rfl

theorem sim_step_trigger_eq (s : sim_state) :
    sim_step s sim_step_kind.trigger = { s with cam := (simcam_execute_trigger s.cam).2 } := rfl

/-- A call of `simcam_get_frame` on a running camera with a new frame and
enough capacity delivers the current `frame_id`. -/
theorem sim_step_pull_ready (s : sim_state) (capacity : Nat)
    (hcap : bytes_of_image s.cam.im.shape ≤ capacity)
    (hrun : s.cam.streamer.is_running = true)
    (hnew : s.cam.im.last_emitted_frame_id < s.cam.im.frame_id) :
    sim_step s (sim_step_kind.pull capacity) =
      { s with
        cam := { s.cam with im := { s.cam.im with last_emitted_frame_id := s.cam.im.frame_id } },
        delivered := s.delivered ++ [s.cam.im.frame_id] } := by
  rw [sim_step_pull_eq]
  have hge : capacity ≥ bytes_of_image s.cam.im.shape := hcap
  simp only [simcam_get_frame, hge, hrun, if_true,
    simcam_get_frame_locked_ready s.cam _ _ hrun hnew, and_self]

/-- A call of `simcam_get_frame` on a running camera changes nothing when no
new frame is ready (the call waits) or the capacity is too small (the call
fails). -/
theorem sim_step_pull_idle (s : sim_state) (capacity : Nat)
    (hrun : s.cam.streamer.is_running = true)
    (h : s.cam.im.frame_id ≤ s.cam.im.last_emitted_frame_id ∨
      capacity < bytes_of_image s.cam.im.shape) :
    sim_step s (sim_step_kind.pull capacity) = s := by
  rw [sim_step_pull_eq]
  by_cases hcap : capacity ≥ bytes_of_image s.cam.im.shape
  · have hold : s.cam.im.frame_id ≤ s.cam.im.last_emitted_frame_id := by
      rcases h with h | h
      · exact h
      · omega
    simp only [simcam_get_frame, hcap, hrun, if_true,
      simcam_get_frame_locked_waits s.cam _ _ hrun hold]
  · simp [simcam_get_frame, hcap]

/-- Every step of an interleaving keeps the ordering invariant, completes at
most one iteration and never lowers `frame_id`, as long as the count of
iterations stays below `2^63`. -/
theorem sim_step_inv (s : sim_state) (k : sim_step_kind) (hinv : sim_inv s)
    (hb : s.completed + 1 < 2 ^ 63) :
    sim_inv (sim_step s k) ∧
    s.completed ≤ (sim_step s k).completed ∧
    (sim_step s k).completed ≤ s.completed + 1 ∧
    s.cam.im.frame_id ≤ (sim_step s k).cam.im.frame_id := by
  obtain ⟨hrun, hfid, hlo, hle, hpw, hdel⟩ := hinv
  have hb2 : ((s.completed : Int) - 1) + 1 < 9223372036854775808 := by omega
  cases k with
  | produce env =>
    by_cases hp : s.producer_parked = true
    · rw [sim_step_produce_parked s env hp]
      cases h : streamer_resume env.clock s.cam with
      | none =>
        dsimp only
        exact ⟨⟨hrun, hfid, hlo, hle, hpw, hdel⟩, le_refl _, by omega, le_refl _⟩
      | some done =>
        dsimp only
        obtain ⟨_, h2, _, _, h5, h6, _⟩ := streamer_resume_some env.clock s.cam done h
        rw [hfid, wrap_i64_succ _ (by omega) hb2] at h5
        refine ⟨⟨by rw [h2]; exact hrun, ?_, ?_, ?_, hpw, ?_⟩, by simp, by simp, ?_⟩
        · simp only [h5]; push_cast; ring
        · simp only [h6]; exact hlo
        · simp only [h5, h6]; omega
        · intro id hid; simp only [h6]; exact hdel id hid
        · simp only [h5]; omega
    · have hp2 : s.producer_parked = false := by simpa using hp
      rw [sim_step_produce_top s env hp2 hrun]
      obtain ⟨_, f2, _, _, f5, f6⟩ := streamer_fill_frame env s.cam
      cases h : streamer_emit env.clock (streamer_fill env s.cam) with
      | none =>
        dsimp only
        refine ⟨⟨by simp only [f2]; exact hrun, by simp only [f5]; exact hfid,
          by simp only [f6]; exact hlo, by simp only [f5, f6]; exact hle, hpw, ?_⟩,
          le_refl _, by simp, by simp only [f5]; exact le_refl _⟩
        intro id hid; simp only [f6]; exact hdel id hid
      | some done =>
        dsimp only
        obtain ⟨_, h2, _, _, h5, h6, _⟩ := streamer_emit_some env.clock _ done h
        rw [f5, hfid, wrap_i64_succ _ (by omega) hb2] at h5
        rw [f6] at h6
        refine ⟨⟨by rw [h2, f2]; exact hrun, ?_, ?_, ?_, hpw, ?_⟩, by simp, by simp, ?_⟩
        · simp only [h5]; push_cast; ring
        · simp only [h6]; exact hlo
        · simp only [h5, h6]; omega
        · intro id hid; simp only [h6]; exact hdel id hid
        · simp only [h5]; omega
  | pull capacity =>
    by_cases hready : s.cam.im.last_emitted_frame_id < s.cam.im.frame_id ∧
        bytes_of_image s.cam.im.shape ≤ capacity
    · rw [sim_step_pull_ready s capacity hready.2 hrun hready.1]
      refine ⟨⟨hrun, hfid, ?_, le_refl _, ?_, ?_⟩, le_refl _, by simp, le_refl _⟩
      · show -1 ≤ s.cam.im.frame_id
        omega
      · rw [List.pairwise_append]
        refine ⟨hpw, List.pairwise_singleton _ _, ?_⟩
        intro a ha b hb'
        simp only [List.mem_singleton] at hb'
        have := hdel a ha
        omega
      · intro id hid
        show id ≤ s.cam.im.frame_id
        simp only [List.mem_append, List.mem_singleton] at hid
        rcases hid with hid | hid
        · have := hdel id hid
          omega
        · omega
    · rw [sim_step_pull_idle s capacity hrun (by omega)]
      exact ⟨⟨hrun, hfid, hlo, hle, hpw, hdel⟩, le_refl _, by omega, le_refl _⟩
  | trigger =>
    rw [sim_step_trigger_eq]
    exact ⟨⟨hrun, hfid, hlo, hle, hpw, hdel⟩, le_refl _, by simp, le_refl _⟩

/-- The ordering invariant holds after every list of steps from a state
where it holds, and at most one iteration is completed per step. -/
theorem sim_run_inv (steps : List sim_step_kind) :
    ∀ (s : sim_state), sim_inv s → s.completed + steps.length < 2 ^ 63 →
      sim_inv (sim_run s steps) ∧ s.completed ≤ (sim_run s steps).completed ∧
      (sim_run s steps).completed ≤ s.completed + steps.length ∧
      s.cam.im.frame_id ≤ (sim_run s steps).cam.im.frame_id := by
  induction steps with
  | nil =>
    intro s hinv _
    exact ⟨hinv, le_refl _, le_refl _, le_refl _⟩
  | cons k ks ih =>
    intro s hinv hb
    simp only [List.length_cons] at hb
    obtain ⟨h1, h2, h3, h4⟩ := sim_step_inv s k hinv (by omega)
    obtain ⟨g1, g2, g3, g4⟩ := ih (sim_step s k) h1 (by omega)
    refine ⟨g1, ?_, ?_, ?_⟩
    · exact le_trans h2 g2
    · simp only [List.length_cons]
      have : (sim_run s (k :: ks)).completed = (sim_run (sim_step s k) ks).completed := rfl
      omega
    · exact le_trans h4 g4

theorem sim_started_inv (self : SimulatedCamera) : sim_inv (sim_started self) := by
  refine ⟨rfl, ?_, ?_, ?_, List.Pairwise.nil, ?_⟩
  · simp [sim_started, simcam_start]
  · simp [sim_started, simcam_start]
  · simp [sim_started, simcam_start]
  · intro id hid
    simp [sim_started] at hid

/-- One round of a caller that keeps pace: with the trigger disabled, or the
flag set, an iteration of the streamer thread followed by a call of
`simcam_get_frame` with enough capacity delivers frame `n`. -/
theorem round_produce_pull (c0 : SimulatedCamera) (n : Nat) (s : sim_state)
    (env : streamer_env) (capacity : Nat)
    (hs : round_start c0 n s)
    (hgo : c0.properties.input_triggers.frame_start.enable = 0 ∨
      s.cam.software_trigger.triggered = true)
    (hcap : bytes_of_image c0.im.shape ≤ capacity) (hn : n + 1 < 2 ^ 63) :
    round_start c0 (n + 1)
      (sim_step (sim_step s (sim_step_kind.produce env)) (sim_step_kind.pull capacity)) := by
  obtain ⟨hp, hc, hd, hrun, hfid, hlast, hprops, hshape⟩ := hs
  have hgo2 : s.cam.properties.input_triggers.frame_start.enable = 0 ∨
      s.cam.software_trigger.triggered = true := by rw [hprops]; exact hgo
  obtain ⟨done, _, hemit⟩ := streamer_iteration_completes env s.cam hgo2
  obtain ⟨_, f2, _, f4, f5, f6⟩ := streamer_fill_frame env s.cam
  obtain ⟨h1, h2, h3, _, h5, h6, _⟩ := streamer_emit_some env.clock _ done hemit
  rw [f5, hfid, wrap_i64_succ _ (by omega) (by omega)] at h5
  rw [f6, hlast] at h6
  have hstep1 : sim_step s (sim_step_kind.produce env) =
      { s with cam := done, completed := s.completed + 1 } := by
    rw [sim_step_produce_top s env hp hrun, hemit]
  rw [hstep1]
  have hrun1 : done.streamer.is_running = true := by rw [h2, f2]; exact hrun
  have hcap1 : bytes_of_image done.im.shape ≤ capacity := by
    rw [h3, f4, hshape]
    exact hcap
  have hnew1 : done.im.last_emitted_frame_id < done.im.frame_id := by
    rw [h5, h6]
    omega
  rw [sim_step_pull_ready { s with cam := done, completed := s.completed + 1 } capacity
    hcap1 hrun1 hnew1]
  refine ⟨hp, by simp [hc], ?_, hrun1, ?_, ?_, ?_, ?_⟩
  · show s.delivered ++ [done.im.frame_id] = first_ids (n + 1)
    rw [first_ids_succ, hd, h5]
    congr 2
    omega
  · show done.im.frame_id = ((n + 1 : Nat) : Int) - 1
    rw [h5]; push_cast; ring
  · show done.im.frame_id = ((n + 1 : Nat) : Int) - 1
    rw [h5]; push_cast; ring
  · show done.properties = c0.properties
    rw [h1]; exact hprops
  · show done.im.shape = c0.im.shape
    rw [h3, f4]; exact hshape

theorem round_start_trigger (c0 : SimulatedCamera) (n : Nat) (s : sim_state)
    (hs : round_start c0 n s) :
    round_start c0 n (sim_step s sim_step_kind.trigger) ∧
    (sim_step s sim_step_kind.trigger).cam.software_trigger.triggered = true := by
  rw [sim_step_trigger_eq]
  exact ⟨hs, rfl⟩

theorem sim_started_round_start (self : SimulatedCamera) :
    round_start self 0 (sim_started self) := by
  refine ⟨rfl, rfl, rfl, rfl, ?_, ?_, rfl, rfl⟩ <;> simp [sim_started, simcam_start]

/-- After `k` paced rounds from the start of round `n` the frames up to
`n + k - 1` are delivered. -/
theorem paced_rounds (c0 : SimulatedCamera) (capacity : Nat)
    (hen : c0.properties.input_triggers.frame_start.enable = 0)
    (hcap : bytes_of_image c0.im.shape ≤ capacity) :
    ∀ (envs : List streamer_env) (n : Nat) (s : sim_state),
      round_start c0 n s → n + envs.length < 2 ^ 63 →
      round_start c0 (n + envs.length) (sim_run s (paced_steps envs capacity)) := by
  intro envs
  induction envs with
  | nil =>
    intro n s hs _
    exact hs
  | cons env envs ih =>
    intro n s hs hb
    simp only [List.length_cons] at hb
    have h1 := round_produce_pull c0 n s env capacity hs (Or.inl hen) hcap (by omega)
    have h2 := ih (n + 1) _ h1 (by omega)
    have he : n + (env :: envs).length = n + 1 + envs.length := by
      simp only [List.length_cons]; omega
    rw [he]
    exact h2

/-- After `k` triggered rounds from the start of round `n` the frames up to
`n + k - 1` are delivered. -/
theorem triggered_rounds (c0 : SimulatedCamera) (capacity : Nat)
    (hcap : bytes_of_image c0.im.shape ≤ capacity) :
    ∀ (envs : List streamer_env) (n : Nat) (s : sim_state),
      round_start c0 n s → n + envs.length < 2 ^ 63 →
      round_start c0 (n + envs.length) (sim_run s (triggered_steps envs capacity)) := by
  intro envs
  induction envs with
  | nil =>
    intro n s hs _
    exact hs
  | cons env envs ih =>
    intro n s hs hb
    simp only [List.length_cons] at hb
    obtain ⟨t1, t2⟩ := round_start_trigger c0 n s hs
    have h1 := round_produce_pull c0 n _ env capacity t1 (Or.inr t2) hcap (by omega)
    have h2 := ih (n + 1) _ h1 (by omega)
    have he : n + (env :: envs).length = n + 1 + envs.length := by
      simp only [List.length_cons]; omega
    rw [he]
    exact h2

/-- What an accepted `simcam_set` leaves besides the shape: the status
follows the allocation, the buffer has the aligned size of the configured
(binned) shape, the trigger settings are normalised, and the counters, the
running flag and the kind are kept. -/
theorem simcam_set_accept_rest (self : SimulatedCamera) (settings : CameraProperties)
    (heap_ok : Bool) (hb0 : settings.binning ≠ 0) (hpop : popcount_u8 settings.binning = 1) :
    (simcam_set self settings heap_ok).1 =
      (if heap_ok then DeviceStatusCode.Device_Ok else DeviceStatusCode.Device_Err) ∧
    (simcam_set self settings heap_ok).2.2 = settings ∧
    (simcam_set self settings heap_ok).2.1.im.data =
      malloc (aligned_bytes_of_image (simcam_set self settings heap_ok).2.1.im.shape) heap_ok ∧
    (simcam_set self settings heap_ok).2.1.im.shape.type = settings.pixel_type ∧
    (simcam_set self settings heap_ok).2.1.im.shape =
      compute_strides (simcam_set self settings heap_ok).2.1.im.shape ∧
    (simcam_set self settings heap_ok).2.1.properties.input_triggers.frame_start.enable =
      settings.input_triggers.frame_start.enable ∧
    (simcam_set self settings heap_ok).2.1.properties.offset = settings.offset ∧
    (simcam_set self settings heap_ok).2.1.kind = self.kind ∧
    (simcam_set self settings heap_ok).2.1.streamer = self.streamer ∧
    (simcam_set self settings heap_ok).2.1.im.frame_id = self.im.frame_id ∧
    (simcam_set self settings heap_ok).2.1.im.last_emitted_frame_id =
      self.im.last_emitted_frame_id := by
  simp only [simcam_set, hb0, hpop, if_true, if_false]
  cases heap_ok <;> split_ifs <;> simp [malloc, compute_strides, simcam_execute_trigger] at *

theorem write_at_length (old : List Nat) (offset : Nat) (data : List Nat) :
    (write_at old offset data).length = max old.length (offset + data.length) := by
  simp only [write_at, List.length_append, List.length_take, List.length_replicate,
    List.length_drop]
  omega

theorem le_bytes_length (size v : Nat) : (le_bytes size v).length = size := by
  induction size generalizing v with
  | zero => rfl
  | succ n ih => simp [le_bytes, ih]

/-- The random fill stores `4 * k` bytes from offset `p`: the list ends up
at least that long, whatever its length was. -/
theorem im_fill_rand_loop_length (rand : Nat → Nat) :
    ∀ (k p : Nat) (buf : List Nat), 0 < k →
      (im_fill_rand_loop rand k p buf).length = max buf.length (p + 4 * k) := by
  intro k
  induction k with
  | zero => intro p buf h; omega
  | succ k ih =>
    intro p buf _
    by_cases hk : k = 0
    · subst hk
      simp [im_fill_rand_loop, write_at_length, le_bytes_length]
    · rw [im_fill_rand_loop, ih (p + 4) _ (by omega), write_at_length, le_bytes_length]
      omega

/-- The conversion to `uint32_t` of an exact quotient of two naturals. -/
theorem cast_u32_div (n b q : Nat) (h : q * b = n) (hb : 0 < b) (hq : q < U32) :
    cast_u32 ((n : ℚ) / (b : ℚ)) = q := by
  have hb2 : (b : ℚ) ≠ 0 := by exact_mod_cast (Nat.pos_iff_ne_zero.mp hb)
  have : (n : ℚ) / (b : ℚ) = (q : ℚ) := by
    rw [← h]
    push_cast
    field_simp
  rw [this]
  exact cast_u32_natCast q hq

/-- The dimensions an accepted `simcam_set` stores when the binning divides
the sensor side: the request clamped into `[1, 8192 / binning]`. -/
theorem simcam_set_accept_dims (self : SimulatedCamera) (settings : CameraProperties)
    (heap_ok : Bool) (hb0 : settings.binning ≠ 0) (hpop : popcount_u8 settings.binning = 1)
    (hdiv : 8192 / settings.binning * settings.binning = 8192) :
    (simcam_set self settings heap_ok).2.1.im.shape.dims =
      { channels := 1,
        width := clamp settings.shape.x 1 (8192 / settings.binning),
        height := clamp settings.shape.y 1 (8192 / settings.binning),
        planes := 1 } ∧
    (simcam_set self settings heap_ok).2.1.properties.shape =
      { x := clamp settings.shape.x 1 (8192 / settings.binning),
        y := clamp settings.shape.y 1 (8192 / settings.binning) } ∧
    (simcam_set self settings heap_ok).2.1.properties.binning = settings.binning := by
  obtain ⟨hd, hp, hbin⟩ := simcam_set_accept_shape self settings heap_ok hb0 hpop
  have hone : cast_u32 1 = 1 := by
    have := cast_u32_natCast 1 (by decide)
    simpa using this
  have hq : 8192 / settings.binning < U32 :=
    lt_of_le_of_lt (Nat.div_le_self _ _) (by decide)
  have hW := cast_u32_div MAX_IMAGE_WIDTH settings.binning (8192 / settings.binning) hdiv
    (Nat.pos_of_ne_zero hb0) hq
  have hH := cast_u32_div MAX_IMAGE_HEIGHT settings.binning (8192 / settings.binning) hdiv
    (Nat.pos_of_ne_zero hb0) hq
  rw [hone, hW, hH] at hd
  refine ⟨hd, ?_, hbin⟩
  rw [hp, hd]

/-- C11, the code at the failing input: a camera of kind Random configured
with binning 2 and shape 640 by 480 (u8) gets a buffer of 307200 bytes, the
size of the binned image, while the full-resolution image that the streamer
thread fills is 1280 by 960, 1228800 bytes: the random fill stores up to
offset 1228800, past the end of the allocation. -/
theorem simcam_set_allocates_binned_size :
    ∃ cam d,
      simcam_set (simcam_make_camera BasicDeviceKind.BasicDevice_Camera_Random)
        (request 2 640 480) true = (DeviceStatusCode.Device_Ok, cam, request 2 640 480) ∧
      cam.im.data = some d ∧ d.length = 307200 ∧
      (compute_full_resolution_shape_and_offset cam).1.dims =
        { channels := 1, width := 1280, height := 960, planes := 1 } ∧
      aligned_bytes_of_image (compute_full_resolution_shape_and_offset cam).1 = 1228800 ∧
      ∀ rand,
        (im_fill_rand (compute_full_resolution_shape_and_offset cam).1 d rand).length =
          1228800 := by
  have hb0 : (request 2 640 480).binning ≠ 0 := by decide
  have hpop : popcount_u8 (request 2 640 480).binning = 1 := by decide
  obtain ⟨hdims, hprops, hbin⟩ := simcam_set_accept_dims
    (simcam_make_camera BasicDeviceKind.BasicDevice_Camera_Random) (request 2 640 480) true
    hb0 hpop (by decide)
  obtain ⟨hst, hreq, hdata, htype, hstr, _⟩ := simcam_set_accept_rest
    (simcam_make_camera BasicDeviceKind.BasicDevice_Camera_Random) (request 2 640 480) true
    hb0 hpop
  generalize simcam_set (simcam_make_camera BasicDeviceKind.BasicDevice_Camera_Random)
    (request 2 640 480) true = r at *
  obtain ⟨status, cam, req⟩ := r
  simp only at hdims hprops hbin hst hreq hdata htype hstr
  have hd1 : cam.im.shape.dims = { channels := 1, width := 640, height := 480, planes := 1 } := by
    rw [hdims]; decide
  have hp1 : cam.properties.shape = { x := 640, y := 480 } := by
    rw [hprops]; decide
  have hb1 : cam.properties.binning = 2 := by rw [hbin]; decide
  have ht1 : cam.im.shape.type = 0 := by rw [htype]; decide
  have halloc : aligned_bytes_of_image cam.im.shape = 307200 := by
    rw [hstr]
    simp only [aligned_bytes_of_image, bytes_of_image, compute_strides, hd1, ht1]
    decide
  have hfull : (compute_full_resolution_shape_and_offset cam).1.dims =
      { channels := 1, width := 1280, height := 960, planes := 1 } := by
    simp only [compute_full_resolution_shape_and_offset, compute_strides, hp1, hb1]
    decide
  have hfullsz : aligned_bytes_of_image (compute_full_resolution_shape_and_offset cam).1 =
      1228800 := by
    simp only [compute_full_resolution_shape_and_offset, aligned_bytes_of_image, bytes_of_image,
      compute_strides, hp1, hb1, ht1]
    decide
  refine ⟨cam, List.replicate 307200 0, ?_, ?_, List.length_replicate _ _, hfull, hfullsz, ?_⟩
  · rw [hst, hreq]; rfl
  · rw [hdata, halloc]
    simp only [malloc, if_true]
  · intro rand
    simp only [im_fill_rand, hfullsz]
    rw [im_fill_rand_loop_length rand _ _ _ (by decide), List.length_replicate]
    decide

/-- C12, the code at the failing input: a request with binning 16 is
accepted and stored, while the metadata of the configured camera reports 8
as the upper bound of the binning. -/
theorem simcam_set_accepts_binning_sixteen :
    ∃ cam req,
      simcam_set (simcam_make_camera BasicDeviceKind.BasicDevice_Camera_Empty)
        (request 16 64 64) true = (DeviceStatusCode.Device_Ok, cam, req) ∧
      cam.properties.binning = 16 ∧
      (simcam_get_meta cam).2.binning.high = 8 ∧
      (simcam_get_meta cam).2.binning.high < (cam.properties.binning : ℚ) := by
  have hb0 : (request 16 64 64).binning ≠ 0 := by decide
  have hpop : popcount_u8 (request 16 64 64).binning = 1 := by decide
  obtain ⟨_, _, hbin⟩ := simcam_set_accept_shape
    (simcam_make_camera BasicDeviceKind.BasicDevice_Camera_Empty) (request 16 64 64) true
    hb0 hpop
  obtain ⟨hst, _⟩ := simcam_set_accept_rest
    (simcam_make_camera BasicDeviceKind.BasicDevice_Camera_Empty) (request 16 64 64) true
    hb0 hpop
  have hb16 : (request 16 64 64).binning = 16 := rfl
  refine ⟨(simcam_set (simcam_make_camera BasicDeviceKind.BasicDevice_Camera_Empty)
      (request 16 64 64) true).2.1,
    (simcam_set (simcam_make_camera BasicDeviceKind.BasicDevice_Camera_Empty)
      (request 16 64 64) true).2.2, ?_, hbin.trans hb16, rfl, ?_⟩
  · have h1 : (simcam_set (simcam_make_camera BasicDeviceKind.BasicDevice_Camera_Empty)
        (request 16 64 64) true).1 = DeviceStatusCode.Device_Ok := by rw [hst]; rfl
    rw [← h1]
  · rw [hbin, hb16]
    show (8 : ℚ) < ((16 : Nat) : ℚ)
    norm_num

theorem wrap_i64_id (x : Int) (h0 : -9223372036854775808 ≤ x) (h1 : x < 9223372036854775808) :
    wrap_i64 x = x := by
  unfold wrap_i64
  omega

theorem memcpy_spec (dst src : List Nat) (n : Nat) (hs : n ≤ src.length) (hd : n ≤ dst.length) :
    (memcpy dst src n).length = dst.length ∧
    (memcpy dst src n).take n = src.take n ∧
    (memcpy dst src n).drop n = dst.drop n := by
  have hl : (src.take n).length = n := by simp [hs]
  refine ⟨?_, ?_, ?_⟩
  · simp only [memcpy, List.length_append, List.length_take, List.length_drop]
    omega
  · simp only [memcpy]
    rw [List.take_append_of_le_length (by omega), List.take_take]
    simp
  · simp only [memcpy]
    rw [List.drop_append_of_le_length (by omega)]
    have : List.drop n (List.take n src) = [] := by
      apply List.drop_eq_nil_of_le
      omega
    rw [this, List.nil_append]

/-- C13: pullFrame validation. `simcam_get_frame` returns an error exactly
when, at entry, the caller's capacity is smaller than one frame
(`strides.planes *` bytes per sample of the current shape, `bytes_of_image`)
or the device is not running; in that case the camera (so
`last_emitted_frame_id`), the caller's buffer and the caller's `ImageInfo`
are all unchanged. -/
theorem simcam_get_frame_validation (self : SimulatedCamera) (im : List Nat) (nbytes : Nat)
    (info : ImageInfo) :
    ((∃ cam buf inf, simcam_get_frame self im nbytes info =
        some (DeviceStatusCode.Device_Err, cam, buf, inf)) ↔
      (nbytes < bytes_of_image self.im.shape ∨ self.streamer.is_running = false)) ∧
    ((nbytes < bytes_of_image self.im.shape ∨ self.streamer.is_running = false) →
      simcam_get_frame self im nbytes info =
        some (DeviceStatusCode.Device_Err, self, im, info)) := by
  have hfail : (nbytes < bytes_of_image self.im.shape ∨ self.streamer.is_running = false) →
      simcam_get_frame self im nbytes info =
        some (DeviceStatusCode.Device_Err, self, im, info) := by
    intro h
    by_cases hcap : nbytes ≥ bytes_of_image self.im.shape
    · have hr : self.streamer.is_running = false := by
        rcases h with h | h
        · omega
        · exact h
      simp [simcam_get_frame, hcap, hr]
    · simp [simcam_get_frame, hcap]
  refine ⟨⟨?_, fun h => ⟨self, im, info, hfail h⟩⟩, hfail⟩
  rintro ⟨cam, buf, inf, h⟩
  by_contra hno
  have hcap : nbytes ≥ bytes_of_image self.im.shape := by omega
  have hrun : self.streamer.is_running = true := by
    cases hr : self.streamer.is_running
    · exact absurd (Or.inr hr) hno
    · rfl
  simp only [simcam_get_frame, hcap, hrun, if_true, simcam_get_frame_locked] at h
  split_ifs at h <;> simp at h

/-- C13, witness: a fresh camera, which is not running, and a buffer of 16
bytes. -/
theorem simcam_get_frame_validation_witness :
    simcam_get_frame (simcam_make_camera BasicDeviceKind.BasicDevice_Camera_Empty)
      (List.replicate 16 0) 16 ImageInfo_zero =
      some (DeviceStatusCode.Device_Err,
        simcam_make_camera BasicDeviceKind.BasicDevice_Camera_Empty,
        List.replicate 16 0, ImageInfo_zero) :=
  (simcam_get_frame_validation (simcam_make_camera BasicDeviceKind.BasicDevice_Camera_Empty)
    (List.replicate 16 0) 16 ImageInfo_zero).2 (Or.inr rfl)

/-- C14: pullFrame success. For every running camera state with
`frame_id > last_emitted_frame_id`, a frame buffer that holds one frame and a
caller's buffer of the stated capacity, with the capacity at least one frame,
`simcam_get_frame` returns `Device_Ok`, copies exactly
`bytes_of_image(current shape)` bytes of the frame buffer into the caller's
buffer (the bytes beyond are untouched), sets `info.shape` to the current
shape, `info.hardware_frame_id` to `frame_id` and `info.hardware_timestamp`
to the stamped timestamp, and sets `last_emitted_frame_id` to `frame_id`,
changing nothing else in the camera. -/
theorem simcam_get_frame_success (self : SimulatedCamera) (im : List Nat) (nbytes : Nat)
    (info : ImageInfo) (d : List Nat)
    (hrun : self.streamer.is_running = true)
    (hnew : self.im.last_emitted_frame_id < self.im.frame_id)
    (hcap : bytes_of_image self.im.shape ≤ nbytes)
    (hdata : self.im.data = some d)
    (hd : bytes_of_image self.im.shape ≤ d.length)
    (him : nbytes ≤ im.length) :
    ∃ cam buf inf,
      simcam_get_frame self im nbytes info = some (DeviceStatusCode.Device_Ok, cam, buf, inf) ∧
      buf.length = im.length ∧
      buf.take (bytes_of_image self.im.shape) = d.take (bytes_of_image self.im.shape) ∧
      buf.drop (bytes_of_image self.im.shape) = im.drop (bytes_of_image self.im.shape) ∧
      inf.shape = self.im.shape ∧
      inf.hardware_frame_id = self.im.frame_id ∧
      inf.hardware_timestamp = self.hardware_timestamp ∧
      cam.im.last_emitted_frame_id = self.im.frame_id ∧
      cam = { self with im := { self.im with last_emitted_frame_id := self.im.frame_id } } := by
  have hge : nbytes ≥ bytes_of_image self.im.shape := hcap
  obtain ⟨m1, m2, m3⟩ := memcpy_spec im d (bytes_of_image self.im.shape) hd (by omega)
  refine ⟨{ self with im := { self.im with last_emitted_frame_id := self.im.frame_id } },
    memcpy im (self.im.data.getD []) (bytes_of_image self.im.shape),
    { shape := self.im.shape, hardware_timestamp := self.hardware_timestamp,
      hardware_frame_id := self.im.frame_id }, ?_, ?_, ?_, ?_, rfl, rfl, rfl, rfl, rfl⟩
  · simp only [simcam_get_frame, hge, hrun, if_true]
    exact simcam_get_frame_locked_ready self im info hrun hnew
  · simp only [hdata, Option.getD_some]; exact m1
  · simp only [hdata, Option.getD_some]; exact m2
  · simp only [hdata, Option.getD_some]; exact m3

/-- C14, witness: the camera `ready_camera` and a caller's buffer of 8 bytes. -/
theorem simcam_get_frame_success_witness :
    ∃ cam buf inf,
      simcam_get_frame ready_camera (List.replicate 8 0) 8 ImageInfo_zero =
        some (DeviceStatusCode.Device_Ok, cam, buf, inf) ∧
      buf.length = (List.replicate 8 0).length ∧
      buf.take (bytes_of_image ready_camera.im.shape) =
        (List.replicate 32 7).take (bytes_of_image ready_camera.im.shape) ∧
      buf.drop (bytes_of_image ready_camera.im.shape) =
        (List.replicate 8 0).drop (bytes_of_image ready_camera.im.shape) ∧
      inf.shape = ready_camera.im.shape ∧
      inf.hardware_frame_id = ready_camera.im.frame_id ∧
      inf.hardware_timestamp = ready_camera.hardware_timestamp ∧
      cam.im.last_emitted_frame_id = ready_camera.im.frame_id ∧
      cam = { ready_camera with
        im := { ready_camera.im with last_emitted_frame_id := ready_camera.im.frame_id } } :=
  simcam_get_frame_success ready_camera (List.replicate 8 0) 8 ImageInfo_zero
    (List.replicate 32 7) (by decide) (by decide) (by decide) (by decide) (by decide) (by decide)

/-- C15: pullFrame when stopped while waiting. If a call of
`simcam_get_frame` passed the entry checks in state `s0` and waits for a
frame, and the running flag is cleared before it is woken in state `s1`,
then the call returns `Device_Ok`, copies nothing into the caller's buffer
and writes nothing to the caller's `ImageInfo`: id, timestamp and shape keep
their previous values. -/
theorem simcam_get_frame_stopped_while_waiting (s0 s1 : SimulatedCamera) (im : List Nat)
    (nbytes : Nat) (info : ImageInfo)
    (hwait : simcam_get_frame s0 im nbytes info = none)
    (hstop : s1.streamer.is_running = false) :
    (bytes_of_image s0.im.shape ≤ nbytes ∧ s0.streamer.is_running = true) ∧
    ∃ cam, simcam_get_frame_locked s1 im info =
      some (DeviceStatusCode.Device_Ok, cam, im, info) := by
  refine ⟨?_, _, simcam_get_frame_locked_stopped s1 im info hstop⟩
  by_cases hcap : nbytes ≥ bytes_of_image s0.im.shape
  · cases hr : s0.streamer.is_running
    · simp [simcam_get_frame, hcap, hr] at hwait
    · exact ⟨hcap, rfl⟩
  · simp [simcam_get_frame, hcap] at hwait

/-- C15, witness: a caller waits on `waiting_camera` and is woken in
`stopped_camera`. -/
theorem simcam_get_frame_stopped_while_waiting_witness :
    ∃ cam, simcam_get_frame_locked stopped_camera (List.replicate 8 0) ImageInfo_zero =
      some (DeviceStatusCode.Device_Ok, cam, List.replicate 8 0, ImageInfo_zero) :=
  (simcam_get_frame_stopped_while_waiting waiting_camera stopped_camera (List.replicate 8 0) 8
    ImageInfo_zero (by decide) (by decide)).2

/-- An iteration of the streamer thread from the top of its loop that finds
the trigger disabled, or the flag set, completes as one step and adds one to
`frame_id`. -/
theorem sim_step_produce_completes (s : sim_state) (env : streamer_env)
    (hp : s.producer_parked = false) (hrun : s.cam.streamer.is_running = true)
    (hgo : s.cam.properties.input_triggers.frame_start.enable = 0 ∨
      s.cam.software_trigger.triggered = true)
    (h0 : -9223372036854775808 ≤ s.cam.im.frame_id + 1)
    (h1 : s.cam.im.frame_id + 1 < 9223372036854775808) :
    ∃ done, sim_step s (sim_step_kind.produce env) =
        { s with cam := done, completed := s.completed + 1 } ∧
      done.im.frame_id = s.cam.im.frame_id + 1 ∧
      done.im.last_emitted_frame_id = s.cam.im.last_emitted_frame_id ∧
      done.properties = s.cam.properties ∧
      done.im.shape = s.cam.im.shape ∧
      done.streamer = s.cam.streamer ∧
      (s.cam.properties.input_triggers.frame_start.enable = 0 →
        done.software_trigger = s.cam.software_trigger) ∧
      (s.cam.properties.input_triggers.frame_start.enable ≠ 0 →
        done.software_trigger.triggered = false) := by
  obtain ⟨done, _, hemit⟩ := streamer_iteration_completes env s.cam hgo
  obtain ⟨f1, f2, f3, f4, f5, f6⟩ := streamer_fill_frame env s.cam
  obtain ⟨e1, e2, e3, _, e5, e6, _, e8, e9⟩ := streamer_emit_some env.clock _ done hemit
  rw [f5, wrap_i64_id _ h0 h1] at e5
  refine ⟨done, ?_, e5, e6.trans f6, e1.trans f1, e3.trans f4, e2.trans f2, ?_, ?_⟩
  · rw [sim_step_produce_top s env hp hrun, hemit]
  · intro h
    rw [e9 (by rw [f1]; exact h), f3]
  · intro h
    exact (e8 (by rw [f1]; exact h)).2

/-- A fresh camera configured with binning 1, shape 64 by 64 and u8 samples
holds frames of 4096 bytes, keeps the requested trigger enable and is not
running. -/
theorem configured_64_facts (kind : BasicDeviceKind) (settings : CameraProperties)
    (hb : settings.binning = 1) (hs : settings.shape = { x := 64, y := 64 })
    (ht : settings.pixel_type = 0) :
    bytes_of_image (simcam_set (simcam_make_camera kind) settings true).2.1.im.shape = 4096 ∧
    (simcam_set (simcam_make_camera kind) settings true).2.1.properties.input_triggers.frame_start.enable
      = settings.input_triggers.frame_start.enable ∧
    (simcam_set (simcam_make_camera kind) settings true).2.1.streamer.is_running = false := by
  have hb0 : settings.binning ≠ 0 := by rw [hb]; decide
  have hpop : popcount_u8 settings.binning = 1 := by rw [hb]; decide
  obtain ⟨hdims, _, _⟩ := simcam_set_accept_dims (simcam_make_camera kind) settings true
    hb0 hpop (by rw [hb])
  obtain ⟨_, _, _, htype, hstr, hen, _, _, hrun, _⟩ := simcam_set_accept_rest
    (simcam_make_camera kind) settings true hb0 hpop
  refine ⟨?_, hen, ?_⟩
  · rw [hstr]
    simp only [bytes_of_image, compute_strides, hdims, htype, ht, hb, hs]
    decide
  · rw [hrun]
    rfl

/-- With the trigger disabled, two iterations of the streamer thread before
the first call of `simcam_get_frame` make that call deliver frame 1. -/
theorem two_iterations_then_pull (self : SimulatedCamera) (env1 env2 : streamer_env)
    (capacity : Nat)
    (hen : self.properties.input_triggers.frame_start.enable = 0)
    (hcap : bytes_of_image self.im.shape ≤ capacity) :
    (sim_run (sim_started self)
      [sim_step_kind.produce env1, sim_step_kind.produce env2,
        sim_step_kind.pull capacity]).delivered = [1] := by
  obtain ⟨hp, hc, hd, hrun, hfid, hlast, hprops, hshape⟩ := sim_started_round_start self
  simp only [Nat.cast_zero, zero_sub] at hfid hlast
  obtain ⟨d1, hs1, a1, a2, a3, a4, a5, _, _⟩ := sim_step_produce_completes (sim_started self)
    env1 hp hrun (Or.inl (by rw [hprops]; exact hen)) (by rw [hfid]; decide)
    (by rw [hfid]; decide)
  rw [hfid] at a1
  rw [hlast] at a2
  obtain ⟨d2, hs2, b1, b2, b3, b4, b5, _, _⟩ := sim_step_produce_completes
    { sim_started self with cam := d1, completed := (sim_started self).completed + 1 }
    env2 hp (by show d1.streamer.is_running = true; rw [a5]; exact hrun)
    (Or.inl (by show d1.properties.input_triggers.frame_start.enable = 0
                rw [a3, hprops]; exact hen))
    (by show -9223372036854775808 ≤ d1.im.frame_id + 1; rw [a1]; decide)
    (by show d1.im.frame_id + 1 < 9223372036854775808; rw [a1]; decide)
  have b1' : d2.im.frame_id = 1 := by
    rw [b1]; show d1.im.frame_id + 1 = 1; rw [a1]; decide
  have b2' : d2.im.last_emitted_frame_id = -1 := by
    rw [b2]; exact a2
  show (sim_step (sim_step (sim_step (sim_started self) (sim_step_kind.produce env1))
    (sim_step_kind.produce env2)) (sim_step_kind.pull capacity)).delivered = [1]
  rw [hs1, hs2, sim_step_pull_ready _ capacity
    (by show bytes_of_image d2.im.shape ≤ capacity
        rw [b4]; show bytes_of_image d1.im.shape ≤ capacity
        rw [a4, hshape]; exact hcap)
    (by show d2.streamer.is_running = true
        rw [b5]; show d1.streamer.is_running = true
        rw [a5]; exact hrun)
    (by show d2.im.last_emitted_frame_id < d2.im.frame_id
        rw [b1', b2']; decide)]
  show (sim_started self).delivered ++ [d2.im.frame_id] = [1]
  rw [hd, b1']
  rfl

/-- C16, counterexample: on a camera configured with the trigger disabled
(64 by 64, u8) and started, two iterations of the streamer thread followed
by one call of `simcam_get_frame` deliver frame 1: the first successful call
does not return 0. -/
theorem slow_caller_skips_frame_zero :
    (simcam_set (simcam_make_camera BasicDeviceKind.BasicDevice_Camera_Empty)
      (request 1 64 64) true).2.1.properties.input_triggers.frame_start.enable = 0 ∧
    (sim_run
      (sim_started (simcam_set (simcam_make_camera BasicDeviceKind.BasicDevice_Camera_Empty)
        (request 1 64 64) true).2.1)
      [sim_step_kind.produce (quiet_env 10), sim_step_kind.produce (quiet_env 20),
        sim_step_kind.pull 4096]).delivered = [1] ∧
    (sim_run
      (sim_started (simcam_set (simcam_make_camera BasicDeviceKind.BasicDevice_Camera_Empty)
        (request 1 64 64) true).2.1)
      [sim_step_kind.produce (quiet_env 10), sim_step_kind.produce (quiet_env 20),
        sim_step_kind.pull 4096]).delivered ≠ first_ids 1 := by
  obtain ⟨hbytes, hen, _⟩ := configured_64_facts BasicDeviceKind.BasicDevice_Camera_Empty
    (request 1 64 64) rfl rfl rfl
  have hen0 : (simcam_set (simcam_make_camera BasicDeviceKind.BasicDevice_Camera_Empty)
      (request 1 64 64) true).2.1.properties.input_triggers.frame_start.enable = 0 := by
    rw [hen]; rfl
  have hrun := two_iterations_then_pull _ (quiet_env 10) (quiet_env 20) 4096 hen0
    (le_of_eq hbytes)
  refine ⟨hen0, hrun, ?_⟩
  rw [hrun]
  decide

/-- C16, amended: consecutive frame ids for a caller that keeps pace. In the
step relation whose steps are iterations of the streamer thread and calls of
`simcam_get_frame`, after start on a camera with the trigger disabled, for
every `N` (below `2^63`): when each call is preceded by exactly one iteration
and has the capacity of a frame, the `N` calls succeed and return
`hardware_frame_id` `0, 1, ..., N-1` in that order. -/
theorem paced_caller_gets_consecutive_ids (self : SimulatedCamera) (envs : List streamer_env)
    (capacity : Nat)
    (hen : self.properties.input_triggers.frame_start.enable = 0)
    (hcap : bytes_of_image self.im.shape ≤ capacity)
    (hn : envs.length < 2 ^ 63) :
    (sim_run (sim_started self) (paced_steps envs capacity)).delivered = first_ids envs.length ∧
    (sim_run (sim_started self) (paced_steps envs capacity)).completed = envs.length ∧
    (sim_run (sim_started self) (paced_steps envs capacity)).cam.im.frame_id =
      (envs.length : Int) - 1 := by
  have h := paced_rounds self capacity hen hcap envs 0 (sim_started self)
    (sim_started_round_start self) (by omega)
  rw [Nat.zero_add] at h
  exact ⟨h.2.2.1, h.2.1, h.2.2.2.2.1⟩

/-- C16, witness: three paced rounds on a camera configured with shape 64 by
64 deliver the ids 0, 1, 2. -/
theorem paced_caller_gets_consecutive_ids_witness :
    (sim_run
      (sim_started (simcam_set (simcam_make_camera BasicDeviceKind.BasicDevice_Camera_Empty)
        (request 1 64 64) true).2.1)
      (paced_steps [quiet_env 10, quiet_env 20, quiet_env 30] 4096)).delivered =
      first_ids 3 :=
  (paced_caller_gets_consecutive_ids
    (simcam_set (simcam_make_camera BasicDeviceKind.BasicDevice_Camera_Empty)
      (request 1 64 64) true).2.1
    [quiet_env 10, quiet_env 20, quiet_env 30] 4096
    ((configured_64_facts BasicDeviceKind.BasicDevice_Camera_Empty (request 1 64 64)
      rfl rfl rfl).2.1.trans rfl)
    (le_of_eq (configured_64_facts BasicDeviceKind.BasicDevice_Camera_Empty (request 1 64 64)
      rfl rfl rfl).1)
    (by decide)).1

/-- C17: frame ids never go backwards. After `simcam_start`, under every
interleaving of iterations of the streamer thread, calls of
`simcam_get_frame` and calls of `simcam_execute_trigger` (fewer than `2^63`
steps), the camera runs, `frame_id` is one less than the number of completed
iterations (it grows by exactly 1 per iteration), `last_emitted_frame_id ≤
frame_id` holds, the ids of the delivered frames increase strictly, and one
more step never lowers `frame_id`. -/
theorem frame_ids_never_go_backwards (self : SimulatedCamera) (steps : List sim_step_kind)
    (next : sim_step_kind) (hlen : steps.length + 1 < 2 ^ 63) :
    (sim_run (sim_started self) steps).cam.streamer.is_running = true ∧
    (sim_run (sim_started self) steps).cam.im.frame_id =
      ((sim_run (sim_started self) steps).completed : Int) - 1 ∧
    (sim_run (sim_started self) steps).cam.im.last_emitted_frame_id ≤
      (sim_run (sim_started self) steps).cam.im.frame_id ∧
    (sim_run (sim_started self) steps).delivered.Pairwise (fun a b => a < b) ∧
    (sim_run (sim_started self) steps).cam.im.frame_id ≤
      (sim_step (sim_run (sim_started self) steps) next).cam.im.frame_id ∧
    (sim_step (sim_run (sim_started self) steps) next).cam.im.frame_id =
      ((sim_step (sim_run (sim_started self) steps) next).completed : Int) - 1 ∧
    (sim_run (sim_started self) steps).completed ≤
      (sim_step (sim_run (sim_started self) steps) next).completed ∧
    (sim_step (sim_run (sim_started self) steps) next).completed ≤
      (sim_run (sim_started self) steps).completed + 1 := by
  have h0 : (sim_started self).completed = 0 := rfl
  obtain ⟨hinv, _, hc, _⟩ := sim_run_inv steps (sim_started self) (sim_started_inv self)
    (by rw [h0]; omega)
  rw [h0, Nat.zero_add] at hc
  obtain ⟨hinv2, g2, g3, g4⟩ := sim_step_inv (sim_run (sim_started self) steps) next hinv
    (by omega)
  exact ⟨hinv.1, hinv.2.1, hinv.2.2.2.1, hinv.2.2.2.2.1, g4, hinv2.2.1, g2, g3⟩

/-- C17, witness: two iterations and a call, followed by one more iteration,
on a camera configured with shape 64 by 64. -/
theorem frame_ids_never_go_backwards_witness :
    (sim_run
      (sim_started (simcam_set (simcam_make_camera BasicDeviceKind.BasicDevice_Camera_Empty)
        (request 1 64 64) true).2.1)
      [sim_step_kind.produce (quiet_env 10), sim_step_kind.produce (quiet_env 20),
        sim_step_kind.pull 4096]).delivered.Pairwise (fun a b => a < b) :=
  (frame_ids_never_go_backwards
    (simcam_set (simcam_make_camera BasicDeviceKind.BasicDevice_Camera_Empty)
      (request 1 64 64) true).2.1
    [sim_step_kind.produce (quiet_env 10), sim_step_kind.produce (quiet_env 20),
      sim_step_kind.pull 4096] (sim_step_kind.produce (quiet_env 30)) (by decide)).2.2.2.1

/-- C18, the code at the failing inputs. On a camera configured with the
software frame-start trigger enabled: (a) after `simcam_execute_trigger` and
then `simcam_start`, the first iteration of the streamer thread completes
and produces frame 0 although no trigger was executed after the start;
(b) after start, one trigger and one frame, `simcam_stop` with the thread
not parked leaves the flag set, and after the next `simcam_start` the first
iteration again produces frame 0 with no trigger executed since that
start. -/
theorem stale_trigger_produces_frame :
    (simcam_set (simcam_make_camera BasicDeviceKind.BasicDevice_Camera_Empty)
      (request_triggered 1 64 64) true).2.1.properties.input_triggers.frame_start.enable = 1 ∧
    (∃ done,
      streamer_iteration (quiet_env 10)
        (simcam_start (simcam_execute_trigger
          (simcam_set (simcam_make_camera BasicDeviceKind.BasicDevice_Camera_Empty)
            (request_triggered 1 64 64) true).2.1).2 true).2 =
        streamer_outcome.completed done ∧
      done.im.frame_id = 0) ∧
    (∃ done1 stopped done2,
      streamer_iteration (quiet_env 10)
        (simcam_execute_trigger (simcam_start
          (simcam_set (simcam_make_camera BasicDeviceKind.BasicDevice_Camera_Empty)
            (request_triggered 1 64 64) true).2.1 true).2).2 =
        streamer_outcome.completed done1 ∧
      done1.software_trigger.triggered = false ∧
      simcam_stop done1 false 20 = some (DeviceStatusCode.Device_Ok, stopped) ∧
      stopped.software_trigger.triggered = true ∧
      streamer_iteration (quiet_env 30) (simcam_start stopped true).2 =
        streamer_outcome.completed done2 ∧
      done2.im.frame_id = 0) := by
  obtain ⟨_, hen, _⟩ := configured_64_facts BasicDeviceKind.BasicDevice_Camera_Empty
    (request_triggered 1 64 64) rfl rfl rfl
  have hen1 : (simcam_set (simcam_make_camera BasicDeviceKind.BasicDevice_Camera_Empty)
      (request_triggered 1 64 64) true).2.1.properties.input_triggers.frame_start.enable = 1 := by
    rw [hen]; rfl
  have hzero : wrap_i64 (-1 + 1) = 0 := by decide
  refine ⟨hen1, ?_, ?_⟩
  · obtain ⟨done, hd, hemit⟩ := streamer_iteration_completes (quiet_env 10)
      (simcam_start (simcam_execute_trigger
        (simcam_set (simcam_make_camera BasicDeviceKind.BasicDevice_Camera_Empty)
          (request_triggered 1 64 64) true).2.1).2 true).2 (Or.inr rfl)
    obtain ⟨_, _, _, _, e5, _⟩ := streamer_emit_some _ _ done hemit
    exact ⟨done, hd, e5.trans hzero⟩
  · obtain ⟨done1, hd1, hemit1⟩ := streamer_iteration_completes (quiet_env 10)
      (simcam_execute_trigger (simcam_start
        (simcam_set (simcam_make_camera BasicDeviceKind.BasicDevice_Camera_Empty)
          (request_triggered 1 64 64) true).2.1 true).2).2 (Or.inr rfl)
    obtain ⟨_, _, _, _, _, _, _, e8, _⟩ := streamer_emit_some _ _ done1 hemit1
    have ht1 : done1.software_trigger.triggered = false :=
      (e8 (by show (simcam_set (simcam_make_camera BasicDeviceKind.BasicDevice_Camera_Empty)
                (request_triggered 1 64 64) true).2.1.properties.input_triggers.frame_start.enable ≠ 0
              rw [hen1]; decide)).2
    obtain ⟨done2, hd2, hemit2⟩ := streamer_iteration_completes (quiet_env 30)
      (simcam_start (simcam_execute_trigger
        { done1 with streamer := { is_running := false } }).2 true).2 (Or.inr rfl)
    obtain ⟨_, _, _, _, g5, _⟩ := streamer_emit_some _ _ done2 hemit2
    exact ⟨done1, _, done2, hd1, ht1, rfl, rfl, hd2, g5.trans hzero⟩

/-- C19: the trigger is a flag, not a counter. `simcam_execute_trigger`
returns `Device_Ok` in every state, sets the triggered flag and changes
nothing else, and is idempotent: two calls leave the camera in exactly the
state one call leaves it in. With the trigger enabled the streamer thread
then completes one iteration, which adds one frame and clears the flag, and
its next iteration parks at the trigger wait without producing a frame. -/
theorem trigger_is_a_flag (self : SimulatedCamera) :
    (simcam_execute_trigger self).1 = DeviceStatusCode.Device_Ok ∧
    (simcam_execute_trigger self).2 = { self with software_trigger := { triggered := true } } ∧
    simcam_execute_trigger (simcam_execute_trigger self).2 = simcam_execute_trigger self ∧
    (self.properties.input_triggers.frame_start.enable ≠ 0 →
      ∀ env1 env2 : streamer_env, ∃ done filled,
        streamer_iteration env1 (simcam_execute_trigger (simcam_execute_trigger self).2).2 =
          streamer_outcome.completed done ∧
        done.im.frame_id = wrap_i64 (self.im.frame_id + 1) ∧
        done.software_trigger.triggered = false ∧
        streamer_iteration env2 done = streamer_outcome.parked filled ∧
        filled.im.frame_id = done.im.frame_id) := by
  refine ⟨rfl, rfl, rfl, ?_⟩
  intro hen env1 env2
  obtain ⟨done, hd, hemit⟩ := streamer_iteration_completes env1
    (simcam_execute_trigger (simcam_execute_trigger self).2).2 (Or.inr rfl)
  obtain ⟨e1, _, _, _, e5, _, _, e8, _⟩ := streamer_emit_some _ _ done hemit
  have ht : done.software_trigger.triggered = false := (e8 hen).2
  have hpark : streamer_emit env2.clock (streamer_fill env2 done) = none := by
    rw [streamer_emit_eq_none]
    exact ⟨by rw [(streamer_fill_frame env2 done).1, e1]; exact hen,
      by rw [(streamer_fill_frame env2 done).2.2.1]; exact ht⟩
  refine ⟨done, streamer_fill env2 done, hd, e5, ht, ?_, rfl⟩
  simp only [streamer_iteration, hpark]

/-- C19, witness: on a camera configured with the trigger enabled, two
triggers let exactly one iteration complete. -/
theorem trigger_is_a_flag_witness :
    ∃ done filled,
      streamer_iteration (quiet_env 10)
        (simcam_execute_trigger (simcam_execute_trigger
          (simcam_set (simcam_make_camera BasicDeviceKind.BasicDevice_Camera_Empty)
            (request_triggered 1 64 64) true).2.1).2).2 = streamer_outcome.completed done ∧
      done.im.frame_id =
        wrap_i64 ((simcam_set (simcam_make_camera BasicDeviceKind.BasicDevice_Camera_Empty)
          (request_triggered 1 64 64) true).2.1.im.frame_id + 1) ∧
      done.software_trigger.triggered = false ∧
      streamer_iteration (quiet_env 20) done = streamer_outcome.parked filled ∧
      filled.im.frame_id = done.im.frame_id :=
  (trigger_is_a_flag (simcam_set (simcam_make_camera BasicDeviceKind.BasicDevice_Camera_Empty)
    (request_triggered 1 64 64) true).2.1).2.2.2
    (by rw [(configured_64_facts BasicDeviceKind.BasicDevice_Camera_Empty
          (request_triggered 1 64 64) rfl rfl rfl).2.1]; decide)
    (quiet_env 10) (quiet_env 20)

/-- C20: one trigger, one frame. With the software trigger enabled, an
iteration of the streamer thread, whether it resumes from the trigger wait
or runs from the top of the loop, completes only when the triggered flag is
set, and completing it clears the flag and increments `frame_id` by exactly 1
(within the range of `int64_t`); hence `n` rounds (`n` below `2^63`) of
(`simcam_execute_trigger`, iteration, `simcam_get_frame` with the capacity of
a frame) after start deliver exactly `n` frames, one per trigger, with ids
`0, ..., n-1`, the trigger staying enabled. -/
theorem one_trigger_one_frame (self : SimulatedCamera) (envs : List streamer_env)
    (capacity : Nat)
    (hen : self.properties.input_triggers.frame_start.enable ≠ 0)
    (hcap : bytes_of_image self.im.shape ≤ capacity)
    (hn : envs.length < 2 ^ 63) :
    (∀ (clock : Nat) (s done : SimulatedCamera),
      streamer_resume clock s = some done →
      s.software_trigger.triggered = true ∧ done.software_trigger.triggered = false ∧
      done.im.frame_id = wrap_i64 (s.im.frame_id + 1) ∧
      (-9223372036854775808 ≤ s.im.frame_id + 1 → s.im.frame_id + 1 < 9223372036854775808 →
        done.im.frame_id = s.im.frame_id + 1)) ∧
    (∀ (env : streamer_env) (s done : SimulatedCamera),
      s.properties.input_triggers.frame_start.enable ≠ 0 →
      streamer_iteration env s = streamer_outcome.completed done →
      s.software_trigger.triggered = true ∧ done.software_trigger.triggered = false ∧
      done.im.frame_id = wrap_i64 (s.im.frame_id + 1) ∧
      (-9223372036854775808 ≤ s.im.frame_id + 1 → s.im.frame_id + 1 < 9223372036854775808 →
        done.im.frame_id = s.im.frame_id + 1)) ∧
    (sim_run (sim_started self) (triggered_steps envs capacity)).delivered =
      first_ids envs.length ∧
    (sim_run (sim_started self) (triggered_steps envs capacity)).completed = envs.length ∧
    (sim_run (sim_started self) (triggered_steps envs capacity)).delivered.length =
      envs.length ∧
    (sim_run (sim_started self)
      (triggered_steps envs capacity)).cam.properties.input_triggers.frame_start.enable ≠ 0 := by
  have h := triggered_rounds self capacity hcap envs 0 (sim_started self)
    (sim_started_round_start self) (by omega)
  rw [Nat.zero_add] at h
  refine ⟨?_, ?_, h.2.2.1, h.2.1, ?_, by rw [h.2.2.2.2.2.2.1]; exact hen⟩
  · intro clock s done hres
    obtain ⟨_, _, _, _, e5, _, _, e8, e9⟩ := streamer_resume_some clock s done hres
    refine ⟨e8, e9, e5, ?_⟩
    intro h0 h1
    rw [e5, wrap_i64_id _ h0 h1]
  · intro env s done hs hit
    have hemit : streamer_emit env.clock (streamer_fill env s) = some done := by
      simp only [streamer_iteration] at hit
      cases hc : streamer_emit env.clock (streamer_fill env s) with
      | none => simp [hc] at hit
      | some d =>
        simp only [hc, streamer_outcome.completed.injEq] at hit
        rw [hit]
    obtain ⟨_, _, _, _, e5, _, _, e8, _⟩ := streamer_emit_some _ _ done hemit
    obtain ⟨f1, _, f3, _, f5, _⟩ := streamer_fill_frame env s
    have ht := e8 (by rw [f1]; exact hs)
    rw [f3] at ht
    rw [f5] at e5
    refine ⟨ht.1, ht.2, e5, ?_⟩
    intro h0 h1
    rw [e5, wrap_i64_id _ h0 h1]
  · rw [h.2.2.1]
    simp [first_ids]

/-- C20, witness: three triggered rounds on a camera configured with the
trigger enabled deliver the ids 0, 1, 2. -/
theorem one_trigger_one_frame_witness :
    (sim_run
      (sim_started (simcam_set (simcam_make_camera BasicDeviceKind.BasicDevice_Camera_Empty)
        (request_triggered 1 64 64) true).2.1)
      (triggered_steps [quiet_env 10, quiet_env 20, quiet_env 30] 4096)).delivered =
      first_ids 3 :=
  (one_trigger_one_frame
    (simcam_set (simcam_make_camera BasicDeviceKind.BasicDevice_Camera_Empty)
      (request_triggered 1 64 64) true).2.1
    [quiet_env 10, quiet_env 20, quiet_env 30] 4096
    (by rw [(configured_64_facts BasicDeviceKind.BasicDevice_Camera_Empty
          (request_triggered 1 64 64) rfl rfl rfl).2.1]; decide)
    (le_of_eq (configured_64_facts BasicDeviceKind.BasicDevice_Camera_Empty
      (request_triggered 1 64 64) rfl rfl rfl).1)
    (by decide)).2.2.1

/-! ## Lemmas: trigger settings, metadata and start -/

/-- What an accepted `simcam_set` stores for the triggers and leaves in the
trigger flag: the settings are normalised, and the flag is set exactly when
the stored settings had the trigger enabled and the request disables it. -/
theorem simcam_set_accept_trigger (self : SimulatedCamera) (settings : CameraProperties)
    (heap_ok : Bool) (hb0 : settings.binning ≠ 0) (hpop : popcount_u8 settings.binning = 1) :
    (simcam_set self settings heap_ok).2.1.properties.input_triggers =
      { frame_start := { enable := settings.input_triggers.frame_start.enable,
                         line := 0,
                         kind := SignalIOKind.Signal_Input,
                         edge := TriggerEdge.TriggerEdge_Rising } } ∧
    (simcam_set self settings heap_ok).2.1.software_trigger =
      (if self.properties.input_triggers.frame_start.enable ≠ 0 ∧
          settings.input_triggers.frame_start.enable = 0 then
        { triggered := true } else self.software_trigger) ∧
    (simcam_set self settings heap_ok).2.1.streamer = self.streamer := by
  simp only [simcam_set, hb0, hpop, if_true, if_false]
  cases heap_ok <;> split_ifs <;> simp [malloc, simcam_execute_trigger] at *

/-- A request that `simcam_set` answers with `Device_Ok` passed the binning
test, after the replacement of a binning of 0 by 1. -/
theorem simcam_set_ok_passed (self : SimulatedCamera) (settings : CameraProperties)
    (heap_ok : Bool)
    (hok : (simcam_set self settings heap_ok).1 = DeviceStatusCode.Device_Ok) :
    popcount_u8 (if settings.binning = 0 then 1 else settings.binning) = 1 := by
  by_contra hne
  by_cases hb : settings.binning = 0
  · simp only [hb, if_true] at hne
    exact hne (by decide)
  · simp only [hb, if_false] at hne
    rw [simcam_set_reject self settings heap_ok hb hne] at hok
    exact DeviceStatusCode.noConfusion hok

/-- A request with binning 0 is handled as the same request with binning 1;
only the caller's copy of the request differs. -/
theorem simcam_set_binning_zero (self : SimulatedCamera) (settings : CameraProperties)
    (heap_ok : Bool) (hb : settings.binning = 0) :
    (simcam_set self settings heap_ok).1 =
      (simcam_set self { settings with binning := 1 } heap_ok).1 ∧
    (simcam_set self settings heap_ok).2.1 =
      (simcam_set self { settings with binning := 1 } heap_ok).2.1 := by
  simp [simcam_set, hb]

/-- C21: trigger settings are normalised on configure. For every camera state
and every request that `simcam_set` accepts (it returns `Device_Ok`),
whatever digital line, kind and edge the request names, the configuration
returned by `simcam_get` has `frame_start.line = 0` (the index of the
"software" line), `kind = Signal_Input`, `edge = TriggerEdge_Rising` and
`frame_start.enable` equal to the requested enable; so enabling, disabling
and re-enabling are each read back exactly. -/
theorem simcam_set_normalises_trigger (self : SimulatedCamera) (settings : CameraProperties)
    (heap_ok : Bool)
    (hok : (simcam_set self settings heap_ok).1 = DeviceStatusCode.Device_Ok) :
    (simcam_get (simcam_set self settings heap_ok).2.1).1 = DeviceStatusCode.Device_Ok ∧
    (simcam_get (simcam_set self settings heap_ok).2.1).2.input_triggers.frame_start =
      { enable := settings.input_triggers.frame_start.enable,
        line := 0,
        kind := SignalIOKind.Signal_Input,
        edge := TriggerEdge.TriggerEdge_Rising } := by
  refine ⟨rfl, ?_⟩
  have hpass := simcam_set_ok_passed self settings heap_ok hok
  show (simcam_set self settings heap_ok).2.1.properties.input_triggers.frame_start = _
  by_cases hb : settings.binning = 0
  · rw [(simcam_set_binning_zero self settings heap_ok hb).2]
    rw [(simcam_set_accept_trigger self { settings with binning := 1 } heap_ok
      (by show (1 : Nat) ≠ 0; decide) (by show popcount_u8 1 = 1; decide)).1]
  · simp only [hb, if_false] at hpass
    rw [(simcam_set_accept_trigger self settings heap_ok hb hpass).1]

/-- C21, witness: after enabling on line 1 and disabling on line 7, a request
that enables the trigger on line 3 is read back as enabled on line 0. -/
theorem simcam_set_normalises_trigger_witness :
    (simcam_get (simcam_set
      (simcam_set (simcam_set (simcam_make_camera BasicDeviceKind.BasicDevice_Camera_Empty)
        (request_line 1 1) true).2.1 (request_line 0 7) true).2.1
      (request_line 1 3) true).2.1).2.input_triggers.frame_start =
      { enable := (request_line 1 3).input_triggers.frame_start.enable,
        line := 0,
        kind := SignalIOKind.Signal_Input,
        edge := TriggerEdge.TriggerEdge_Rising } :=
  (simcam_set_normalises_trigger
    (simcam_set (simcam_set (simcam_make_camera BasicDeviceKind.BasicDevice_Camera_Empty)
      (request_line 1 1) true).2.1 (request_line 0 7) true).2.1
    (request_line 1 3) true
    ((simcam_set_accept_rest _ (request_line 1 3) true (by decide) (by decide)).1)).2

/-- C22: a freshly made camera has its trigger disabled and default settings.
For every device kind the camera of `simcam_make_camera` is in state
AwaitingConfiguration and `simcam_get` returns `frame_start.enable = 0` (line
0, `Signal_Input`, rising edge), binning 1, pixel type u8, shape 1920 by 1080
and exposure 10000 us, the same for every kind. The function reads nothing
but the kind, so the result does not depend on any camera made or configured
before. -/
theorem simcam_make_camera_defaults (kind : BasicDeviceKind) :
    (simcam_make_camera kind).state = DeviceState.AwaitingConfiguration ∧
    (simcam_get (simcam_make_camera kind)).1 = DeviceStatusCode.Device_Ok ∧
    (simcam_get (simcam_make_camera kind)).2.input_triggers.frame_start =
      { enable := 0, line := 0, kind := SignalIOKind.Signal_Input,
        edge := TriggerEdge.TriggerEdge_Rising } ∧
    (simcam_get (simcam_make_camera kind)).2.binning = 1 ∧
    (simcam_get (simcam_make_camera kind)).2.pixel_type = SampleType_u8 ∧
    (simcam_get (simcam_make_camera kind)).2.shape = { x := 1920, y := 1080 } ∧
    (simcam_get (simcam_make_camera kind)).2.exposure_time_us = 10000 ∧
    (simcam_make_camera kind).kind = kind ∧
    (simcam_make_camera kind).software_trigger.triggered = false ∧
    (simcam_make_camera kind).streamer.is_running = false ∧
    (∀ other : BasicDeviceKind,
      simcam_get (simcam_make_camera kind) = simcam_get (simcam_make_camera other)) :=
  ⟨rfl, rfl, rfl, rfl, rfl, rfl, rfl, rfl, rfl, rfl, fun _ => rfl⟩

/-- C23: metadata always advertises the software trigger line. For every
camera state `simcam_get_meta` returns `Device_Ok` with
`digital_lines.line_count = 1` and `names[0] = "software"`, and with the
frame-start trigger capability `input = 1`, `output = 0`; so the search of
the reported lines for "software" finds index 0. -/
theorem simcam_get_meta_software_line (self : SimulatedCamera) :
    (simcam_get_meta self).1 = DeviceStatusCode.Device_Ok ∧
    (simcam_get_meta self).2.digital_lines.line_count = 1 ∧
    (simcam_get_meta self).2.digital_lines.names.getD 0 "" = "software" ∧
    (simcam_get_meta self).2.triggers.frame_start.input = 1 ∧
    (simcam_get_meta self).2.triggers.frame_start.output = 0 ∧
    select_software_trigger_line (simcam_get_meta self).2 = 0 := by
  refine ⟨rfl, rfl, rfl, rfl, rfl, ?_⟩
  simp [select_software_trigger_line, simcam_get_meta, List.range_succ]

/-- C25: start resets the frame counters. For every camera state, whatever
`frame_id` and `last_emitted_frame_id` an earlier run left, `simcam_start`
sets `frame_id = -1` and `last_emitted_frame_id = -1` and sets the running
flag, leaving the stored properties, the shape, the buffer and the trigger
flag unchanged; it returns `Device_Ok` when the thread is created. -/
theorem simcam_start_resets_counters (self : SimulatedCamera) (thread_ok : Bool) :
    (simcam_start self thread_ok).2.im.frame_id = -1 ∧
    (simcam_start self thread_ok).2.im.last_emitted_frame_id = -1 ∧
    (simcam_start self thread_ok).2.streamer.is_running = true ∧
    (simcam_start self thread_ok).2.properties = self.properties ∧
    (simcam_start self thread_ok).2.im.shape = self.im.shape ∧
    (simcam_start self thread_ok).2.im.data = self.im.data ∧
    (simcam_start self thread_ok).2.software_trigger = self.software_trigger ∧
    (simcam_start self true).1 = DeviceStatusCode.Device_Ok := by
  cases thread_ok <;> exact ⟨rfl, rfl, rfl, rfl, rfl, rfl, rfl, rfl⟩

/-- C28: unsupported pixel types degrade silently. For every shape whose
sample type is not one of u8, i8, u16, i16, f32 (u10, u12, u14 or a tag out
of range), every buffer and every pattern, `im_fill_pattern` returns the
buffer with every byte as it was; it has no status to return. -/
theorem im_fill_pattern_unsupported (shape : ImageShape) (px : Nat → Nat → Nat)
    (buf : List Nat)
    (h8 : shape.type ≠ SampleType_u8) (hi8 : shape.type ≠ SampleType_i8)
    (h16 : shape.type ≠ SampleType_u16) (hi16 : shape.type ≠ SampleType_i16)
    (hf : shape.type ≠ SampleType_f32) :
    im_fill_pattern shape px buf = buf := by
  simp [im_fill_pattern, h8, hi8, h16, hi16, hf]

/-- C28, witness: a u12 shape and a buffer of sixteen bytes. -/
theorem im_fill_pattern_unsupported_witness :
    im_fill_pattern shape_u12 (fun x y => x + y) (List.replicate 16 9) = List.replicate 16 9 :=
  im_fill_pattern_unsupported shape_u12 (fun x y => x + y) (List.replicate 16 9)
    (by decide) (by decide) (by decide) (by decide) (by decide)

theorem max_macro_eq_max (a b : ℚ) : max_macro a b = max a b := by
  unfold max_macro
  split_ifs with h
  · exact (max_eq_left (le_of_lt h)).symm
  · exact (max_eq_right (not_lt.mp h)).symm

theorem pixel_mask_bits (t : Nat) :
    (2 ^ SampleType_u8 + 2 ^ SampleType_u16 + 2 ^ SampleType_i8 + 2 ^ SampleType_i16 +
      2 ^ SampleType_f32).testBit t = decide (t < 5) := by
  have h : 2 ^ SampleType_u8 + 2 ^ SampleType_u16 + 2 ^ SampleType_i8 + 2 ^ SampleType_i16 +
      2 ^ SampleType_f32 = 2 ^ 5 - 1 := by decide
  rw [h, Nat.testBit_two_pow_sub_one]

/-- C24: metadata bounds are a function of current binning and shape. For
every camera state whose binning `b` is one that `simcam_set` stores (a power
of two of 8 bits, where the `float` values are exact) and whose shape is
`(cw, ch)`, `simcam_get_meta` returns `Device_Ok` (it takes the camera
read-only) and reports `shape.x/y = {low 1, high 8192/b}`, an integer,
`offset.x = {low 0, high max(0, 8192/b - cw - 1)}`,
`offset.y = {low 0, high max(0, 8192/b - ch - 1)}`, `binning = {low 1, high
8}`, `exposure_time_us` high `1e6`, all of these writable, and a mask of
supported pixel types whose set bits are exactly u8, u16, i8, i16, f32. -/
theorem simcam_get_meta_bounds (self : SimulatedCamera)
    (hb : self.properties.binning = 1 ∨ self.properties.binning = 2 ∨
      self.properties.binning = 4 ∨ self.properties.binning = 8 ∨
      self.properties.binning = 16 ∨ self.properties.binning = 32 ∨
      self.properties.binning = 64 ∨ self.properties.binning = 128) :
    (simcam_get_meta self).1 = DeviceStatusCode.Device_Ok ∧
    (simcam_get_meta self).2.shape.x =
      { writable := 1, low := 1, high := (8192 : ℚ) / (self.properties.binning : ℚ) } ∧
    (simcam_get_meta self).2.shape.y =
      { writable := 1, low := 1, high := (8192 : ℚ) / (self.properties.binning : ℚ) } ∧
    (8192 : ℚ) / (self.properties.binning : ℚ) = ((8192 / self.properties.binning : Nat) : ℚ) ∧
    (simcam_get_meta self).2.offset.x =
      { writable := 1, low := 0,
        high := max 0 ((8192 : ℚ) / (self.properties.binning : ℚ) -
          (self.properties.shape.x : ℚ) - 1) } ∧
    (simcam_get_meta self).2.offset.y =
      { writable := 1, low := 0,
        high := max 0 ((8192 : ℚ) / (self.properties.binning : ℚ) -
          (self.properties.shape.y : ℚ) - 1) } ∧
    (simcam_get_meta self).2.binning = { writable := 1, low := 1, high := 8 } ∧
    (simcam_get_meta self).2.exposure_time_us = { writable := 1, low := 0, high := 1000000 } ∧
    (∀ t : Nat, (simcam_get_meta self).2.supported_pixel_types.testBit t = true ↔
      (t = SampleType_u8 ∨ t = SampleType_u16 ∨ t = SampleType_i8 ∨ t = SampleType_i16 ∨
        t = SampleType_f32)) := by
  refine ⟨rfl, ?_, ?_, ?_, ?_, ?_, rfl, rfl, ?_⟩
  · simp [simcam_get_meta, MAX_IMAGE_WIDTH]
  · simp [simcam_get_meta, MAX_IMAGE_HEIGHT]
  · rcases hb with h | h | h | h | h | h | h | h <;> rw [h] <;> norm_num
  · simp [simcam_get_meta, MAX_IMAGE_WIDTH, max_macro_eq_max]
  · simp [simcam_get_meta, MAX_IMAGE_HEIGHT, max_macro_eq_max]
  · intro t
    show (2 ^ SampleType_u8 + 2 ^ SampleType_u16 + 2 ^ SampleType_i8 + 2 ^ SampleType_i16 +
      2 ^ SampleType_f32).testBit t = true ↔ _
    rw [pixel_mask_bits]
    simp only [decide_eq_true_eq, SampleType_u8, SampleType_u16, SampleType_i8,
      SampleType_i16, SampleType_f32]
    omega

/-- C24, witness: the camera `binned_camera`, with binning 4 and shape 16 by
8: the shape bound is 2048 and the offset bounds are 2031 and 2039. -/
theorem simcam_get_meta_bounds_witness :
    (simcam_get_meta binned_camera).2.shape.x =
      { writable := 1, low := 1, high := (8192 : ℚ) / (binned_camera.properties.binning : ℚ) } ∧
    (8192 : ℚ) / (binned_camera.properties.binning : ℚ) =
      ((8192 / binned_camera.properties.binning : Nat) : ℚ) :=
  ⟨(simcam_get_meta_bounds binned_camera (Or.inr (Or.inr (Or.inl rfl)))).2.1,
   (simcam_get_meta_bounds binned_camera (Or.inr (Or.inr (Or.inl rfl)))).2.2.2.1⟩

/-- C26, the code at the failing input: a camera that is not running and
whose stored settings have the trigger enabled has its trigger flag clear;
a request that disables the trigger is accepted and sets the flag, although
the camera is not running. -/
theorem simcam_set_fires_trigger_when_idle :
    (simcam_set (simcam_make_camera BasicDeviceKind.BasicDevice_Camera_Empty)
      (request_triggered 1 64 64) true).2.1.streamer.is_running = false ∧
    (simcam_set (simcam_make_camera BasicDeviceKind.BasicDevice_Camera_Empty)
      (request_triggered 1 64 64) true).2.1.software_trigger.triggered = false ∧
    (simcam_set (simcam_make_camera BasicDeviceKind.BasicDevice_Camera_Empty)
      (request_triggered 1 64 64) true).2.1.properties.input_triggers.frame_start.enable = 1 ∧
    (simcam_set
      (simcam_set (simcam_make_camera BasicDeviceKind.BasicDevice_Camera_Empty)
        (request_triggered 1 64 64) true).2.1
      (request 1 64 64) true).1 = DeviceStatusCode.Device_Ok ∧
    (simcam_set
      (simcam_set (simcam_make_camera BasicDeviceKind.BasicDevice_Camera_Empty)
        (request_triggered 1 64 64) true).2.1
      (request 1 64 64) true).2.1.software_trigger.triggered = true ∧
    (simcam_set
      (simcam_set (simcam_make_camera BasicDeviceKind.BasicDevice_Camera_Empty)
        (request_triggered 1 64 64) true).2.1
      (request 1 64 64) true).2.1.streamer.is_running = false := by
  obtain ⟨t1, t2, t3⟩ := simcam_set_accept_trigger
    (simcam_make_camera BasicDeviceKind.BasicDevice_Camera_Empty) (request_triggered 1 64 64)
    true (by decide) (by decide)
  have hen : (simcam_set (simcam_make_camera BasicDeviceKind.BasicDevice_Camera_Empty)
      (request_triggered 1 64 64) true).2.1.properties.input_triggers.frame_start.enable = 1 := by
    rw [t1]; rfl
  have hrun : (simcam_set (simcam_make_camera BasicDeviceKind.BasicDevice_Camera_Empty)
      (request_triggered 1 64 64) true).2.1.streamer.is_running = false := by
    rw [t3]; rfl
  have htrig : (simcam_set (simcam_make_camera BasicDeviceKind.BasicDevice_Camera_Empty)
      (request_triggered 1 64 64) true).2.1.software_trigger.triggered = false := by
    rw [t2]; rfl
  obtain ⟨u1, u2, u3⟩ := simcam_set_accept_trigger
    (simcam_set (simcam_make_camera BasicDeviceKind.BasicDevice_Camera_Empty)
      (request_triggered 1 64 64) true).2.1 (request 1 64 64) true (by decide) (by decide)
  obtain ⟨hst, _⟩ := simcam_set_accept_rest
    (simcam_set (simcam_make_camera BasicDeviceKind.BasicDevice_Camera_Empty)
      (request_triggered 1 64 64) true).2.1 (request 1 64 64) true (by decide) (by decide)
  refine ⟨hrun, htrig, hen, hst, ?_, ?_⟩
  · rw [u2, hen]
    rfl
  · rw [u3]; exact hrun

/-- C27: stop never hangs. When `simcam_stop` is called while the streamer
thread is parked waiting for a software trigger that was never fired (the
trigger is enabled and the flag clear) and a caller is blocked in
`simcam_get_frame`: before the call the wait of the thread does not end and a
join would not return, with the thread parked or not, and clearing the
running flag alone would not release the thread either. `simcam_stop`
returns `Device_Ok`: the trigger it fires ends the wait of the thread, which
consumes the flag, stamps the time, increments `frame_id`, finds the running
flag clear at the test of its loop and returns, so the join returns; the
buffer, the shape, the properties and `last_emitted_frame_id` are as they
were. The blocked call, woken in that state (or in any state with the
running flag clear), returns `Device_Ok` with the caller's buffer and
`ImageInfo` as they were, having marked the current frame emitted. -/
theorem simcam_stop_never_hangs (self : SimulatedCamera) (im : List Nat) (nbytes : Nat)
    (info : ImageInfo) (clock : Nat)
    (hen : self.properties.input_triggers.frame_start.enable ≠ 0)
    (hclear : self.software_trigger.triggered = false)
    (hwait : simcam_get_frame self im nbytes info = none) :
    streamer_emit clock self = none ∧
    streamer_resume clock self = none ∧
    self.streamer.is_running = true ∧
    streamer_join self true clock = none ∧
    streamer_join self false clock = none ∧
    streamer_join { self with streamer := { is_running := false } } true clock = none ∧
    (∃ stopped,
      simcam_stop self true clock = some (DeviceStatusCode.Device_Ok, stopped) ∧
      streamer_resume clock
        (simcam_execute_trigger { self with streamer := { is_running := false } }).2 =
        some stopped ∧
      stopped.streamer.is_running = false ∧
      stopped.software_trigger.triggered = false ∧
      stopped.im.frame_id = wrap_i64 (self.im.frame_id + 1) ∧
      stopped.hardware_timestamp = clock ∧
      stopped.im.data = self.im.data ∧
      stopped.im.shape = self.im.shape ∧
      stopped.im.last_emitted_frame_id = self.im.last_emitted_frame_id ∧
      stopped.properties = self.properties ∧
      (∃ cam, simcam_get_frame_locked stopped im info =
          some (DeviceStatusCode.Device_Ok, cam, im, info) ∧
        cam.im.last_emitted_frame_id = stopped.im.frame_id ∧
        cam.im.data = self.im.data)) ∧
    (∀ woken : SimulatedCamera, woken.streamer.is_running = false →
      ∃ cam, simcam_get_frame_locked woken im info =
        some (DeviceStatusCode.Device_Ok, cam, im, info)) := by
  have hpark : streamer_emit clock self = none :=
    (streamer_emit_eq_none clock self).mpr ⟨hen, hclear⟩
  have hres0 : streamer_resume clock self = none := by
    simp [streamer_resume, hclear]
  have hrun : self.streamer.is_running = true := by
    by_cases hcap : nbytes ≥ bytes_of_image self.im.shape
    · cases hr : self.streamer.is_running
      · simp [simcam_get_frame, hcap, hr] at hwait
      · rfl
    · simp [simcam_get_frame, hcap] at hwait
  have hall : ∀ woken : SimulatedCamera, woken.streamer.is_running = false →
      ∃ cam, simcam_get_frame_locked woken im info =
        some (DeviceStatusCode.Device_Ok, cam, im, info) :=
    fun woken hw => ⟨_, simcam_get_frame_locked_stopped woken im info hw⟩
  have hj1 : streamer_join self true clock = none := by
    simp [streamer_join, hres0]
  have hj2 : streamer_join self false clock = none := by
    simp [streamer_join, hrun]
  have hj3 : streamer_join { self with streamer := { is_running := false } } true clock =
      none := by
    simp [streamer_join, streamer_resume, hclear]
  refine ⟨hpark, hres0, hrun, hj1, hj2, hj3, ?_, hall⟩
  have hres : ∃ done, streamer_resume clock
      (simcam_execute_trigger { self with streamer := { is_running := false } }).2 = some done := by
    cases h : streamer_resume clock
        (simcam_execute_trigger { self with streamer := { is_running := false } }).2 with
    | none => simp [streamer_resume, simcam_execute_trigger] at h
    | some done => exact ⟨done, rfl⟩
  obtain ⟨done, hd⟩ := hres
  obtain ⟨r1, r2, r3, r4, r5, r6, r7, _, r9⟩ := streamer_resume_some _ _ done hd
  have hdr : done.streamer.is_running = false := by rw [r2]; rfl
  refine ⟨done, ?_, hd, hdr, r9, r5, r7, r4, r3, r6, r1, ?_⟩
  · simp only [simcam_stop, streamer_join, if_true, hd, hdr, Bool.false_eq_true, if_false]
  · refine ⟨_, simcam_get_frame_locked_stopped done im info hdr, rfl, ?_⟩
    exact r4

/-- C27, witness: the camera `parked_camera`, whose frame 3 was emitted, and
a buffer of 8 bytes: the stop returns after the thread produced frame 4 at
time 2000 and consumed the trigger, and the blocked call returns with the
buffer untouched. -/
theorem simcam_stop_never_hangs_witness :
    streamer_join parked_camera true 2000 = none ∧
    ∃ stopped,
      simcam_stop parked_camera true 2000 = some (DeviceStatusCode.Device_Ok, stopped) ∧
      stopped.streamer.is_running = false ∧
      stopped.software_trigger.triggered = false ∧
      stopped.im.frame_id = 4 ∧
      stopped.hardware_timestamp = 2000 ∧
      (∃ cam, simcam_get_frame_locked stopped (List.replicate 8 0) ImageInfo_zero =
        some (DeviceStatusCode.Device_Ok, cam, List.replicate 8 0, ImageInfo_zero)) := by
  obtain ⟨_, _, _, hj, _, _, ⟨stopped, h1, _, h3, h4, h5, h6, _, _, _, _, cam, h11, _⟩, _⟩ :=
    simcam_stop_never_hangs parked_camera (List.replicate 8 0) 8 ImageInfo_zero 2000
      (by decide) (by decide) (by decide)
  exact ⟨hj, stopped, h1, h3, h4, by rw [h5]; decide, h6, cam, h11⟩

/-! ## Lemmas: stores into a buffer and the pattern fill -/

/-- Inside the written range a store leaves its own bytes. -/
theorem write_at_get_inside (b : List Nat) (off : Nat) (d : List Nat) (i : Nat)
    (h1 : off ≤ i) (h2 : i < off + d.length) :
    (write_at b off d)[i]? = d[i - off]? := by
  have hpre : (List.take off b ++ List.replicate (off - b.length) 0).length = off := by
    simp only [List.length_append, List.length_take, List.length_replicate]
    omega
  unfold write_at
  rw [List.append_assoc, List.getElem?_append_right (by omega), hpre,
    List.getElem?_append_left (by omega)]

/-- Outside the written range, below the length of the buffer, a store
leaves the byte that was there. -/
theorem write_at_get_outside (b : List Nat) (off : Nat) (d : List Nat) (i : Nat)
    (hi : i < b.length) (h : i < off ∨ off + d.length ≤ i) :
    (write_at b off d)[i]? = b[i]? := by
  have hpre : (List.take off b ++ List.replicate (off - b.length) 0).length = off := by
    simp only [List.length_append, List.length_take, List.length_replicate]
    omega
  unfold write_at
  rcases h with h | h
  · rw [List.append_assoc, List.getElem?_append_left (by omega),
      List.getElem?_append_left (by simp only [List.length_take]; omega),
      List.getElem?_take_of_lt h]
  · rw [List.getElem?_append_right (by
        simp only [List.length_append, hpre]; omega)]
    simp only [List.length_append, hpre, List.getElem?_drop]
    congr 1
    omega

/-- Two buffers agree on a set of positions: the positions lie in both and
hold the same bytes. -/
theorem agree_write_at (S : Nat → Prop) (b1 b2 : List Nat) (off : Nat) (d : List Nat)
    (h : ∀ i, S i → i < b1.length ∧ i < b2.length ∧ b1[i]? = b2[i]?) :
    ∀ i, (S i ∨ (off ≤ i ∧ i < off + d.length)) →
      i < (write_at b1 off d).length ∧ i < (write_at b2 off d).length ∧
      (write_at b1 off d)[i]? = (write_at b2 off d)[i]? := by
  intro i hi
  by_cases hin : off ≤ i ∧ i < off + d.length
  · refine ⟨?_, ?_, ?_⟩
    · rw [write_at_length]; omega
    · rw [write_at_length]; omega
    · rw [write_at_get_inside b1 off d i hin.1 hin.2, write_at_get_inside b2 off d i hin.1 hin.2]
  · have hS : S i := by
      rcases hi with hi | hi
      · exact hi
      · exact absurd hi hin
    obtain ⟨l1, l2, e⟩ := h i hS
    have hout : i < off ∨ off + d.length ≤ i := by omega
    refine ⟨?_, ?_, ?_⟩
    · rw [write_at_length]; omega
    · rw [write_at_length]; omega
    · rw [write_at_get_outside b1 off d i l1 hout, write_at_get_outside b2 off d i l2 hout, e]

/-- After the same stores two buffers agree on every position written,
whatever they held before. -/
theorem agree_apply_writes (ws : List (Nat × List Nat)) :
    ∀ (S : Nat → Prop) (b1 b2 : List Nat),
      (∀ i, S i → i < b1.length ∧ i < b2.length ∧ b1[i]? = b2[i]?) →
      ∀ i, (S i ∨ written ws i) →
        i < (apply_writes b1 ws).length ∧ i < (apply_writes b2 ws).length ∧
        (apply_writes b1 ws)[i]? = (apply_writes b2 ws)[i]? := by
  induction ws with
  | nil =>
    intro S b1 b2 h i hi
    rcases hi with hi | ⟨w, hw, _⟩
    · exact h i hi
    · simp at hw
  | cons w ws ih =>
    intro S b1 b2 h i hi
    have hstep := agree_write_at S b1 b2 w.1 w.2 h
    have := ih (fun i => S i ∨ (w.1 ≤ i ∧ i < w.1 + w.2.length))
      (write_at b1 w.1 w.2) (write_at b2 w.1 w.2) hstep i
    apply this
    rcases hi with hi | ⟨v, hv, hvi⟩
    · exact Or.inl (Or.inl hi)
    · rcases List.mem_cons.mp hv with hv | hv
      · subst hv
        exact Or.inl (Or.inr hvi)
      · exact Or.inr ⟨v, hv, hvi⟩

/-- The two loops of the pattern fill are the stores of `pattern_writes`
applied in order. -/
theorem im_fill_pattern_T_eq_writes (size : Nat) (px : Nat → Nat → Nat) (shape : ImageShape)
    (buf : List Nat) :
    im_fill_pattern_T size px shape buf = apply_writes buf (pattern_writes size px shape) := by
  unfold im_fill_pattern_T pattern_writes apply_writes
  generalize List.range shape.dims.height = ys
  induction ys generalizing buf with
  | nil => rfl
  | cons y ys ih =>
    simp only [List.foldl_cons, List.flatMap_cons, List.foldl_append, List.foldl_map]
    rw [ih]
    rfl

/-- Every byte of the element of a pixel inside the shape is written by the
pattern fill. -/
theorem pattern_writes_cover (size : Nat) (px : Nat → Nat → Nat) (shape : ImageShape)
    (x y k : Nat) (hx : x < shape.dims.width) (hy : y < shape.dims.height) (hk : k < size) :
    written (pattern_writes size px shape) (pixel_offset shape x y * size + k) := by
  refine ⟨(pixel_offset shape x y * size, le_bytes size (px x y)), ?_, ?_, ?_⟩
  · simp only [pattern_writes, List.mem_flatMap, List.mem_map, List.mem_range]
    exact ⟨y, hy, x, hx, rfl⟩
  · exact Nat.le_add_right _ _
  · simp only [le_bytes_length]
    omega

/-- For the five supported sample types the dispatcher runs the template
with the size of the type. -/
theorem im_fill_pattern_supported (shape : ImageShape) (px : Nat → Nat → Nat) (buf : List Nat)
    (h : shape.type = SampleType_u8 ∨ shape.type = SampleType_i8 ∨
      shape.type = SampleType_u16 ∨ shape.type = SampleType_i16 ∨
      shape.type = SampleType_f32) :
    im_fill_pattern shape px buf =
      im_fill_pattern_T (bytes_of_type shape.type) px shape buf := by
  rcases h with h | h | h | h | h <;> rw [im_fill_pattern, h] <;> rfl

/-- C29: pattern generation is deterministic. For every shape, offsets and
elapsed time `t` (the `float` expression being a function `sample` of what it
reads), every element size and every two buffers, two pattern fills with the
same `t`, shape and offsets leave identical bytes in the element of every one
of the `width * height` pixels, whatever the buffers held before; through
the dispatcher `im_fill_pattern` the same holds for each supported sample
type. -/
theorem pattern_fill_deterministic {F : Type}
    (sample : F → F → F → Nat → Nat → Nat → Nat → Nat) (t ox oy : F) (size : Nat)
    (shape : ImageShape) (buf1 buf2 : List Nat) (x y k : Nat)
    (hx : x < shape.dims.width) (hy : y < shape.dims.height) (hk : k < size) :
    (pixel_offset shape x y * size + k <
      (im_fill_pattern_T size (pattern_px sample t ox oy shape) shape buf1).length ∧
    pixel_offset shape x y * size + k <
      (im_fill_pattern_T size (pattern_px sample t ox oy shape) shape buf2).length ∧
    (im_fill_pattern_T size (pattern_px sample t ox oy shape) shape buf1)[
        pixel_offset shape x y * size + k]? =
      (im_fill_pattern_T size (pattern_px sample t ox oy shape) shape buf2)[
        pixel_offset shape x y * size + k]?) ∧
    ((shape.type = SampleType_u8 ∨ shape.type = SampleType_i8 ∨
        shape.type = SampleType_u16 ∨ shape.type = SampleType_i16 ∨
        shape.type = SampleType_f32) → size = bytes_of_type shape.type →
      (im_fill_pattern shape (pattern_px sample t ox oy shape) buf1)[
          pixel_offset shape x y * size + k]? =
        (im_fill_pattern shape (pattern_px sample t ox oy shape) buf2)[
          pixel_offset shape x y * size + k]?) := by
  have hcov := pattern_writes_cover size (pattern_px sample t ox oy shape) shape x y k hx hy hk
  have hag := agree_apply_writes (pattern_writes size (pattern_px sample t ox oy shape) shape)
    (fun _ => False) buf1 buf2 (fun i hi => False.elim hi)
    (pixel_offset shape x y * size + k) (Or.inr hcov)
  rw [← im_fill_pattern_T_eq_writes, ← im_fill_pattern_T_eq_writes] at hag
  refine ⟨hag, ?_⟩
  intro hty hsz
  rw [im_fill_pattern_supported shape _ buf1 hty, im_fill_pattern_supported shape _ buf2 hty,
    ← hsz]
  exact hag.2.2

/-- C29, witness: a u16 shape of 4 by 2, pixel (3, 1), second byte, and two
different buffers. -/
theorem pattern_fill_deterministic_witness :
    (im_fill_pattern shape_u16 (pattern_px (fun t _ _ _ _ x y => t + x + 256 * y) 5 0 0 shape_u16)
        (List.replicate 16 9))[pixel_offset shape_u16 3 1 * 2 + 1]? =
      (im_fill_pattern shape_u16 (pattern_px (fun t _ _ _ _ x y => t + x + 256 * y) 5 0 0 shape_u16)
        (List.replicate 4 1))[pixel_offset shape_u16 3 1 * 2 + 1]? :=
  (pattern_fill_deterministic (fun t _ _ _ _ x y => t + x + 256 * y) 5 0 0 2 shape_u16
    (List.replicate 16 9) (List.replicate 4 1) 3 1 1 (by decide) (by decide) (by decide)).2
    (by decide) (by decide)

/-! ## Lemmas: the binning loop -/

/-- The binning loop applies `bin2` once per recorded call, in order. -/
theorem bin_loop_eq_fold (bin2 : List Nat → Nat → Nat → List Nat) :
    ∀ (fuel b w h : Nat) (data : List Nat),
      bin_loop bin2 fuel b w h data =
        (bin_loop_calls fuel b w h).foldl (fun d c => bin2 d c.1 c.2) data := by
  intro fuel
  induction fuel with
  | zero => intro b w h data; rfl
  | succ fuel ih =>
    intro b w h data
    by_cases hb : b = 0
    · simp [bin_loop, bin_loop_calls, hb]
    · simp only [bin_loop, bin_loop_calls, hb, ne_eq, not_false_eq_true, if_true,
        List.foldl_cons]
      exact ih _ _ _ _

/-- One iteration of the streamer thread bins the synthesized buffer by the
calls of `streamer_bin_calls`. -/
theorem streamer_fill_data (env : streamer_env) (self : SimulatedCamera) :
    (streamer_fill env self).im.data =
      (streamer_synthesize env self).map (fun buf =>
        (streamer_bin_calls self).foldl (fun d c => env.bin2 d c.1 c.2) buf) := by
  simp only [streamer_fill, streamer_synthesize, streamer_bin_calls, Option.map_map]
  congr 1
  funext buf
  simp only [Function.comp]
  exact bin_loop_eq_fold env.bin2 _ _ _ _ _

/-- C30: number of binning passes. For every camera state whose binning `b`
is 1, 2, 4 or 8 and whose binned shape is `(w, h)` (with `b*w` and `b*h`
`uint32_t` values, as for every configured shape), one iteration of the
streamer thread applies `bin2` to the synthesized buffer exactly `log2(b)`
times (`2 ^ passes = b`, none for `b = 1`), pass `k` being given the
dimensions `(b*w / 2^k, b*h / 2^k)`, and the dimensions after the last pass
are exactly `(w, h)`. -/
theorem streamer_bin_passes (env : streamer_env) (self : SimulatedCamera) (w h : Nat)
    (hb : self.properties.binning = 1 ∨ self.properties.binning = 2 ∨
      self.properties.binning = 4 ∨ self.properties.binning = 8)
    (hshape : self.properties.shape = { x := w, y := h })
    (hw : self.properties.binning * w < U32) (hh : self.properties.binning * h < U32) :
    (streamer_fill env self).im.data =
      (streamer_synthesize env self).map (fun buf =>
        (streamer_bin_calls self).foldl (fun d c => env.bin2 d c.1 c.2) buf) ∧
    2 ^ (streamer_bin_calls self).length = self.properties.binning ∧
    streamer_bin_calls self =
      (List.range (streamer_bin_calls self).length).map (fun k =>
        (self.properties.binning * w / 2 ^ k, self.properties.binning * h / 2 ^ k)) ∧
    bin_loop_dims (self.properties.binning / 2 + 1) (self.properties.binning / 2)
      (compute_full_resolution_shape_and_offset self).1.dims.width
      (compute_full_resolution_shape_and_offset self).1.dims.height = (w, h) := by
  refine ⟨streamer_fill_data env self, ?_⟩
  have hfw : (compute_full_resolution_shape_and_offset self).1.dims.width =
      self.properties.binning * w := by
    have h256 : self.properties.binning % 256 = self.properties.binning := by
      rcases hb with h | h | h | h <;> rw [h]
    simp only [compute_full_resolution_shape_and_offset, compute_strides, hshape, h256]
    exact Nat.mod_eq_of_lt hw
  have hfh : (compute_full_resolution_shape_and_offset self).1.dims.height =
      self.properties.binning * h := by
    have h256 : self.properties.binning % 256 = self.properties.binning := by
      rcases hb with h | h | h | h <;> rw [h]
    simp only [compute_full_resolution_shape_and_offset, compute_strides, hshape, h256]
    exact Nat.mod_eq_of_lt hh
  simp only [streamer_bin_calls, hfw, hfh]
  rcases hb with hb | hb | hb | hb <;> rw [hb] <;>
    simp [bin_loop_calls, bin_loop_dims, List.range_succ] <;> omega

/-- C30, witness: the camera `binned_camera`, binning 4 and binned shape 16 by
8: two passes, given 64 by 32 and 32 by 16. -/
theorem streamer_bin_passes_witness :
    2 ^ (streamer_bin_calls binned_camera).length = binned_camera.properties.binning ∧
    streamer_bin_calls binned_camera =
      (List.range (streamer_bin_calls binned_camera).length).map (fun k =>
        (binned_camera.properties.binning * 16 / 2 ^ k,
          binned_camera.properties.binning * 8 / 2 ^ k)) :=
  ⟨(streamer_bin_passes (quiet_env 0) binned_camera 16 8 (Or.inr (Or.inr (Or.inl rfl))) rfl
      (by decide) (by decide)).2.1,
   (streamer_bin_passes (quiet_env 0) binned_camera 16 8 (Or.inr (Or.inr (Or.inl rfl))) rfl
      (by decide) (by decide)).2.2.1⟩

/-! ## Theorems: the operation tables, sequences of configure calls, and more on FrameCheck -/

/-- C31, the code at the failing input: the table that `framecheck_init`
builds defines set, get, start, append, stop and destroy and leaves the
members `get_meta` and `reserve_image_shape` null, while the tables that
`raw_init` and `trash_init` build define all eight members. -/
theorem framecheck_init_leaves_members_null :
    FrameCheck.framecheck_init_writer.get_meta = none ∧
    FrameCheck.framecheck_init_writer.reserve_image_shape = none ∧
    FrameCheck.framecheck_init_writer.members.map Option.isSome =
      [true, true, false, true, true, true, true, false] ∧
    raw_init_writer.members.map Option.isSome =
      [true, true, true, true, true, true, true, true] ∧
    trash_init_writer.members.map Option.isSome =
      [true, true, true, true, true, true, true, true] := by
  decide

/-! ## Lemmas: one more walk through the loop of FrameCheck -/

/-- The length of two runs one after the other. -/
theorem run_length_append (B1 B2 : List VideoFrame) :
    run_length (B1 ++ B2) = run_length B1 + run_length B2 := by
  simp [run_length]

/-- A memory that holds a run followed by a second run holds the second one
at the address where the first ends. -/
theorem holds_run_append_right (frames : Nat → VideoFrame) (B2 : List VideoFrame) :
    ∀ (B1 : List VideoFrame) (base : Nat), holds_run frames base (B1 ++ B2) →
      holds_run frames (base + run_length B1) B2 := by
  intro B1
  induction B1 with
  | nil =>
    intro base h
    simpa [run_length] using h
  | cons r rs ih =>
    intro base h
    have ht := holds_run_tail frames base r (rs ++ B2) (by simpa using h)
    have := ih (base + r.bytes_of_frame) ht
    rw [run_length_cons, ← Nat.add_assoc]
    exact this

/-- The loop of `append` gives the same verdict on two memories that hold the
same run: the same state and counter, and byte counts that are the distance
walked plus the distance of the cursor from the start of each buffer. -/
theorem FrameCheck.append_loop_shift (framesA framesB : Nat → VideoFrame)
    (begA endA begB endB : Nat) (hendA : endA < U64) (hendB : endB < U64) :
    ∀ (recs : List VideoFrame) (curA curB i fuelA fuelB : Nat),
      holds_run framesA curA recs → holds_run framesB curB recs →
      (∀ r ∈ recs, 1 ≤ r.bytes_of_frame) →
      begA ≤ curA → begB ≤ curB →
      curA + run_length recs = endA → curB + run_length recs = endB →
      recs.length < fuelA → recs.length < fuelB →
      ∃ st i2 m, m ≤ run_length recs ∧
        FrameCheck.append_loop framesA begA endA fuelA i curA = some (st, i2, curA - begA + m) ∧
        FrameCheck.append_loop framesB begB endB fuelB i curB =
          some (st, i2, curB - begB + m) := by
  intro recs
  induction recs with
  | nil =>
    intro curA curB i fuelA fuelB _ _ _ hbA hbB hA hB hfA hfB
    obtain ⟨fuelA, rfl⟩ : ∃ k, fuelA = k + 1 := ⟨fuelA - 1, by simp at hfA; omega⟩
    obtain ⟨fuelB, rfl⟩ : ∃ k, fuelB = k + 1 := ⟨fuelB - 1, by simp at hfB; omega⟩
    simp only [run_length, List.map_nil, List.sum_nil, Nat.add_zero] at hA hB
    subst hA
    subst hB
    refine ⟨DeviceState.Running, i, 0, Nat.zero_le _, ?_, ?_⟩
    · simp only [FrameCheck.append_loop, Nat.lt_irrefl, if_false, Nat.add_zero,
        ptr_diff curA begA hbA hendA]
    · simp only [FrameCheck.append_loop, Nat.lt_irrefl, if_false, Nat.add_zero,
        ptr_diff curB begB hbB hendB]
  | cons r rs ih =>
    intro curA curB i fuelA fuelB hmA hmB hpos hbA hbB hA hB hfA hfB
    obtain ⟨fuelA, rfl⟩ : ∃ k, fuelA = k + 1 := ⟨fuelA - 1, by simp at hfA; omega⟩
    obtain ⟨fuelB, rfl⟩ : ∃ k, fuelB = k + 1 := ⟨fuelB - 1, by simp at hfB; omega⟩
    have hr1 : 1 ≤ r.bytes_of_frame := hpos r (by simp)
    rw [run_length_cons] at hA hB
    have hcA : curA < endA := by omega
    have hcB : curB < endB := by omega
    have hsA : (curA + r.bytes_of_frame) % U64 = curA + r.bytes_of_frame :=
      Nat.mod_eq_of_lt (by omega)
    have hsB : (curB + r.bytes_of_frame) % U64 = curB + r.bytes_of_frame :=
      Nat.mod_eq_of_lt (by omega)
    have hhA := holds_run_head framesA curA r rs hmA
    have hhB := holds_run_head framesB curB r rs hmB
    by_cases hid : i = r.frame_id
    · subst hid
      obtain ⟨st, i2, m, hm, h1, h2⟩ := ih (curA + r.bytes_of_frame) (curB + r.bytes_of_frame)
        ((r.frame_id + 1) % U64) fuelA fuelB (holds_run_tail framesA curA r rs hmA)
        (holds_run_tail framesB curB r rs hmB)
        (fun q hq => hpos q (by simp [hq])) (by omega) (by omega) (by omega) (by omega)
        (by simp at hfA; omega) (by simp at hfB; omega)
      refine ⟨st, i2, r.bytes_of_frame + m, by rw [run_length_cons]; omega, ?_, ?_⟩
      · simp only [FrameCheck.append_loop, hcA, if_true, hhA, hsA]
        rw [h1]
        congr 3
        omega
      · simp only [FrameCheck.append_loop, hcB, if_true, hhB, hsB]
        rw [h2]
        congr 3
        omega
    · refine ⟨DeviceState.Armed, i, 0, Nat.zero_le _, ?_, ?_⟩
      · simp only [FrameCheck.append_loop, hcA, if_true, hhA, hid, if_false, Nat.add_zero,
          ptr_diff curA begA hbA (by omega)]
      · simp only [FrameCheck.append_loop, hcB, if_true, hhB, hid, if_false, Nat.add_zero,
          ptr_diff curB begB hbB (by omega)]

/-- When the loop of `append` runs through a whole run `B1` and returns
Running, the loop on a memory that holds `B1` followed by more records
reaches the end of `B1` with the same counter, having used one unit of fuel
for each record of `B1`. -/
theorem FrameCheck.append_loop_prefix (frames1 frames12 : Nat → VideoFrame)
    (beg1 end1 beg12 end12 : Nat) (hend1 : end1 < U64) (hend12 : end12 < U64)
    (B2 : List VideoFrame) :
    ∀ (B1 : List VideoFrame) (cur1 cur12 i fuel1 fuel i1 m1 : Nat),
      holds_run frames1 cur1 B1 → holds_run frames12 cur12 (B1 ++ B2) →
      (∀ r ∈ B1, 1 ≤ r.bytes_of_frame) →
      beg1 ≤ cur1 →
      cur1 + run_length B1 = end1 → cur12 + run_length B1 ≤ end12 →
      FrameCheck.append_loop frames1 beg1 end1 fuel1 i cur1 =
        some (DeviceState.Running, i1, m1) →
      m1 = end1 - beg1 ∧
      FrameCheck.append_loop frames12 beg12 end12 (fuel + B1.length) i cur12 =
        FrameCheck.append_loop frames12 beg12 end12 fuel i1 (cur12 + run_length B1) := by
  intro B1
  induction B1 with
  | nil =>
    intro cur1 cur12 i fuel1 fuel i1 m1 _ _ _ hb1 h1 _ hrun
    simp only [run_length, List.map_nil, List.sum_nil, Nat.add_zero] at h1
    have hc : ¬ cur1 < end1 := by omega
    cases fuel1 with
    | zero => simp [FrameCheck.append_loop] at hrun
    | succ fuel1 =>
      simp only [FrameCheck.append_loop, hc, if_false, Option.some.injEq, Prod.mk.injEq,
        true_and, ptr_diff end1 beg1 (by omega) hend1] at hrun
      obtain ⟨hi, hm⟩ := hrun
      subst hi
      exact ⟨hm.symm, by simp [run_length]⟩
  | cons r rs ih =>
    intro cur1 cur12 i fuel1 fuel i1 m1 hm1 hm12 hpos hb1 h1 h12 hrun
    have hr1 : 1 ≤ r.bytes_of_frame := hpos r (by simp)
    rw [run_length_cons] at h1 h12
    have hc1 : cur1 < end1 := by omega
    have hc12 : cur12 < end12 := by omega
    have hs1 : (cur1 + r.bytes_of_frame) % U64 = cur1 + r.bytes_of_frame :=
      Nat.mod_eq_of_lt (by omega)
    have hs12 : (cur12 + r.bytes_of_frame) % U64 = cur12 + r.bytes_of_frame :=
      Nat.mod_eq_of_lt (by omega)
    have hh1 := holds_run_head frames1 cur1 r rs hm1
    have hm12c : holds_run frames12 cur12 (r :: (rs ++ B2)) := by simpa using hm12
    have hh12 := holds_run_head frames12 cur12 r (rs ++ B2) hm12c
    cases fuel1 with
    | zero => simp [FrameCheck.append_loop] at hrun
    | succ fuel1 =>
      by_cases hid : i = r.frame_id
      · subst hid
        simp only [FrameCheck.append_loop, hc1, if_true, hh1, hs1] at hrun
        obtain ⟨hm, hstep⟩ := ih (cur1 + r.bytes_of_frame) (cur12 + r.bytes_of_frame)
          ((r.frame_id + 1) % U64) fuel1 fuel i1 m1 (holds_run_tail frames1 cur1 r rs hm1)
          (holds_run_tail frames12 cur12 r (rs ++ B2) hm12c)
          (fun q hq => hpos q (by simp [hq])) (by omega) (by omega) (by omega) hrun
        refine ⟨hm, ?_⟩
        rw [List.length_cons, ← Nat.add_assoc]
        simp only [FrameCheck.append_loop, hc12, if_true, hh12, hs12]
        rw [hstep, run_length_cons, Nat.add_assoc]
      · simp only [FrameCheck.append_loop, hc1, if_true, hh1, hid, if_false, Option.some.injEq,
          Prod.mk.injEq] at hrun
        exact absurd hrun.1 (by decide)

/-- C36: FrameCheck append composes over concatenation. For every two runs
`B1` and `B2` of well-formed records (each `bytes_of_frame ≥ 1`), each laid
out at any address with its end inside the address space, and `B1` followed
by `B2` laid out likewise: if the append of `B1` after `start` fully
succeeds (it returns Running), then it reports `|B1|`, the append of `B2`
that follows returns, and one append of `B1` followed by `B2` after the same
`start` returns the same state and leaves the same backend (the same
counter) with a byte count equal to `|B1|` plus the count of the second
call. Any fuel above the number of records is enough for each call. -/
theorem framecheck_append_composes (self : FrameCheck) (B1 B2 : List VideoFrame)
    (frames1 frames2 frames12 : Nat → VideoFrame) (beg1 beg2 beg12 fuel : Nat)
    (s1 : FrameCheck) (n1 : Nat)
    (hpos1 : ∀ r ∈ B1, 1 ≤ r.bytes_of_frame) (hpos2 : ∀ r ∈ B2, 1 ≤ r.bytes_of_frame)
    (h1 : holds_run frames1 beg1 B1) (h2 : holds_run frames2 beg2 B2)
    (h12 : holds_run frames12 beg12 (B1 ++ B2))
    (hfit1 : beg1 + run_length B1 < U64) (hfit2 : beg2 + run_length B2 < U64)
    (hfit12 : beg12 + run_length (B1 ++ B2) < U64)
    (hfuel : B1.length + B2.length < fuel)
    (hfirst : FrameCheck.append fuel (FrameCheck.start self).2 frames1 beg1 (run_length B1) =
      some (DeviceState.Running, s1, n1)) :
    n1 = run_length B1 ∧
    ∃ st s2 n2,
      FrameCheck.append fuel s1 frames2 beg2 (run_length B2) = some (st, s2, n2) ∧
      FrameCheck.append fuel (FrameCheck.start self).2 frames12 beg12 (run_length (B1 ++ B2)) =
        some (st, s2, n1 + n2) := by
  have hm1 : (beg1 + run_length B1) % U64 = beg1 + run_length B1 := Nat.mod_eq_of_lt hfit1
  have hm2 : (beg2 + run_length B2) % U64 = beg2 + run_length B2 := Nat.mod_eq_of_lt hfit2
  have hm12 : (beg12 + run_length (B1 ++ B2)) % U64 = beg12 + run_length (B1 ++ B2) :=
    Nat.mod_eq_of_lt hfit12
  have hra := run_length_append B1 B2
  cases hloop : FrameCheck.append_loop frames1 beg1 (beg1 + run_length B1) fuel
      (FrameCheck.start self).2.iframe beg1 with
  | none => simp [FrameCheck.append, hm1, hloop] at hfirst
  | some res =>
    obtain ⟨st1, i1, m1⟩ := res
    simp only [FrameCheck.append, hm1, hloop, Option.some.injEq, Prod.mk.injEq] at hfirst
    obtain ⟨hst, hs1, hn1⟩ := hfirst
    subst hst
    subst hn1
    obtain ⟨hm, hstep⟩ := FrameCheck.append_loop_prefix frames1 frames12 beg1
      (beg1 + run_length B1) beg12 (beg12 + run_length (B1 ++ B2)) hfit1 hfit12 B2 B1 beg1 beg12
      (FrameCheck.start self).2.iframe fuel (fuel - B1.length) i1 m1 h1 h12 hpos1 (le_refl _)
      rfl (by omega) hloop
    have h2r := holds_run_append_right frames12 B2 B1 beg12 h12
    obtain ⟨st, i2, m, _, hA, hB⟩ := FrameCheck.append_loop_shift frames2 frames12
      beg2 (beg2 + run_length B2) beg12 (beg12 + run_length (B1 ++ B2)) hfit2 hfit12 B2 beg2
      (beg12 + run_length B1) i1 fuel (fuel - B1.length) h2 h2r hpos2 (le_refl _) (by omega)
      rfl (by omega) (by omega) (by omega)
    have hfl : fuel - B1.length + B1.length = fuel := by omega
    rw [hfl] at hstep
    have hm' : m1 = run_length B1 := by omega
    refine ⟨hm', st, { s1 with iframe := i2 }, beg2 - beg2 + m, ?_, ?_⟩
    · rw [← hs1]
      simp only [FrameCheck.append, hm2, hA]
    · simp only [FrameCheck.append, hm12, hstep, hB]
      rw [← hs1]
      have : beg12 + run_length B1 - beg12 + m = m1 + (beg2 - beg2 + m) := by omega
      rw [this]

/-- C36, witness: the run with ids 5, 6 (176 bytes) at address 4096 and then
the run with ids 7, 9 (the second record is refused) at address 8192, after
a start with first_frame_id 5: the two calls and the single call on the
concatenation, laid out at address 16384, agree. -/
theorem framecheck_append_composes_witness :
    176 = run_length run_five_six ∧
    ∃ st s2 n2,
      FrameCheck.append 5 { framecheck_five with iframe := 7 } (layout_at 8192 run_seven_nine)
        8192 (run_length run_seven_nine) = some (st, s2, n2) ∧
      FrameCheck.append 5 (FrameCheck.start framecheck_five).2
        (layout_at 16384 (run_five_six ++ run_seven_nine)) 16384
        (run_length (run_five_six ++ run_seven_nine)) = some (st, s2, 176 + n2) :=
  framecheck_append_composes framecheck_five run_five_six run_seven_nine
    (layout_at 4096 run_five_six) (layout_at 8192 run_seven_nine)
    (layout_at 16384 (run_five_six ++ run_seven_nine)) 4096 8192 16384 5
    { framecheck_five with iframe := 7 } 176 (by decide) (by decide)
    (by unfold holds_run; decide) (by unfold holds_run; decide) (by unfold holds_run; decide)
    (by decide) (by decide) (by decide) (by decide) (by decide)

/-! ## Lemmas: sequences of configure calls -/

/-- The conversion to `uint32_t` of a value that is at most `n` is at most `n`. -/
theorem cast_u32_le (q : ℚ) (n : Nat) (h : q ≤ (n : ℚ)) : cast_u32 q ≤ n := by
  unfold cast_u32
  refine le_trans (Nat.mod_le _ _) ?_
  rw [Int.toNat_le]
  have h1 : ((Int.floor q : Int) : ℚ) ≤ q := Int.floor_le q
  have h2 : ((Int.floor q : Int) : ℚ) ≤ ((n : Int) : ℚ) := by
    push_cast
    exact le_trans h1 h
  exact_mod_cast h2

/-- The macro `clamp` returns one of its three arguments. -/
theorem clamp_le (v L H n : Nat) (hL : L ≤ n) (hH : H ≤ n) : clamp v L H ≤ n := by
  unfold clamp
  split_ifs <;> omega

/-- The upper bound of the shape in the metadata is at most the sensor side,
for every binning other than zero. -/
theorem max_shape_le (b : Nat) (hb : b ≠ 0) : cast_u32 ((8192 : ℚ) / (b : ℚ)) ≤ 8192 := by
  apply cast_u32_le
  have hb1 : (1 : ℚ) ≤ (b : ℚ) := by exact_mod_cast Nat.one_le_iff_ne_zero.mpr hb
  push_cast
  exact div_le_self (by norm_num) hb1

/-- The strides that `compute_strides` gives a shape of one channel whose
sides fit the sensor. -/
theorem compute_strides_one_channel (shape : ImageShape) (hc : shape.dims.channels = 1)
    (hw : shape.dims.width ≤ 8192) (hh : shape.dims.height ≤ 8192) :
    (compute_strides shape).strides =
      { channels := 1, width := 1, height := (shape.dims.width : Int),
        planes := ((shape.dims.width * shape.dims.height : Nat) : Int) } := by
  have h1 : wrap_i64 (1 * ((1 : Nat) : Int)) = 1 := by
    unfold wrap_i64
    omega
  have h2 : wrap_i64 (1 * (shape.dims.width : Int)) = (shape.dims.width : Int) := by
    unfold wrap_i64
    omega
  have hprod : shape.dims.width * shape.dims.height ≤ 8192 * 8192 := Nat.mul_le_mul hw hh
  have h3 : wrap_i64 ((shape.dims.width : Int) * (shape.dims.height : Int)) =
      ((shape.dims.width * shape.dims.height : Nat) : Int) := by
    rw [← Nat.cast_mul]
    exact wrap_i64_natCast _ (by omega)
  simp only [compute_strides, hc, h1, h2, h3]

/-- The members of the properties that an accepted `simcam_set` copies from
the request as they are. -/
theorem simcam_set_accept_fields (self : SimulatedCamera) (settings : CameraProperties)
    (heap_ok : Bool) (hb0 : settings.binning ≠ 0) (hpop : popcount_u8 settings.binning = 1) :
    (simcam_set self settings heap_ok).2.1.properties.exposure_time_us =
      settings.exposure_time_us ∧
    (simcam_set self settings heap_ok).2.1.properties.line_interval_us =
      settings.line_interval_us ∧
    (simcam_set self settings heap_ok).2.1.properties.readout_direction =
      settings.readout_direction ∧
    (simcam_set self settings heap_ok).2.1.properties.pixel_type = settings.pixel_type := by
  simp only [simcam_set, hb0, hpop, if_true, if_false]
  cases heap_ok <;> split_ifs <;> simp [malloc, simcam_execute_trigger] at *

/-- Two values of `CameraProperties` with the same members are equal. -/
theorem camera_properties_eq_of_fields (a b : CameraProperties)
    (h1 : a.exposure_time_us = b.exposure_time_us) (h2 : a.line_interval_us = b.line_interval_us)
    (h3 : a.readout_direction = b.readout_direction) (h4 : a.binning = b.binning)
    (h5 : a.pixel_type = b.pixel_type) (h6 : a.shape = b.shape) (h7 : a.offset = b.offset)
    (h8 : a.input_triggers = b.input_triggers) : a = b := by
  cases a
  cases b
  simp only at h1 h2 h3 h4 h5 h6 h7 h8
  subst h1 h2 h3 h4 h5 h6 h7 h8
  rfl

/-- Two shapes with the same members are equal. -/
theorem image_shape_eq_of_fields (a b : ImageShape) (h1 : a.dims = b.dims)
    (h2 : a.strides = b.strides) (h3 : a.type = b.type) : a = b := by
  cases a
  cases b
  simp only at h1 h2 h3
  subst h1 h2 h3
  rfl

/-- A call of `simcam_set` either leaves the camera as it is (the binning is
refused) or handles a request whose binning passed the test: the request
itself, or the request with a binning of 0 replaced by 1. -/
theorem simcam_set_cases (self : SimulatedCamera) (settings : CameraProperties) (heap_ok : Bool) :
    (simcam_set self settings heap_ok).2.1 = self ∨
    ∃ req : CameraProperties, req.binning ≠ 0 ∧ popcount_u8 req.binning = 1 ∧
      (req = settings ∨ settings.binning = 0 ∧ req = { settings with binning := 1 }) ∧
      (simcam_set self settings heap_ok).1 = (simcam_set self req heap_ok).1 ∧
      (simcam_set self settings heap_ok).2.1 = (simcam_set self req heap_ok).2.1 := by
  by_cases hb : settings.binning = 0
  · right
    obtain ⟨h1, h2⟩ := simcam_set_binning_zero self settings heap_ok hb
    exact ⟨{ settings with binning := 1 }, by simp, by show popcount_u8 1 = 1; decide,
      Or.inr ⟨hb, rfl⟩, h1, h2⟩
  · by_cases hpop : popcount_u8 settings.binning = 1
    · exact Or.inr ⟨settings, hb, hpop, Or.inl rfl, rfl, rfl⟩
    · left
      rw [simcam_set_reject self settings heap_ok hb hpop]

/-- An accepted `simcam_set` leaves a shape that agrees with the properties. -/
theorem simcam_set_accept_consistent (self : SimulatedCamera) (settings : CameraProperties)
    (heap_ok : Bool) (hb0 : settings.binning ≠ 0) (hpop : popcount_u8 settings.binning = 1) :
    shape_consistent (simcam_set self settings heap_ok).2.1 ∧
    (simcam_set self settings heap_ok).2.1.im.shape.dims.width ≤ 8192 ∧
    (simcam_set self settings heap_ok).2.1.im.shape.dims.height ≤ 8192 := by
  obtain ⟨hd, hp, _⟩ := simcam_set_accept_shape self settings heap_ok hb0 hpop
  obtain ⟨_, _, _, htype, hstr, _⟩ := simcam_set_accept_rest self settings heap_ok hb0 hpop
  obtain ⟨_, _, _, hpt⟩ := simcam_set_accept_fields self settings heap_ok hb0 hpop
  have hone : cast_u32 1 ≤ 8192 := cast_u32_le 1 8192 (by norm_num)
  have hmax := max_shape_le settings.binning hb0
  have hc : (simcam_set self settings heap_ok).2.1.im.shape.dims.channels = 1 := by rw [hd]
  have hpl : (simcam_set self settings heap_ok).2.1.im.shape.dims.planes = 1 := by rw [hd]
  have hw : (simcam_set self settings heap_ok).2.1.im.shape.dims.width ≤ 8192 := by
    rw [hd]
    exact clamp_le _ _ _ _ hone (by simpa [MAX_IMAGE_WIDTH] using hmax)
  have hh : (simcam_set self settings heap_ok).2.1.im.shape.dims.height ≤ 8192 := by
    rw [hd]
    exact clamp_le _ _ _ _ hone (by simpa [MAX_IMAGE_HEIGHT] using hmax)
  refine ⟨⟨hc, hpl, ?_, ?_, ?_, ?_⟩, hw, hh⟩
  · rw [hstr]
    exact compute_strides_one_channel _ hc hw hh
  · rw [hp]
  · rw [hp]
  · rw [htype, hpt]

/-- A property that every call of `simcam_set` keeps holds after any
sequence of calls. -/
theorem simcam_set_sequence_keeps (P : SimulatedCamera → Prop)
    (calls : List (CameraProperties × Bool))
    (hstep : ∀ cam call, call ∈ calls → P cam → P (simcam_set cam call.1 call.2).2.1) :
    ∀ self, P self → P (simcam_set_sequence self calls) := by
  induction calls with
  | nil => intro self h; exact h
  | cons c cs ih =>
    intro self h
    have h1 := hstep self c (by simp) h
    have := ih (fun cam call hc hp => hstep cam call (by simp [hc]) hp) _ h1
    simpa [simcam_set_sequence] using this

/-- The power-of-two binnings of eight bits divide the sensor side. -/
theorem binning_divides_sensor (b : Nat) (hb : b < 256) (hpop : popcount_u8 b = 1) :
    8192 / b * b = 8192 ∧ 1 ≤ 8192 / b ∧ b ≠ 0 := by
  rcases popcount_u8_eq_one b hb hpop with h | h | h | h | h | h | h | h <;> subst h <;> decide

/-- The camera that `simcam_make_camera` returns has a shape that agrees
with its properties. -/
theorem simcam_make_camera_consistent (kind : BasicDeviceKind) :
    shape_consistent (simcam_make_camera kind) := by
  unfold shape_consistent
  simp only [simcam_make_camera]
  exact ⟨trivial, trivial, trivial, trivial, trivial, trivial⟩

/-- C32: stored binning is never zero. For every kind of camera and every
sequence of `simcam_set` calls on the camera that `simcam_make_camera`
returns (each request with a binning that fits its `uint8_t` member, each
call succeeding or failing), the stored binning is not zero and is a power
of two, so the divisions by it in `simcam_get_meta` are defined: the upper
bounds of the shape times the binning give back 8192. And a request with
binning 0 is handled as binning 1: `simcam_set` stores 1, writes 1 into the
caller's request, and its status only depends on the allocation. -/
theorem stored_binning_never_zero (kind : BasicDeviceKind)
    (calls : List (CameraProperties × Bool))
    (hcalls : ∀ call ∈ calls, call.1.binning < 256) :
    (∃ cam, simcam_set_sequence (simcam_make_camera kind) calls = cam ∧
      cam.properties.binning ≠ 0 ∧ is_power_of_two cam.properties.binning ∧
      (cam.properties.binning : ℚ) ≠ 0 ∧
      (simcam_get_meta cam).2.shape.x.high * (cam.properties.binning : ℚ) = 8192 ∧
      (simcam_get_meta cam).2.shape.y.high * (cam.properties.binning : ℚ) = 8192) ∧
    (∀ (self : SimulatedCamera) (settings : CameraProperties) (heap_ok : Bool),
      settings.binning = 0 →
        (simcam_set self settings heap_ok).2.1.properties.binning = 1 ∧
        (simcam_set self settings heap_ok).2.2.binning = 1 ∧
        (simcam_set self settings heap_ok).1 =
          (if heap_ok then DeviceStatusCode.Device_Ok else DeviceStatusCode.Device_Err)) := by
  constructor
  · have hinv := simcam_set_sequence_keeps
      (fun cam => cam.properties.binning < 256 ∧ popcount_u8 cam.properties.binning = 1) calls
      (by
        intro cam call hc hP
        rcases simcam_set_cases cam call.1 call.2 with h | ⟨req, hb0, hpop, hreq, _, hcam⟩
        · rw [h]
          exact hP
        · obtain ⟨_, _, hbin⟩ := simcam_set_accept_shape cam req call.2 hb0 hpop
          rw [hcam, hbin]
          refine ⟨?_, hpop⟩
          rcases hreq with h | ⟨_, h⟩
          · rw [h]
            exact hcalls call hc
          · rw [h]
            show 1 < 256
            decide)
      (simcam_make_camera kind)
      ⟨by show (1 : Nat) < 256; decide, by show popcount_u8 1 = 1; decide⟩
    obtain ⟨hlt, hpop⟩ := hinv
    obtain ⟨_, _, hb0⟩ := binning_divides_sensor _ hlt hpop
    have hq : ((simcam_set_sequence (simcam_make_camera kind) calls).properties.binning : ℚ) ≠ 0 := by
      exact_mod_cast hb0
    refine ⟨_, rfl, hb0, popcount_u8_power_of_two _ hlt hpop, hq, ?_, ?_⟩
    · simp only [simcam_get_meta, MAX_IMAGE_WIDTH]
      push_cast
      exact div_mul_cancel₀ _ hq
    · simp only [simcam_get_meta, MAX_IMAGE_HEIGHT]
      push_cast
      exact div_mul_cancel₀ _ hq
  · intro self settings heap_ok hb
    obtain ⟨h1, h2⟩ := simcam_set_binning_zero self settings heap_ok hb
    have hone : popcount_u8 ({ settings with binning := 1 } : CameraProperties).binning = 1 := by
      show popcount_u8 1 = 1
      decide
    have hne : ({ settings with binning := 1 } : CameraProperties).binning ≠ 0 := by
      show (1 : Nat) ≠ 0
      decide
    obtain ⟨_, _, hbin⟩ := simcam_set_accept_shape self { settings with binning := 1 } heap_ok
      hne hone
    obtain ⟨hst, _⟩ := simcam_set_accept_rest self { settings with binning := 1 } heap_ok
      hne hone
    refine ⟨by rw [h2, hbin], ?_, by rw [h1, hst]⟩
    simp only [simcam_set, hb, if_true, show popcount_u8 1 = 1 from by decide]
    split_ifs <;> rfl

/-- C32, witness: three calls on a fresh camera (binning 0, binning 3,
binning 128 with a failing allocation) leave a stored binning that is a
power of two. -/
theorem stored_binning_never_zero_witness :
    (∀ call ∈ three_calls, call.1.binning < 256) ∧
    ∃ cam, simcam_set_sequence (simcam_make_camera BasicDeviceKind.BasicDevice_Camera_Sin)
        three_calls = cam ∧
      cam.properties.binning ≠ 0 ∧ is_power_of_two cam.properties.binning ∧
      (cam.properties.binning : ℚ) ≠ 0 ∧
      (simcam_get_meta cam).2.shape.x.high * (cam.properties.binning : ℚ) = 8192 ∧
      (simcam_get_meta cam).2.shape.y.high * (cam.properties.binning : ℚ) = 8192 := by
  have h : ∀ call ∈ three_calls, call.1.binning < 256 := by
    intro call hc
    simp only [three_calls, List.mem_cons, List.mem_singleton, List.not_mem_nil, or_false] at hc
    rcases hc with h | h | h <;> rw [h] <;> simp [request]
  exact ⟨h, (stored_binning_never_zero BasicDeviceKind.BasicDevice_Camera_Sin three_calls h).1⟩

/-- C33: shape and properties stay consistent. For every kind of camera and
every sequence of `simcam_set` calls on the camera that `simcam_make_camera`
returns, whatever the requests and whether each call succeeds or fails, the
image shape has one channel and one plane, strides
`(1, 1, width, width * height)`, the width and height of
`properties.shape` and the sample type `properties.pixel_type`. -/
theorem shape_stays_consistent (kind : BasicDeviceKind)
    (calls : List (CameraProperties × Bool)) :
    ∃ cam, simcam_set_sequence (simcam_make_camera kind) calls = cam ∧
      cam.im.shape.dims.channels = 1 ∧ cam.im.shape.dims.planes = 1 ∧
      cam.im.shape.strides.channels = 1 ∧ cam.im.shape.strides.width = 1 ∧
      cam.im.shape.strides.height = (cam.im.shape.dims.width : Int) ∧
      cam.im.shape.strides.planes =
        (cam.im.shape.dims.width : Int) * (cam.im.shape.dims.height : Int) ∧
      cam.im.shape.dims.width = cam.properties.shape.x ∧
      cam.im.shape.dims.height = cam.properties.shape.y ∧
      cam.im.shape.type = cam.properties.pixel_type := by
  have hinv := simcam_set_sequence_keeps shape_consistent calls
    (by
      intro cam call _ hP
      rcases simcam_set_cases cam call.1 call.2 with h | ⟨req, hb0, hpop, _, _, hcam⟩
      · rw [h]
        exact hP
      · rw [hcam]
        exact (simcam_set_accept_consistent cam req call.2 hb0 hpop).1)
    (simcam_make_camera kind) (simcam_make_camera_consistent kind)
  obtain ⟨h1, h2, h3, h4, h5, h6⟩ := hinv
  refine ⟨_, rfl, h1, h2, ?_, ?_, ?_, ?_, h4, h5, h6⟩
  · rw [h3]
  · rw [h3]
  · rw [h3]
  · rw [h3]
    exact Nat.cast_mul _ _

/-- C34: the full-resolution image never exceeds the sensor. For every camera
state and every request whose binning `b` is a power of two that fits its
`uint8_t` member, if `simcam_set` returns `Device_Ok` then the width and
height that `compute_full_resolution_shape_and_offset` computes afterwards
are `b * shape.x` and `b * shape.y` without reduction modulo `2^32`, and
each is at most 8192. -/
theorem full_resolution_within_sensor (self : SimulatedCamera) (settings : CameraProperties)
    (heap_ok : Bool) (hpow : is_power_of_two settings.binning) (hb : settings.binning < 256)
    (hok : (simcam_set self settings heap_ok).1 = DeviceStatusCode.Device_Ok) :
    ∃ cam, (simcam_set self settings heap_ok).2.1 = cam ∧
      cam.properties.binning = settings.binning ∧
      (compute_full_resolution_shape_and_offset cam).1.dims.width =
        settings.binning * cam.properties.shape.x ∧
      (compute_full_resolution_shape_and_offset cam).1.dims.height =
        settings.binning * cam.properties.shape.y ∧
      settings.binning * cam.properties.shape.x ≤ MAX_IMAGE_WIDTH ∧
      settings.binning * cam.properties.shape.y ≤ MAX_IMAGE_HEIGHT ∧
      settings.binning * cam.properties.shape.x < U32 ∧
      settings.binning * cam.properties.shape.y < U32 := by
  have hb0 : settings.binning ≠ 0 := by
    obtain ⟨k, hk⟩ := hpow
    rw [hk]
    exact Nat.pos_iff_ne_zero.mp (Nat.two_pow_pos k)
  have hpop : popcount_u8 settings.binning = 1 := by
    have := simcam_set_ok_passed self settings heap_ok hok
    simpa [hb0] using this
  obtain ⟨hdiv, h1, _⟩ := binning_divides_sensor settings.binning hb hpop
  obtain ⟨_, hp, hbin⟩ := simcam_set_accept_dims self settings heap_ok hb0 hpop hdiv
  have hx : (simcam_set self settings heap_ok).2.1.properties.shape.x ≤ 8192 / settings.binning := by
    rw [hp]
    exact (clamp_bounds _ _ _ h1).2
  have hy : (simcam_set self settings heap_ok).2.1.properties.shape.y ≤ 8192 / settings.binning := by
    rw [hp]
    exact (clamp_bounds _ _ _ h1).2
  have hbx : settings.binning * (simcam_set self settings heap_ok).2.1.properties.shape.x ≤ 8192 :=
    le_trans (Nat.mul_le_mul_left _ hx) (Nat.mul_div_le _ _)
  have hby : settings.binning * (simcam_set self settings heap_ok).2.1.properties.shape.y ≤ 8192 :=
    le_trans (Nat.mul_le_mul_left _ hy) (Nat.mul_div_le _ _)
  have hux : settings.binning * (simcam_set self settings heap_ok).2.1.properties.shape.x < U32 :=
    lt_of_le_of_lt hbx (by decide)
  have huy : settings.binning * (simcam_set self settings heap_ok).2.1.properties.shape.y < U32 :=
    lt_of_le_of_lt hby (by decide)
  refine ⟨_, rfl, hbin, ?_, ?_, hbx, hby, hux, huy⟩
  · simp only [compute_full_resolution_shape_and_offset, compute_strides, hbin,
      Nat.mod_eq_of_lt hb, Nat.mod_eq_of_lt hux]
  · simp only [compute_full_resolution_shape_and_offset, compute_strides, hbin,
      Nat.mod_eq_of_lt hb, Nat.mod_eq_of_lt huy]

/-- C34, witness: binning 4 and a requested shape of 5000 by 100 on a fresh
camera: the full-resolution width is 4 * 2048 = 8192. -/
theorem full_resolution_within_sensor_witness :
    ∃ cam, (simcam_set (simcam_make_camera BasicDeviceKind.BasicDevice_Camera_Random)
        (request 4 5000 100) true).2.1 = cam ∧
      cam.properties.binning = (request 4 5000 100).binning ∧
      (compute_full_resolution_shape_and_offset cam).1.dims.width =
        (request 4 5000 100).binning * cam.properties.shape.x ∧
      (compute_full_resolution_shape_and_offset cam).1.dims.height =
        (request 4 5000 100).binning * cam.properties.shape.y ∧
      (request 4 5000 100).binning * cam.properties.shape.x ≤ MAX_IMAGE_WIDTH ∧
      (request 4 5000 100).binning * cam.properties.shape.y ≤ MAX_IMAGE_HEIGHT ∧
      (request 4 5000 100).binning * cam.properties.shape.x < U32 ∧
      (request 4 5000 100).binning * cam.properties.shape.y < U32 :=
  full_resolution_within_sensor (simcam_make_camera BasicDeviceKind.BasicDevice_Camera_Random)
    (request 4 5000 100) true ⟨2, rfl⟩ (by decide)
    (by simp [simcam_set, request, malloc, show popcount_u8 4 = 1 from by decide])

/-- Configuring a camera with the properties it stores changes neither the
properties, nor the shape, nor the trigger flag, when those properties are
what an accepted `simcam_set` leaves: a power-of-two binning, normalised
trigger settings, a shape within the bounds and in agreement with the image
shape. -/
theorem simcam_set_stored_again (self : SimulatedCamera) (heap_ok : Bool)
    (hb : self.properties.binning < 256) (hpop : popcount_u8 self.properties.binning = 1)
    (hline : self.properties.input_triggers.frame_start.line = 0)
    (hkind : self.properties.input_triggers.frame_start.kind = SignalIOKind.Signal_Input)
    (hedge : self.properties.input_triggers.frame_start.edge = TriggerEdge.TriggerEdge_Rising)
    (hx1 : 1 ≤ self.properties.shape.x)
    (hx2 : self.properties.shape.x ≤ 8192 / self.properties.binning)
    (hy1 : 1 ≤ self.properties.shape.y)
    (hy2 : self.properties.shape.y ≤ 8192 / self.properties.binning)
    (hcons : shape_consistent self) :
    (simcam_set self self.properties heap_ok).1 =
      (if heap_ok then DeviceStatusCode.Device_Ok else DeviceStatusCode.Device_Err) ∧
    (simcam_set self self.properties heap_ok).2.1.properties = self.properties ∧
    (simcam_set self self.properties heap_ok).2.1.im.shape = self.im.shape ∧
    (simcam_set self self.properties heap_ok).2.1.software_trigger = self.software_trigger ∧
    (simcam_set self self.properties heap_ok).2.2 = self.properties := by
  obtain ⟨hdiv, _, hb0⟩ := binning_divides_sensor _ hb hpop
  obtain ⟨hd, hp, hbin⟩ := simcam_set_accept_dims self self.properties heap_ok hb0 hpop hdiv
  obtain ⟨he, hl, hr, hpt⟩ := simcam_set_accept_fields self self.properties heap_ok hb0 hpop
  obtain ⟨hst, hreq, _, htype, _, _, hoff, _⟩ :=
    simcam_set_accept_rest self self.properties heap_ok hb0 hpop
  obtain ⟨htr, hflag, _⟩ := simcam_set_accept_trigger self self.properties heap_ok hb0 hpop
  obtain ⟨⟨_, _, hstr2, _, _, _⟩, _, _⟩ :=
    simcam_set_accept_consistent self self.properties heap_ok hb0 hpop
  obtain ⟨hc, hpl, hstr, hw, hh, hty⟩ := hcons
  rw [clamp_inside _ _ _ hx1 hx2, clamp_inside _ _ _ hy1 hy2] at hd hp
  refine ⟨hst, ?_, ?_, ?_, hreq⟩
  · refine camera_properties_eq_of_fields _ _ he hl hr hbin hpt ?_ hoff ?_
    · rw [hp]
    · rw [htr]
      rcases hprops : self.properties.input_triggers with ⟨⟨e, l, k, g⟩⟩
      rw [hprops] at hline hkind hedge
      simp only at hline hkind hedge
      subst hline hkind hedge
      rfl
  · refine image_shape_eq_of_fields _ _ ?_ ?_ ?_
    · rw [hd]
      rcases hdims : self.im.shape.dims with ⟨c, w, h, p⟩
      rw [hdims] at hc hpl hw hh
      simp only at hc hpl hw hh
      subst hc hpl
      rw [hw, hh]
    · rw [hstr2, hstr, hd]
      simp only [hw, hh]
    · rw [htype, hty]
  · rw [hflag]
    have hno : ¬ (self.properties.input_triggers.frame_start.enable ≠ 0 ∧
        self.properties.input_triggers.frame_start.enable = 0) := fun h => h.1 h.2
    simp only [hno, if_false]

/-- C35: reconfiguring with the queried configuration is a no-op. For every
camera state and every request `p` (with a binning that fits its `uint8_t`
member) that `simcam_set` accepts, let `q` be what `simcam_get` returns
afterwards. Then `simcam_set` with `q` succeeds when its allocation does,
and, whether the allocation succeeds or not, it leaves the stored
properties, the image shape (dims, strides, type) and the software-trigger
flag as they were, `simcam_get` returns `q` again, and the caller's copy of
`q` is not changed. -/
theorem simcam_set_requery_is_noop (self : SimulatedCamera) (p : CameraProperties)
    (heap_ok : Bool) (hb : p.binning < 256)
    (hok : (simcam_set self p heap_ok).1 = DeviceStatusCode.Device_Ok) :
    ∃ cam q, (simcam_set self p heap_ok).2.1 = cam ∧
      simcam_get cam = (DeviceStatusCode.Device_Ok, q) ∧
      (simcam_set cam q true).1 = DeviceStatusCode.Device_Ok ∧
      ∀ heap_ok2 : Bool,
        (simcam_set cam q heap_ok2).2.1.properties = cam.properties ∧
        (simcam_set cam q heap_ok2).2.1.im.shape = cam.im.shape ∧
        (simcam_set cam q heap_ok2).2.1.software_trigger = cam.software_trigger ∧
        simcam_get (simcam_set cam q heap_ok2).2.1 = (DeviceStatusCode.Device_Ok, q) ∧
        (simcam_set cam q heap_ok2).2.2 = q := by
  have hpass := simcam_set_ok_passed self p heap_ok hok
  obtain ⟨req, hreq0, hreqpop, hreqlt, hcam⟩ : ∃ req : CameraProperties,
      req.binning ≠ 0 ∧ popcount_u8 req.binning = 1 ∧ req.binning < 256 ∧
      (simcam_set self p heap_ok).2.1 = (simcam_set self req heap_ok).2.1 := by
    by_cases h0 : p.binning = 0
    · refine ⟨{ p with binning := 1 }, ?_, ?_, ?_, (simcam_set_binning_zero self p heap_ok h0).2⟩
      · show (1 : Nat) ≠ 0
        decide
      · show popcount_u8 1 = 1
        decide
      · show (1 : Nat) < 256
        decide
    · exact ⟨p, h0, by simpa [h0] using hpass, hb, rfl⟩
  obtain ⟨hdiv, h1, _⟩ := binning_divides_sensor _ hreqlt hreqpop
  obtain ⟨_, hp, hbin⟩ := simcam_set_accept_dims self req heap_ok hreq0 hreqpop hdiv
  obtain ⟨htr, _, _⟩ := simcam_set_accept_trigger self req heap_ok hreq0 hreqpop
  obtain ⟨hcons, _, _⟩ := simcam_set_accept_consistent self req heap_ok hreq0 hreqpop
  obtain ⟨hx1, hx2⟩ := clamp_bounds req.shape.x 1 (8192 / req.binning) h1
  obtain ⟨hy1, hy2⟩ := clamp_bounds req.shape.y 1 (8192 / req.binning) h1
  have hfix := fun heap_ok2 => simcam_set_stored_again (simcam_set self req heap_ok).2.1 heap_ok2
    (by rw [hbin]; exact hreqlt) (by rw [hbin]; exact hreqpop)
    (by rw [htr]) (by rw [htr]) (by rw [htr])
    (by rw [hp]; exact hx1) (by rw [hp, hbin]; exact hx2)
    (by rw [hp]; exact hy1) (by rw [hp, hbin]; exact hy2) hcons
  refine ⟨(simcam_set self p heap_ok).2.1, (simcam_set self p heap_ok).2.1.properties, rfl, rfl,
    ?_, ?_⟩
  · rw [hcam]
    exact (hfix true).1
  · intro heap_ok2
    rw [hcam]
    obtain ⟨_, h2, h3, h4, h5⟩ := hfix heap_ok2
    exact ⟨h2, h3, h4, by simp only [simcam_get, h2], h5⟩

/-- C35, witness: binning 0 and a shape of 10000 by 0 with the trigger
enabled on line 3 are accepted by a fresh camera; configuring again with
what `simcam_get` returns changes nothing. -/
theorem simcam_set_requery_is_noop_witness :
    ∃ cam q, (simcam_set (simcam_make_camera BasicDeviceKind.BasicDevice_Camera_Sin)
        { request_line 1 3 with binning := 0, shape := { x := 10000, y := 0 } } true).2.1 = cam ∧
      simcam_get cam = (DeviceStatusCode.Device_Ok, q) ∧
      (simcam_set cam q true).1 = DeviceStatusCode.Device_Ok ∧
      ∀ heap_ok2 : Bool,
        (simcam_set cam q heap_ok2).2.1.properties = cam.properties ∧
        (simcam_set cam q heap_ok2).2.1.im.shape = cam.im.shape ∧
        (simcam_set cam q heap_ok2).2.1.software_trigger = cam.software_trigger ∧
        simcam_get (simcam_set cam q heap_ok2).2.1 = (DeviceStatusCode.Device_Ok, q) ∧
        (simcam_set cam q heap_ok2).2.2 = q :=
  simcam_set_requery_is_noop (simcam_make_camera BasicDeviceKind.BasicDevice_Camera_Sin)
    { request_line 1 3 with binning := 0, shape := { x := 10000, y := 0 } } true
    (by show (0 : Nat) < 256; decide)
    (by simp [simcam_set, request_line, request, malloc, show popcount_u8 1 = 1 from by decide])

/-! ## Lemmas: the offsets of the pattern fill -/

/-- Rows of `w` items laid one after the other: when item `x` of row `y` is
`f (x + w * y)`, the `h` rows in order are `f` on `0 .. w * h - 1`. -/
theorem rows_eq_range {α : Type} (w : Nat) (g : Nat → Nat → α) (f : Nat → α) :
    ∀ h : Nat, (∀ x y, x < w → y < h → g x y = f (x + w * y)) →
      (List.range h).flatMap (fun y => (List.range w).map (fun x => g x y)) =
        (List.range (w * h)).map f := by
  intro h
  induction h with
  | zero => intro _; simp
  | succ h ih =>
    intro hg
    have hrow : (List.range w).map (fun x => g x h) =
        (List.range w).map (fun x => f (w * h + x)) := by
      apply List.map_congr_left
      intro x hx
      rw [hg x h (List.mem_range.mp hx) (Nat.lt_succ_self h), Nat.add_comm]
    rw [List.range_succ, List.flatMap_append, ih (fun x y hx hy => hg x y hx (by omega)),
      Nat.mul_succ, List.range_add, List.map_append, List.map_map]
    simp only [List.flatMap_cons, List.flatMap_nil, List.append_nil, hrow]
    rfl

/-- The element offset of pixel `(x, y)` in a shape of one channel with the
strides of `compute_strides`: `x + width * y`, below `width * height`. -/
theorem pixel_offset_row_major (s : ImageShape) (hc : s.dims.channels = 1)
    (hw : s.dims.width < U32) (hh : s.dims.height < U32) (x y : Nat)
    (hx : x < s.dims.width) (hy : y < s.dims.height) :
    pixel_offset (compute_strides s) x y = x + s.dims.width * y ∧
    x + s.dims.width * y < s.dims.width * s.dims.height := by
  have hlt : x + s.dims.width * y < s.dims.width * s.dims.height := by
    have h1 : s.dims.width * (y + 1) ≤ s.dims.width * s.dims.height :=
      Nat.mul_le_mul_left _ hy
    rw [Nat.mul_succ] at h1
    omega
  have hprod : s.dims.width * s.dims.height < U64 := by
    have : s.dims.width * s.dims.height < U32 * U32 := Nat.mul_lt_mul'' hw hh
    exact this
  have h1 : wrap_i64 (1 * ((1 : Nat) : Int)) = 1 := by
    unfold wrap_i64
    omega
  have h2 : wrap_i64 (1 * (s.dims.width : Int)) = (s.dims.width : Int) := by
    unfold wrap_i64 U32 at *
    omega
  have h3 : ((1 : Int) % (U64 : Int)).toNat = 1 := by
    unfold U64
    rfl
  have h4 : (((s.dims.width : Nat) : Int) % (U64 : Int)).toNat = s.dims.width := by
    unfold U64 U32 at *
    omega
  refine ⟨?_, hlt⟩
  simp only [pixel_offset, compute_strides, hc, h1, h2, h3, h4, Nat.one_mul]
  exact Nat.mod_eq_of_lt (lt_trans hlt hprod)

/-- A row-major offset determines the pixel. -/
theorem row_major_pixel (w x y : Nat) (hx : x < w) :
    (x + w * y) % w = x ∧ (x + w * y) / w = y := by
  constructor
  · rw [Nat.add_mul_mod_self_left]
    exact Nat.mod_eq_of_lt hx
  · rw [Nat.add_mul_div_left _ _ (by omega : 0 < w), Nat.div_eq_of_lt hx, Nat.zero_add]

/-- C38: the pattern fill covers the image exactly once. For every shape of
one channel (its width and height `uint32_t` values) with the strides that
`compute_strides` gives it, so `strides.width = 1` and
`strides.height = width`: the element offset
`strides.width * x + strides.height * y` of pixel `(x, y)` is `x + width * y`,
below `width * height`; two pixels inside the shape with the same offset are
the same pixel; every offset below `width * height` is that of a pixel inside
the shape; and the stores of `im_fill_pattern<T>`, in the order of its loops,
are one store per offset `0, 1, ..., width * height - 1`, pixel
`(o % width, o / width)` at element `o`. -/
theorem pattern_fill_covers_once (s : ImageShape) (size : Nat) (px : Nat → Nat → Nat)
    (buf : List Nat) (hc : s.dims.channels = 1)
    (hw : s.dims.width < U32) (hh : s.dims.height < U32) :
    (compute_strides s).strides.width = 1 ∧
    (compute_strides s).strides.height = (s.dims.width : Int) ∧
    (∀ x y, x < s.dims.width → y < s.dims.height →
      pixel_offset (compute_strides s) x y = x + s.dims.width * y ∧
      pixel_offset (compute_strides s) x y < s.dims.width * s.dims.height) ∧
    (∀ x y x2 y2, x < s.dims.width → y < s.dims.height →
      x2 < s.dims.width → y2 < s.dims.height →
      pixel_offset (compute_strides s) x y = pixel_offset (compute_strides s) x2 y2 →
      x = x2 ∧ y = y2) ∧
    (∀ o, o < s.dims.width * s.dims.height →
      ∃ x y, x < s.dims.width ∧ y < s.dims.height ∧
        pixel_offset (compute_strides s) x y = o) ∧
    pattern_writes size px (compute_strides s) =
      (List.range (s.dims.width * s.dims.height)).map
        (fun o => (o * size, le_bytes size (px (o % s.dims.width) (o / s.dims.width)))) ∧
    im_fill_pattern_T size px (compute_strides s) buf =
      apply_writes buf ((List.range (s.dims.width * s.dims.height)).map
        (fun o => (o * size, le_bytes size (px (o % s.dims.width) (o / s.dims.width))))) := by
  have hoff := pixel_offset_row_major s hc hw hh
  have hwrites : pattern_writes size px (compute_strides s) =
      (List.range (s.dims.width * s.dims.height)).map
        (fun o => (o * size, le_bytes size (px (o % s.dims.width) (o / s.dims.width)))) := by
    unfold pattern_writes
    show (List.range s.dims.height).flatMap (fun y => (List.range s.dims.width).map (fun x =>
      (pixel_offset (compute_strides s) x y * size, le_bytes size (px x y)))) = _
    apply rows_eq_range
    intro x y hx hy
    obtain ⟨hm, hd⟩ := row_major_pixel s.dims.width x y hx
    simp only [(hoff x y hx hy).1, hm, hd]
  refine ⟨?_, ?_, ?_, ?_, ?_, hwrites, ?_⟩
  · simp only [compute_strides, hc]
    unfold wrap_i64
    omega
  · simp only [compute_strides, hc]
    unfold wrap_i64 U32 at *
    omega
  · intro x y hx hy
    obtain ⟨h1, h2⟩ := hoff x y hx hy
    exact ⟨h1, by rw [h1]; exact h2⟩
  · intro x y x2 y2 hx hy hx2 hy2 heq
    rw [(hoff x y hx hy).1, (hoff x2 y2 hx2 hy2).1] at heq
    obtain ⟨hm, hd⟩ := row_major_pixel s.dims.width x y hx
    obtain ⟨hm2, hd2⟩ := row_major_pixel s.dims.width x2 y2 hx2
    rw [heq] at hm hd
    exact ⟨by rw [← hm, hm2], by rw [← hd, hd2]⟩
  · intro o ho
    have hwpos : 0 < s.dims.width := by
      rcases Nat.eq_zero_or_pos s.dims.width with h0 | h0
      · rw [h0, Nat.zero_mul] at ho
        omega
      · exact h0
    have hxm : o % s.dims.width < s.dims.width := Nat.mod_lt _ hwpos
    have hyd : o / s.dims.width < s.dims.height := Nat.div_lt_of_lt_mul ho
    refine ⟨o % s.dims.width, o / s.dims.width, hxm, hyd, ?_⟩
    rw [(hoff _ _ hxm hyd).1]
    exact Nat.mod_add_div o s.dims.width
  · rw [im_fill_pattern_T_eq_writes, hwrites]

/-- C38, witness: a shape of 3 by 2 samples of two bytes: the six stores go
to elements 0 to 5. -/
theorem pattern_fill_covers_once_witness :
    (pattern_writes 2 (fun x y => 10 * y + x) (compute_strides dims_three_two)).map Prod.fst =
      [0, 2, 4, 6, 8, 10] ∧
    pattern_writes 2 (fun x y => 10 * y + x) (compute_strides dims_three_two) =
      (List.range (dims_three_two.dims.width * dims_three_two.dims.height)).map
        (fun o => (o * 2, le_bytes 2 ((fun x y => 10 * y + x) (o % dims_three_two.dims.width)
          (o / dims_three_two.dims.width)))) :=
  ⟨by decide,
   (pattern_fill_covers_once dims_three_two 2 (fun x y => 10 * y + x) [] (by decide) (by decide)
    (by decide)).2.2.2.2.2.1⟩
